import Mathlib

/-!
A verification development for the sum and health HTTP service.

The Go packages `internal/models`, `internal/handlers`, `internal/middleware`,
`internal/config` and `internal/server` are embedded as executable Lean
definitions, one Lean definition per Go function, and the properties of the
service are proved as theorems about those definitions.

Conventions of the embedding

* a Go `float64` is `Float64`: every IEEE 754 binary64 datum, with the payload
  of a NaN left out; `Float64.add` is the `+` of the language (round to
  nearest, ties to even);
* a Go `error` is `Error` (its message); a nil error is `none`;
* a Go `map[string]string` is `StringMap`: `none` is the nil map, and the
  entries are listed in the order in which a `range` loop visits them; the
  one loop over a map in the sources yields the same result for every such
  order (`healthLoop_perm`), so a map built by assignments is iterated in
  the order of the assignments;
* what a function reads from outside the repository (the clock, the memory
  statistics, the goroutine count, the JSON binder of the web framework) is a
  field of `World`; what it writes (log entries, the response) is appended to
  `World` and to the request `Context`;
* a handler of the web framework takes what its `c.Next()` does as its first
  argument, and a panic is the second component of an `Outcome`;
* `c.JSON` writes a body when the encoder accepts the object; it refuses a
  `float64` that is not a number, and then nothing is written and the chain is
  aborted;
* the registration of a route returns the router or the panic of the router
  (`Except`); what the tree of the router decides on wildcards is a parameter;
* the environment variables and the parsers of the standard library are the
  fields of `config.Environ`.
-/

/-! ## float64 -/

/-- An IEEE 754 binary64 datum: `exp` is the biased exponent field and `frac`
the 52 bit fraction field; `exp = 0` holds the zeros and the subnormals. -/
inductive Float64 where
  | nan
  | inf (neg : Bool)
  | fin (neg : Bool) (exp : Fin 2047) (frac : Fin (2 ^ 52))
  deriving DecidableEq, Repr

namespace Float64

/-- Number of binary digits of `n`, counted with `fuel` steps at most. -/
def bitLenAux : Nat → Nat → Nat
  | 0, _ => 0
  | fuel + 1, n => if n = 0 then 0 else bitLenAux fuel (n / 2) + 1

/-- Number of binary digits of `n` (`0` for `0`). -/
def bitLen (n : Nat) : Nat := bitLenAux n n

/-- Integer significand of a finite datum: the hidden bit is set unless the
exponent field is zero. -/
def significand (exp : Fin 2047) (frac : Fin (2 ^ 52)) : Nat :=
  if exp.val = 0 then frac.val else 2 ^ 52 + frac.val

/-- Exponent `e` such that the datum is `significand * 2 ^ (e - 1075)`. -/
def scale (exp : Fin 2047) : Nat :=
  if exp.val = 0 then 1 else exp.val

/-- The binary64 nearest to `s * 2 ^ (e - 1075)` for `0 < s` and `1 ≤ e`, ties
to even, with the sign `neg`; overflow gives an infinity. -/
def round (neg : Bool) (s : Nat) (e : Nat) : Float64 :=
  let len := bitLen s
  if len ≤ 53 then
    let k := min (53 - len) (e - 1)
    let s1 := s <<< k
    if h : s1 < 2 ^ 52 then fin neg ⟨0, by decide⟩ ⟨s1, h⟩
    else if h : e - k < 2047 then
      fin neg ⟨e - k, h⟩ ⟨s1 % 2 ^ 52, Nat.mod_lt _ (Nat.two_pow_pos 52)⟩
    else inf neg
  else
    let shift := len - 53
    let q := s >>> shift
    let r := s - (q <<< shift)
    let half := 1 <<< (shift - 1)
    let q1 := if half < r ∨ (r = half ∧ q % 2 = 1) then q + 1 else q
    let e1 := if q1 = 2 ^ 53 then e + shift + 1 else e + shift
    if h : e1 < 2047 then
      fin neg ⟨e1, h⟩ ⟨q1 % 2 ^ 52, Nat.mod_lt _ (Nat.two_pow_pos 52)⟩
    else inf neg

/-- The `+` of Go on `float64`: IEEE 754 addition, round to nearest even. -/
def add : Float64 → Float64 → Float64
  | nan, _ => nan
  | _, nan => nan
  | inf a, inf b => if a = b then inf a else nan
  | inf a, fin _ _ _ => inf a
  | fin _ _ _, inf b => inf b
  | fin s1 e1 m1, fin s2 e2 m2 =>
    let e := min (scale e1) (scale e2)
    let a := significand e1 m1 <<< (scale e1 - e)
    let b := significand e2 m2 <<< (scale e2 - e)
    if s1 = s2 then
      if a + b = 0 then fin s1 ⟨0, by decide⟩ ⟨0, by decide⟩ else round s1 (a + b) e
    else if a = b then fin false ⟨0, by decide⟩ ⟨0, by decide⟩
    else if b < a then round s1 (a - b) e
    else round s2 (b - a) e

/-- The literal `0.0`. -/
def zero : Float64 := fin false ⟨0, by decide⟩ ⟨0, by decide⟩

/-- The binary64 nearest to `n / 2 ^ k`, for `k ≤ 1074`: the value of a decimal
literal such as `1.5`, which is `dyadic 3 1`. -/
def dyadic (n k : Nat) : Float64 :=
  if n = 0 then zero else round false n (1075 - k)

/-- The rational number a datum stands for; `none` for NaN and the infinities. -/
def toRat : Float64 → Option ℚ
  | nan => none
  | inf _ => none
  | fin neg exp frac =>
    let x : ℚ := (significand exp frac : ℚ) * (2 : ℚ) ^ ((scale exp : Int) - 1075)
    some (if neg then -x else x)

end Float64

/-! ## Values of the Go runtime -/

/-- A Go `error` value that is not nil, as the message `Error()` returns. -/
structure Error where
  msg : String
  deriving DecidableEq, Repr

/-- The verb `%d` of package `fmt` applied to an `int`. -/
def fmtD (n : Int) : String := toString n

/-- The call `fmt.Errorf(pre + "%d", n)`: the message is `pre` followed by the
decimal digits of `n`. -/
def Errorf (pre : String) (n : Int) : Error := ⟨pre ++ fmtD n⟩

/-- A Go `map[string]string`; `none` is the nil map. -/
abbrev StringMap := Option (List (String × String))

/-- The entries a `range` loop over the map visits. -/
def StringMap.entries : StringMap → List (String × String)
  | none => []
  | some kvs => kvs

/-- Assignment `m[k] = v` on the entry list of a map that is not nil. -/
def setEntry (k v : String) : List (String × String) → List (String × String)
  | [] => [(k, v)]
  | (k1, v1) :: rest => if k1 = k then (k, v) :: rest else (k1, v1) :: setEntry k v rest

/-- Assignment `m[k] = v` on a map made with `make`. -/
def StringMap.set (m : StringMap) (k v : String) : StringMap :=
  some (setEntry k v m.entries)

/-- A reading of `time.Now()`: the wall clock and the monotonic clock, both in
nanoseconds. -/
structure Time where
  wall : Int
  mono : Int
  deriving DecidableEq, Repr

/-- The constant `time.Microsecond`, a `Duration` in nanoseconds. -/
def Microsecond : Int := 1000

/-! ## Package models -/

namespace models

/-- The request payload of the sum endpoint. -/
structure SumRequest where
  Numbers : List Float64
  deriving DecidableEq, Repr

/-- The method `(*SumRequest).Validate`; `none` is the nil error. -/
def SumRequest.Validate (s : SumRequest) : Option Error :=
  if s.Numbers.length < 2 then
    some (Errorf "at least 2 numbers are required, got " s.Numbers.length)
  else if s.Numbers.length > 100 then
    some (Errorf "maximum 100 numbers allowed, got " s.Numbers.length)
  else
    none

/-- The response payload of the sum endpoint. -/
structure SumResponse where
  Sum : Float64
  Count : Nat
  Numbers : List Float64
  Timestamp : Time
  RequestID : String
  deriving DecidableEq, Repr

/-- The response payload of the health endpoints. -/
structure HealthResponse where
  Status : String
  Timestamp : Time
  Version : String
  Uptime : String
  Checks : StringMap
  RequestID : String
  deriving DecidableEq, Repr

/-- The standardized error response. -/
structure ErrorResponse where
  Error : String
  Code : String
  Details : StringMap
  Timestamp : Time
  RequestID : String
  Path : String
  deriving DecidableEq, Repr

/-- The loop `for _, num := range numbers { sum += num }` from the state in
which the accumulator holds `sum`. -/
def sumLoop : List Float64 → Float64 → Float64
  | [], sum => sum
  | num :: rest, sum => sumLoop rest (Float64.add sum num)

/-- The function `NewSumResponse`; `now` is the reading of `time.Now().UTC()`. -/
def NewSumResponse (now : Time) (numbers : List Float64) (requestID : String) : SumResponse :=
  let sum := sumLoop numbers Float64.zero
  { Sum := sum
    Count := numbers.length
    Numbers := numbers
    Timestamp := now
    RequestID := requestID }

/-- The loop of `NewHealthResponse` over the checks still to visit, from the
state in which the variable `status` holds `status`; a `break` ends it. -/
def healthLoop : List (String × String) → String → String
  | [], status => status
  | (_, checkStatus) :: rest, status =>
    if checkStatus ≠ "ok" then "unhealthy" else healthLoop rest status

/-- The function `NewHealthResponse`. -/
def NewHealthResponse (now : Time) (version uptime : String) (checks : StringMap)
    (requestID : String) : HealthResponse :=
  let status := healthLoop checks.entries "healthy"
  { Status := status
    Timestamp := now
    Version := version
    Uptime := uptime
    Checks := checks
    RequestID := requestID }

/-- The function `NewErrorResponse`. -/
def NewErrorResponse (now : Time) (err : Error) (code path requestID : String) :
    ErrorResponse :=
  { Error := err.msg
    Code := code
    Details := none
    Timestamp := now
    RequestID := requestID
    Path := path }

/-- The method `(*HealthResponse).IsHealthy`. -/
def HealthResponse.IsHealthy (h : HealthResponse) : Bool :=
  h.Status == "healthy"

end models

/-! ## The request context and the world around a handler -/

/-- A value stored under a key of the request context (a Go `interface{}`):
a string, or a value of another dynamic type. -/
inductive Any where
  | str (s : String)
  | other (n : Int)
  deriving DecidableEq, Repr

/-- The type assertion `v.(string)` in its two-result form, applied to the
result of a lookup: the string, or `""` when the value is missing or is not a
string. -/
def Any.assertString : Option Any → String
  | some (Any.str s) => s
  | _ => ""

/-- The parts of an inbound `http.Request` the handlers and the middleware read.

* `Path` is `URL.Path` and `URL` is the text `URL.String()` renders, `none`
  for a nil `URL`;
* `Header` lists each header name once, with its values; the names are taken
  to be written the same way wherever they occur (the canonical form of
  `net/http` is left out);
* `ClientIP` is the address `c.ClientIP()` resolves for the request. -/
structure Request where
  Method : String
  Path : String
  Header : List (String × List String)
  Body : String
  URL : Option String := none
  Proto : String := "HTTP/1.1"
  ContentLength : Int := 0
  ClientIP : String := ""
  deriving DecidableEq, Repr

/-- A value without structure in a `map[string]interface{}` literal. -/
inductive InfoLeaf where
  | str (s : String)
  | int (n : Int)
  | num (x : Float64)
  | nums (xs : List Float64)
  deriving DecidableEq, Repr

/-- An entry of a `map[string]interface{}` literal: a value without structure,
or a map of such values. -/
inductive InfoField where
  | leaf (v : InfoLeaf)
  | obj (fields : List (String × InfoLeaf))
  deriving DecidableEq, Repr

/-- An object handed to `c.JSON` for serialisation; `info` is a
`map[string]interface{}`, its entries listed as the literal lists them. -/
inductive Payload where
  | sum (r : models.SumResponse)
  | health (r : models.HealthResponse)
  | error (r : models.ErrorResponse)
  | info (fields : List (String × InfoField))
  deriving DecidableEq, Repr

/-- Whether a datum is a number: neither `math.IsNaN` nor `math.IsInf` holds
of it. -/
def Float64.isFinite : Float64 → Bool
  | Float64.fin _ _ _ => true
  | _ => false

/-- The text `encoding/json` prints for a `float64` it refuses, which is the
text of `strconv.FormatFloat(x, 'g', -1, 64)`: a NaN or an infinity is refused,
every other datum is encoded (`none`). -/
def Float64.unsupportedText : Float64 → Option String
  | Float64.nan => some "NaN"
  | Float64.inf false => some "+Inf"
  | Float64.inf true => some "-Inf"
  | Float64.fin _ _ _ => none

/-- The first datum of a slice that `encoding/json` refuses, as a text. -/
def firstUnsupported : List Float64 → Option String
  | [] => none
  | x :: rest =>
    match x.unsupportedText with
    | some t => some t
    | none => firstUnsupported rest

/-- The first datum of a value of a map literal that `encoding/json` refuses. -/
def InfoLeaf.unsupported : InfoLeaf → Option String
  | InfoLeaf.num x => x.unsupportedText
  | InfoLeaf.nums xs => firstUnsupported xs
  | _ => none

/-- The first datum of the entries of a map that `encoding/json` refuses. -/
def leavesUnsupported : List (String × InfoLeaf) → Option String
  | [] => none
  | (_, v) :: rest =>
    match v.unsupported with
    | some t => some t
    | none => leavesUnsupported rest

/-- The first datum of the entries of a map literal that `encoding/json`
refuses, the entries taken as they are listed. -/
def fieldsUnsupported : List (String × InfoField) → Option String
  | [] => none
  | (_, InfoField.leaf v) :: rest =>
    match v.unsupported with
    | some t => some t
    | none => fieldsUnsupported rest
  | (_, InfoField.obj fields) :: rest =>
    match leavesUnsupported fields with
    | some t => some t
    | none => fieldsUnsupported rest

/-- The error of `json.Marshal` for an object, `none` when the object is
encoded. The one failure of the encoder on the objects of this service is a
`float64` that is a NaN or an infinity (`UnsupportedValueError`); the fields of
a `SumResponse` are encoded in the order of their declaration, `Sum` before
`Numbers`. Strings, integers, maps of strings and the timestamps are encoded. -/
def Payload.marshalError : Payload → Option Error
  | Payload.sum r =>
    match r.Sum.unsupportedText with
    | some t => some ⟨"json: unsupported value: " ++ t⟩
    | none =>
      match firstUnsupported r.Numbers with
      | some t => some ⟨"json: unsupported value: " ++ t⟩
      | none => none
  | Payload.health _ => none
  | Payload.error _ => none
  | Payload.info fields =>
    match fieldsUnsupported fields with
    | some t => some ⟨"json: unsupported value: " ++ t⟩
    | none => none

/-- The value of one field of a structured log entry. -/
inductive LogValue where
  | str (s : String)
  | int (n : Int)
  | float (x : Float64)
  | floats (xs : List Float64)
  | checks (m : StringMap)
  deriving DecidableEq, Repr

/-- One entry handed to the logger. -/
structure LogEntry where
  level : String
  msg : String
  err : Option Error
  fields : List (String × LogValue)
  deriving DecidableEq, Repr

/-- The metric vectors of package `middleware`. -/
inductive Metric where
  | httpDuration
  | httpRequests
  | httpRequestSize
  | httpResponseSize
  deriving DecidableEq, Repr

/-- What is recorded on a metric: the duration handed to `Observe` after
`Seconds()`, a byte count handed to `Observe` after the conversion to
`float64`, or an increment by one. -/
inductive Sample where
  | seconds (nanoseconds : Int)
  | bytes (n : Int)
  | inc
  deriving DecidableEq, Repr

/-- One call `vec.WithLabelValues(labels...).Observe(v)` or `.Inc()`. -/
structure Observation where
  metric : Metric
  labels : List String
  sample : Sample
  deriving DecidableEq, Repr

/-- The functions of package `models` a handler can enter. -/
inductive Call where
  | Validate
  | NewSumResponse
  | NewHealthResponse
  | NewErrorResponse
  deriving DecidableEq, Repr

/-- The `*gin.Context` of one request: the request, the key/value store of
`c.Set` and `c.Get`, and the bodies the `c.JSON` calls have written so far,
oldest first, each with the status code of its call; further

* `FullPath` is the pattern of the matched route, `""` when no route matched;
* `WriterHeader` holds the response headers set with `c.Header`;
* `index` is the position in the handler chain (`-1` before the chain starts,
  `abortIndex` after `c.Abort`); handlers change it through `c.Next` and
  `c.Abort` only;
* `status` is the status the response writer holds (200 when the chain starts
  for a matched route); it is the status the client receives, and it is fixed
  once a body is written;
* `Errors` holds the errors attached with `c.Error`. -/
structure Context where
  Request : Request
  Keys : List (String × Any)
  Written : List (Nat × Payload)
  FullPath : String := ""
  WriterHeader : List (String × String) := []
  index : Int := -1
  status : Nat := 200
  Errors : List Error := []
  deriving DecidableEq, Repr

/-- The call `c.Get(key)`; `none` when the key was never set. -/
def Context.Get (c : Context) (key : String) : Option Any :=
  c.Keys.lookup key

/-- The constant `abortIndex` of the framework. -/
def abortIndex : Int := 63

/-- The call `c.Abort()`. -/
def Context.Abort (c : Context) : Context :=
  { c with index := abortIndex }

/-- The call `c.JSON(code, obj)`, for a status code that allows a body, as all
status codes of this service do. The call `c.Status(code)` sets the status of
the writer unless a body is written already. Then the object is encoded: when
`json.Marshal` succeeds the body is written, and when it fails nothing is
written, the error is attached with `c.Error` and the chain is aborted with
`c.Abort()`. -/
def Context.JSON (c : Context) (code : Nat) (obj : Payload) : Context :=
  let status := if c.Written = [] then code else c.status
  match obj.marshalError with
  | none => { c with status := status, Written := c.Written ++ [(code, obj)] }
  | some err =>
    { c with status := status, Errors := c.Errors ++ [err], index := abortIndex }

/-- What a handler reads from, and leaves in, its surroundings.

* `clock n` is the reading `time.Now()` returns at its `n`-th call, and
  `ticks` counts the calls made so far;
* `Alloc` is `runtime.MemStats.Alloc` and `NumGoroutine` is
  `runtime.NumGoroutine()` at the time of the request;
* `ShouldBindJSON` is the binder of the web framework, applied to the request
  body: the bound request, or the binding error;
* `durationString` is `time.Duration.String`;
* `log` holds the entries handed to the logger and `calls` the functions of
  package `models` entered, both oldest first;
* `activeConnections` is the value of the gauge of that name; the gauge moves
  by whole steps only, so it is counted in integers;
* `observations` holds the calls made on the metric vectors, oldest first;
* `renderSize` is the number of bytes `c.JSON` writes for an object;
* `Stack` is the text `runtime.Stack` returns in a deferred function;
* `formatStamp` is `Time.Format` with the layout `20060102150405`. -/
structure World where
  clock : Nat → Time
  ticks : Nat
  Alloc : Nat
  NumGoroutine : Int
  ShouldBindJSON : String → Except Error models.SumRequest
  durationString : Int → String
  log : List LogEntry
  calls : List Call
  activeConnections : Int := 0
  observations : List Observation := []
  renderSize : Payload → Nat := fun _ => 0
  Stack : String := ""
  formatStamp : Time → String := fun _ => ""

/-- The call `time.Now()`. -/
def World.Now (w : World) : Time × World :=
  (w.clock w.ticks, { w with ticks := w.ticks + 1 })

/-- The largest `time.Duration`. -/
def maxDuration : Int := 2 ^ 63 - 1

/-- The smallest `time.Duration`. -/
def minDuration : Int := -(2 ^ 63)

/-- Wrap of an integer to the 64 bit signed range, as the subtraction of two
`int64` values does. -/
def wrap64 (x : Int) : Int := (x + 2 ^ 63) % 2 ^ 64 - 2 ^ 63

/-- The function `subMono` of package `time`: the difference of two monotonic
readings, saturated to the range of `Duration`. -/
def subMono (t u : Int) : Int :=
  let d := wrap64 (t - u)
  if d < 0 ∧ t > u then maxDuration
  else if d > 0 ∧ t < u then minDuration
  else d

/-- The call `time.Since(t)` for a `t` that carries a monotonic reading. -/
def World.Since (w : World) (t : Time) : Int × World :=
  let (now, w) := w.Now
  (subMono now.mono t.mono, w)

/-- Handing one entry to the logger. -/
def World.logEntry (w : World) (e : LogEntry) : World :=
  { w with log := w.log ++ [e] }

/-- Entering a function of package `models`. -/
def World.enter (w : World) (f : Call) : World :=
  { w with calls := w.calls ++ [f] }

/-- The logger of package `logger`, as configured by `logger.New`. -/
structure Logger where
  level : String
  format : String
  deriving DecidableEq, Repr

/-- The function `logger.HealthCheckFields`. -/
def HealthCheckFields : List (String × LogValue) :=
  [("component", LogValue.str "health_check"), ("type", LogValue.str "health_check")]

namespace middleware

/-- The key under which the request ID is stored in the context. -/
def RequestIDKey : String := "request_id"

end middleware

/-- The constant `http.StatusOK`. -/
def StatusOK : Nat := 200

/-- The constant `http.StatusBadRequest`. -/
def StatusBadRequest : Nat := 400

/-- The constant `http.StatusServiceUnavailable`. -/
def StatusServiceUnavailable : Nat := 503

/-! ## Package handlers -/

namespace handlers

/-- The handler of the sum requests. -/
structure SumHandler where
  logger : Logger
  deriving DecidableEq, Repr

/-- The method `(*SumHandler).HandleSum`, for `POST /api/v1/sum`. -/
def SumHandler.HandleSum (_s : SumHandler) (w : World) (c : Context) : World × Context :=
  let requestID := c.Get middleware.RequestIDKey
  let reqID := Any.assertString requestID
  match w.ShouldBindJSON c.Request.Body with
  | Except.error err =>
    let w := w.logEntry
      { level := "error", msg := "Failed to bind request", err := some err,
        fields := [("component", LogValue.str "sum_handler"),
                   ("operation", LogValue.str "bind_request"),
                   ("request_id", LogValue.str reqID)] }
    let w := w.enter Call.NewErrorResponse
    let (now, w) := w.Now
    let errorResponse :=
      models.NewErrorResponse now err "INVALID_REQUEST_BODY" c.Request.Path reqID
    (w, c.JSON StatusBadRequest (Payload.error errorResponse))
  | Except.ok request =>
    let w := w.enter Call.Validate
    match request.Validate with
    | some err =>
      let w := w.logEntry
        { level := "error", msg := "Request validation failed", err := some err,
          fields := [("component", LogValue.str "sum_handler"),
                     ("operation", LogValue.str "validate_request"),
                     ("request_id", LogValue.str reqID),
                     ("numbers", LogValue.floats request.Numbers)] }
      let w := w.enter Call.NewErrorResponse
      let (now, w) := w.Now
      let errorResponse :=
        models.NewErrorResponse now err "VALIDATION_ERROR" c.Request.Path reqID
      (w, c.JSON StatusBadRequest (Payload.error errorResponse))
    | none =>
      let w := w.logEntry
        { level := "info", msg := "Processing sum calculation", err := none,
          fields := [("component", LogValue.str "sum_handler"),
                     ("operation", LogValue.str "calculate_sum"),
                     ("request_id", LogValue.str reqID),
                     ("number_count", LogValue.int request.Numbers.length)] }
      let w := w.enter Call.NewSumResponse
      let (now, w) := w.Now
      let response := models.NewSumResponse now request.Numbers reqID
      let w := w.logEntry
        { level := "info", msg := "Sum calculation completed", err := none,
          fields := [("component", LogValue.str "sum_handler"),
                     ("operation", LogValue.str "sum_calculated"),
                     ("request_id", LogValue.str reqID),
                     ("sum", LogValue.float response.Sum),
                     ("count", LogValue.int response.Count)] }
      (w, c.JSON StatusOK (Payload.sum response))

/-- The handler of the health check requests. -/
structure HealthHandler where
  logger : Logger
  startTime : Time
  version : String
  deriving DecidableEq, Repr

/-- The method `(*HealthHandler).checkMemory`. -/
def HealthHandler.checkMemory (_h : HealthHandler) (w : World) : String :=
  if w.Alloc > 1024 * 1024 * 1024 then "high_memory_usage" else "ok"

/-- The method `(*HealthHandler).checkGoroutines`. -/
def HealthHandler.checkGoroutines (_h : HealthHandler) (w : World) : String :=
  let numGoroutines := w.NumGoroutine
  if numGoroutines > 1000 then "high_goroutine_count_" ++ fmtD numGoroutines else "ok"

/-- The method `(*HealthHandler).checkUptime`. -/
def HealthHandler.checkUptime (h : HealthHandler) (w : World) : String × World :=
  let (uptime, w) := w.Since h.startTime
  if uptime < Microsecond then ("starting", w) else ("ok", w)

/-- The method `(*HealthHandler).performHealthChecks`. -/
def HealthHandler.performHealthChecks (h : HealthHandler) (w : World) : StringMap × World :=
  let checks : StringMap := some []
  let checks := checks.set "memory" (h.checkMemory w)
  let checks := checks.set "goroutines" (h.checkGoroutines w)
  let (up, w) := h.checkUptime w
  let checks := checks.set "uptime" up
  (checks, w)

/-- The method `(*HealthHandler).HandleHealth`, for `GET /healthz`. -/
def HealthHandler.HandleHealth (h : HealthHandler) (w : World) (c : Context) :
    World × Context :=
  let requestID := c.Get middleware.RequestIDKey
  let reqID := Any.assertString requestID
  let (checks, w) := h.performHealthChecks w
  let (since, w) := w.Since h.startTime
  let uptime := w.durationString since
  let w := w.enter Call.NewHealthResponse
  let (now, w) := w.Now
  let response := models.NewHealthResponse now h.version uptime checks reqID
  let w := w.logEntry
    { level := "info", msg := "Health check performed", err := none,
      fields := HealthCheckFields ++
        [("status", LogValue.str response.Status),
         ("request_id", LogValue.str reqID),
         ("checks", LogValue.checks checks)] }
  let statusCode := if !response.IsHealthy then StatusServiceUnavailable else StatusOK
  (w, c.JSON statusCode (Payload.health response))

end handlers

/-! ## The handler chain of the web framework -/

/-- The value a `panic` carries, as the verb `%v` prints it. The value is not
nil: a `recover()` that returns nil stands for the absence of a panic. -/
structure PanicValue where
  text : String
  deriving DecidableEq, Repr

/-- The state a function leaves behind and, when it panicked, the panic that
unwinds the stack. -/
abbrev Outcome := (World × Context) × Option PanicValue

/-- A piece of code that runs on the world and the context and may panic. -/
abbrev ChainAction := World → Context → Outcome

/-- A `gin.HandlerFunc`; the first argument is what the call `c.Next()` does at
the place the handler has in its chain. -/
abbrev HandlerFunc := ChainAction → ChainAction

/-- A handler method that neither calls `c.Next()` nor panics. -/
def plainHandler (h : World → Context → World × Context) : HandlerFunc :=
  fun _ w c => (h w c, none)

/-- The loop `for c.index < len(c.handlers)` of `c.Next()`, seen from the
position `pos`: `rest` holds the handlers from `pos` on. A handler runs when
`c.index` points at it; after it returned, `c.index` is incremented and the
loop goes on; a panic ends the loop. The `c.Next()` of the handler at `pos`
increments `c.index` and runs the same loop over the handlers behind it. -/
def nextLoop : List HandlerFunc → Nat → ChainAction
  | [], _ => fun w c => ((w, c), none)
  | h :: rest, pos => fun w c =>
    if c.index = (pos : Int) then
      match h (fun w1 c1 => nextLoop rest (pos + 1) w1 { c1 with index := c1.index + 1 }) w c with
      | ((w2, c2), some p) => ((w2, c2), some p)
      | ((w2, c2), none) => nextLoop rest (pos + 1) w2 { c2 with index := c2.index + 1 }
    else nextLoop rest (pos + 1) w c

/-- The call `c.Next()` the engine makes to serve a request with the handler
chain `handlers`. -/
def serve (handlers : List HandlerFunc) : ChainAction :=
  fun w c => nextLoop handlers 0 w { c with index := c.index + 1 }

/-- The call `c.Set(key, value)`. -/
def Context.Set (c : Context) (key : String) (value : Any) : Context :=
  { c with Keys := (key, value) :: c.Keys.filter (fun kv => kv.1 != key) }

/-- The method `Header.Get` of `net/http`: the first value of the header. -/
def headerGet (header : List (String × List String)) (key : String) : String :=
  match header.lookup key with
  | some (value :: _) => value
  | _ => ""

/-- The call `c.GetHeader(key)`. -/
def Context.GetHeader (c : Context) (key : String) : String :=
  headerGet c.Request.Header key

/-- The method `(*http.Request).UserAgent`. -/
def Request.UserAgent (r : Request) : String :=
  headerGet r.Header "User-Agent"

/-- The call `c.Header(key, value)`: an empty value deletes the header. -/
def Context.Header (c : Context) (key value : String) : Context :=
  if value = "" then
    { c with WriterHeader := c.WriterHeader.filter (fun kv => kv.1 != key) }
  else
    { c with WriterHeader := (key, value) :: c.WriterHeader.filter (fun kv => kv.1 != key) }

/-- The response header of the given name, `""` when it is not set. -/
def Context.WriterHeaderGet (c : Context) (key : String) : String :=
  match c.WriterHeader.lookup key with
  | some value => value
  | none => ""

/-- The call `c.Writer.Status()`. -/
def Context.Status (c : Context) : Nat :=
  c.status

/-- The bytes written by a list of `c.JSON` calls, when `renderSize` gives the
bytes of each object. -/
def writtenSize (renderSize : Payload → Nat) : List (Nat × Payload) → Int
  | [] => 0
  | (_, obj) :: rest => (renderSize obj : Int) + writtenSize renderSize rest

/-- The call `c.Writer.Size()`: `-1` as long as nothing is written. -/
def Context.Size (c : Context) (renderSize : Payload → Nat) : Int :=
  match c.Written with
  | [] => -1
  | written => writtenSize renderSize written

/-- The request ID an object handed to `c.JSON` carries: the field
`RequestID` of a response structure, the entry `request_id` of a map. -/
def Payload.requestID : Payload → String
  | Payload.sum r => r.RequestID
  | Payload.health r => r.RequestID
  | Payload.error r => r.RequestID
  | Payload.info fields =>
    match fields.lookup "request_id" with
    | some (InfoField.leaf (InfoLeaf.str s)) => s
    | _ => ""

/-- The method `(*Logger).LogHTTPRequest`. -/
def Logger.LogHTTPRequest (_l : Logger) (method path userAgent clientIP : String)
    (statusCode : Nat) (latency : Int) (requestID : String) (w : World) : World :=
  w.logEntry
    { level := "info", msg := "HTTP request processed", err := none,
      fields := [("method", LogValue.str method),
                 ("path", LogValue.str path),
                 ("status_code", LogValue.int statusCode),
                 ("latency_ms", LogValue.int (latency.tdiv 1000000)),
                 ("user_agent", LogValue.str userAgent),
                 ("client_ip", LogValue.str clientIP),
                 ("request_id", LogValue.str requestID),
                 ("type", LogValue.str "http_request")] }

/-- The method `(*Logger).LogError`; `none` is the nil map of fields. -/
def Logger.LogError (_l : Logger) (err : Error) (component operation : String)
    (fields : Option (List (String × LogValue))) (w : World) : World :=
  let entry : List (String × LogValue) :=
    [("component", LogValue.str component),
     ("operation", LogValue.str operation),
     ("type", LogValue.str "error")]
  let entry := match fields with
    | some fs => entry ++ fs
    | none => entry
  w.logEntry { level := "error", msg := "Operation failed", err := some err, fields := entry }

/-- The constant `http.StatusInternalServerError`. -/
def StatusInternalServerError : Nat := 500

/-! ## Package middleware -/

namespace middleware

/-- The constant `charset` of `randomString`. -/
def charset : String := "abcdefghijklmnopqrstuvwxyzABCDEFGHIJKLMNOPQRSTUVWXYZ0123456789"

/-- The loop of `randomString` with `n` bytes still to fill and `b` filled so
far: each round reads the clock and indexes the charset with
`UnixNano() % 62`, the remainder of the truncated division; an index out of
range panics. -/
def randomLoop : Nat → List Char → World → Except PanicValue (List Char) × World
  | 0, b, w => (Except.ok b, w)
  | n + 1, b, w =>
    let (now, w) := w.Now
    let i := Int.tmod now.wall (charset.length : Int)
    if 0 ≤ i then
      match charset.data.get? i.toNat with
      | some ch => randomLoop n (b ++ [ch]) w
      | none => (Except.error ⟨"runtime error: index out of range [" ++ fmtD i ++ "]"⟩, w)
    else
      (Except.error ⟨"runtime error: index out of range [" ++ fmtD i ++ "]"⟩, w)

/-- The function `randomString`. -/
def randomString (length : Nat) (w : World) : Except PanicValue String × World :=
  match randomLoop length [] w with
  | (Except.ok b, w) => (Except.ok (String.mk b), w)
  | (Except.error p, w) => (Except.error p, w)

/-- The function `generateRequestID`. -/
def generateRequestID (w : World) : Except PanicValue String × World :=
  let (now, w) := w.Now
  let stamp := w.formatStamp now
  match randomString 8 w with
  | (Except.ok r, w) => (Except.ok (stamp ++ "-" ++ r), w)
  | (Except.error p, w) => (Except.error p, w)

/-- The function `LoggingMiddleware`. -/
def LoggingMiddleware (log : Logger) : HandlerFunc := fun Next w c =>
  let (start, w) := w.Now
  let requestID := c.GetHeader "X-Request-ID"
  match (if requestID = "" then generateRequestID w else (Except.ok requestID, w)) with
  | (Except.error p, w) => ((w, c), some p)
  | (Except.ok requestID, w) =>
    let c := c.Set RequestIDKey (Any.str requestID)
    let c := c.Header "X-Request-ID" requestID
    match Next w c with
    | ((w, c), some p) => ((w, c), some p)
    | ((w, c), none) =>
      let (latency, w) := w.Since start
      let w := log.LogHTTPRequest c.Request.Method c.Request.Path c.Request.UserAgent
        c.Request.ClientIP c.Status latency requestID w
      ((w, c), none)

/-- The function `RecoveryMiddleware`: the deferred function runs when
`c.Next()` has returned or panicked, and `recover()` is not nil in the second
case only. -/
def RecoveryMiddleware (log : Logger) : HandlerFunc := fun Next w c =>
  match Next w c with
  | ((w, c), none) => ((w, c), none)
  | ((w, c), some err) =>
    let requestID := c.Get RequestIDKey
    let reqID := Any.assertString requestID
    let stackTrace := w.Stack
    let w := log.LogError ⟨"panic recovered: " ++ err.text⟩ "recovery_middleware"
      "panic_recovery"
      (some [("stack_trace", LogValue.str stackTrace),
             ("request_id", LogValue.str reqID),
             ("method", LogValue.str c.Request.Method),
             ("path", LogValue.str c.Request.Path),
             ("client_ip", LogValue.str c.Request.ClientIP),
             ("user_agent", LogValue.str c.Request.UserAgent)]) w
    let w := w.enter Call.NewErrorResponse
    let (now, w) := w.Now
    let errorResponse := models.NewErrorResponse now ⟨"internal server error"⟩
      "INTERNAL_SERVER_ERROR" c.Request.Path reqID
    let c := c.JSON StatusInternalServerError (Payload.error errorResponse)
    let c := c.Abort
    ((w, c), none)

/-- The label names a metric vector is declared with. -/
def labelNames : Metric → List String
  | Metric.httpDuration => ["method", "endpoint", "status_code"]
  | Metric.httpRequests => ["method", "endpoint", "status_code"]
  | Metric.httpRequestSize => ["method", "endpoint"]
  | Metric.httpResponseSize => ["method", "endpoint", "status_code"]

/-- The inner loop of `computeRequestSize` over the values of one header. -/
def valuesLoop : List String → Int → Int
  | [], size => size
  | value :: rest, size => valuesLoop rest (wrap64 (size + value.utf8ByteSize))

/-- The outer loop of `computeRequestSize` over the headers. -/
def headerLoop : List (String × List String) → Int → Int
  | [], size => size
  | (name, values) :: rest, size =>
    headerLoop rest (valuesLoop values (wrap64 (size + name.utf8ByteSize)))

/-- The function `computeRequestSize`, in `int64` arithmetic. -/
def computeRequestSize (r : Request) : Int :=
  let size : Int := 0
  let size := match r.URL with
    | some url => wrap64 (size + url.utf8ByteSize)
    | none => size
  let size := wrap64 (size + r.Method.utf8ByteSize)
  let size := wrap64 (size + r.Proto.utf8ByteSize)
  let size := headerLoop r.Header size
  let size := if r.ContentLength > 0 then wrap64 (size + r.ContentLength) else size
  size

/-- A call `vec.WithLabelValues(labels...)` followed by `Observe` or `Inc`. -/
def observe (w : World) (metric : Metric) (labels : List String) (sample : Sample) : World :=
  { w with observations := w.observations ++ [⟨metric, labels, sample⟩] }

/-- The function `MetricsMiddleware`; the deferred `activeConnections.Dec()`
runs when the function returns and when a panic unwinds it. -/
def MetricsMiddleware : HandlerFunc := fun Next w c =>
  let (start, w) := w.Now
  let w := { w with activeConnections := w.activeConnections + 1 }
  let requestSize := computeRequestSize c.Request
  match Next w c with
  | ((w, c), some p) =>
    (({ w with activeConnections := w.activeConnections - 1 }, c), some p)
  | ((w, c), none) =>
    let (duration, w) := w.Since start
    let method := c.Request.Method
    let endpoint := if c.FullPath = "" then c.Request.Path else c.FullPath
    let statusCode := fmtD c.Status
    let w := observe w Metric.httpDuration [method, endpoint, statusCode]
      (Sample.seconds duration)
    let w := observe w Metric.httpRequests [method, endpoint, statusCode] Sample.inc
    let w := observe w Metric.httpRequestSize [method, endpoint] (Sample.bytes requestSize)
    let responseSize := c.Size w.renderSize
    let w := if responseSize > 0 then
        observe w Metric.httpResponseSize [method, endpoint, statusCode]
          (Sample.bytes responseSize)
      else w
    (({ w with activeConnections := w.activeConnections - 1 }, c), none)

end middleware

/-! ## Package handlers, continued -/

namespace handlers

/-- The method `(*SumHandler).HandleSumGet`, for `GET /api/v1/sum`. -/
def SumHandler.HandleSumGet (_s : SumHandler) (w : World) (c : Context) : World × Context :=
  let requestID := c.Get middleware.RequestIDKey
  let reqID := Any.assertString requestID
  let info : List (String × InfoField) :=
    [("endpoint", InfoField.leaf (InfoLeaf.str "/api/v1/sum")),
     ("method", InfoField.leaf (InfoLeaf.str "POST")),
     ("description", InfoField.leaf (InfoLeaf.str "Calculate the sum of an array of numbers")),
     ("request_format", InfoField.obj
        [("numbers", InfoLeaf.str "array of numbers (min: 2, max: 100)")]),
     ("example_request", InfoField.obj
        [("numbers", InfoLeaf.nums
            [Float64.dyadic 3 1, Float64.dyadic 5 1, Float64.dyadic 3 0])]),
     ("example_response", InfoField.obj
        [("sum", InfoLeaf.num (Float64.dyadic 7 0)),
         ("count", InfoLeaf.int 3),
         ("numbers", InfoLeaf.nums
            [Float64.dyadic 3 1, Float64.dyadic 5 1, Float64.dyadic 3 0]),
         ("timestamp", InfoLeaf.str "2024-01-01T00:00:00Z")]),
     ("request_id", InfoField.leaf (InfoLeaf.str reqID))]
  let w := w.logEntry
    { level := "info", msg := "Sum endpoint info requested", err := none,
      fields := [("component", LogValue.str "sum_handler"),
                 ("operation", LogValue.str "get_info"),
                 ("request_id", LogValue.str reqID)] }
  (w, c.JSON StatusOK (Payload.info info))

/-- The method `(*HealthHandler).HandleLiveness`, for `GET /healthz/live`. -/
def HealthHandler.HandleLiveness (_h : HealthHandler) (w : World) (c : Context) :
    World × Context :=
  let requestID := c.Get middleware.RequestIDKey
  let reqID := Any.assertString requestID
  let (now, w) := w.Now
  let response : models.HealthResponse :=
    { Status := "alive"
      Timestamp := now
      Version := ""
      Uptime := ""
      Checks := none
      RequestID := reqID }
  let w := w.logEntry
    { level := "info", msg := "Liveness check performed", err := none,
      fields := HealthCheckFields ++
        [("check_type", LogValue.str "liveness"),
         ("request_id", LogValue.str reqID)] }
  (w, c.JSON StatusOK (Payload.health response))

/-- The method `(*HealthHandler).checkConfiguration`. -/
def HealthHandler.checkConfiguration (_h : HealthHandler) : String :=
  "ok"

/-- The method `(*HealthHandler).performReadinessChecks`. -/
def HealthHandler.performReadinessChecks (h : HealthHandler) : StringMap :=
  let checks : StringMap := some []
  let checks := checks.set "service" "ok"
  let checks := checks.set "configuration" h.checkConfiguration
  checks

/-- The loop of `HandleReadiness` over the checks still to visit, from the
state in which the variable `isReady` holds `isReady`; a `break` ends it. -/
def readyLoop : List (String × String) → Bool → Bool
  | [], isReady => isReady
  | (_, status) :: rest, isReady =>
    if status ≠ "ok" then false else readyLoop rest isReady

/-- The method `(*HealthHandler).HandleReadiness`, for `GET /healthz/ready`. -/
def HealthHandler.HandleReadiness (h : HealthHandler) (w : World) (c : Context) :
    World × Context :=
  let requestID := c.Get middleware.RequestIDKey
  let reqID := Any.assertString requestID
  let checks := h.performReadinessChecks
  let isReady := readyLoop checks.entries true
  let status := if !isReady then "not_ready" else "ready"
  let statusCode := if !isReady then StatusServiceUnavailable else StatusOK
  let (now, w) := w.Now
  let response : models.HealthResponse :=
    { Status := status
      Timestamp := now
      Version := ""
      Uptime := ""
      Checks := checks
      RequestID := reqID }
  let w := w.logEntry
    { level := "info", msg := "Readiness check performed", err := none,
      fields := HealthCheckFields ++
        [("check_type", LogValue.str "readiness"),
         ("status", LogValue.str status),
         ("request_id", LogValue.str reqID),
         ("checks", LogValue.checks checks)] }
  (w, c.JSON statusCode (Payload.health response))

end handlers

/-! ## Packages config and server -/

namespace config

/-- The server section of the configuration; the durations are nanoseconds. -/
structure ServerConfig where
  Port : String
  Host : String
  ReadTimeout : Int
  WriteTimeout : Int
  ShutdownTimeout : Int
  Environment : String
  deriving DecidableEq, Repr

/-- The logging section of the configuration. -/
structure LoggerConfig where
  Level : String
  Format : String
  deriving DecidableEq, Repr

/-- The metrics section of the configuration. -/
structure MetricsConfig where
  Enabled : Bool
  Path : String
  deriving DecidableEq, Repr

/-- The health section of the configuration. -/
structure HealthConfig where
  Path : String
  deriving DecidableEq, Repr

/-- The security section of the configuration. -/
structure SecurityConfig where
  APIKeyHeader : String
  TrustedProxies : List String
  deriving DecidableEq, Repr

/-- The configuration of the application. -/
structure Config where
  Server : ServerConfig
  Logger : LoggerConfig
  Metrics : MetricsConfig
  Health : HealthConfig
  Security : SecurityConfig
  deriving DecidableEq, Repr

/-- The method `(*Config).IsProduction`. -/
def Config.IsProduction (c : Config) : Bool :=
  c.Server.Environment == "production"

end config

namespace server

/-- The handler values `SetupRoutes` hands to the router, by name. -/
inductive HandlerName where
  | RecoveryMiddleware
  | LoggingMiddleware
  | MetricsMiddleware
  | HandleHealth
  | HandleLiveness
  | HandleReadiness
  | promhttpHandler
  | HandleSum
  | HandleSumGet
  | rootInfo
  deriving DecidableEq, Repr

/-- A registered route: the method, the absolute path, and the handler chain
the router stores for it. -/
structure Route where
  Method : String
  Path : String
  Handlers : List HandlerName
  deriving DecidableEq, Repr

/-- A `gin.RouterGroup`: its base path and its middleware. -/
structure RouterGroup where
  BasePath : String
  Handlers : List HandlerName
  deriving DecidableEq, Repr

/-- The `gin.Engine`: the mode set with `gin.SetMode`, the trusted proxies,
the root group, and the routes registered so far, oldest first. -/
structure Engine where
  Mode : String
  TrustedProxies : List String
  Root : RouterGroup
  Routes : List Route
  deriving DecidableEq, Repr

/-- What the tree of the router decides for a path when the path, or a path
registered before for the same method, holds a wildcard (`:` or `*`): the
panic the registration raises, `none` when the path is accepted. The
arguments are the paths registered for the method and the new path. -/
abbrev WildcardRule := List String → String → Option PanicValue

/-- The pieces of a path between its slashes; `cur` is the piece read so far. -/
def splitSlash : List Char → List Char → List (List Char)
  | [], cur => [cur]
  | ch :: rest, cur =>
    if ch = '/' then cur :: splitSlash rest [] else splitSlash rest (cur ++ [ch])

/-- The pass of `path.Clean` over the pieces of a rooted path, `out` holding
the pieces kept so far: an empty piece and a piece `.` are dropped, and a piece
`..` drops the piece kept last, if there is one. -/
def cleanPieces : List (List Char) → List (List Char) → List (List Char)
  | [], out => out
  | piece :: rest, out =>
    if piece = [] ∨ piece = ['.'] then cleanPieces rest out
    else if piece = ['.', '.'] then cleanPieces rest out.dropLast
    else cleanPieces rest (out ++ [piece])

/-- The function `path.Clean` on a path that begins with a slash. -/
def cleanRooted (p : String) : String :=
  "/" ++ "/".intercalate ((cleanPieces (splitSlash p.data []) []).map String.mk)

/-- The function `joinPaths` of the framework, for an absolute path that begins
with a slash, as the base path of every group does: `path.Join` of the two
paths, with the slash that ends the relative path kept. -/
def joinPaths (absolutePath relativePath : String) : String :=
  if relativePath = "" then absolutePath
  else
    let finalPath := cleanRooted (absolutePath ++ "/" ++ relativePath)
    if relativePath.data.getLast? = some '/' ∧ finalPath.data.getLast? ≠ some '/' then
      finalPath ++ "/"
    else finalPath

/-- Whether a path holds a wildcard of the router. -/
def hasWildcard (path : String) : Bool :=
  path.data.any (fun ch => ch == ':' || ch == '*')

/-- The call `gin.New()` under the given mode: no middleware, no route. -/
def New (mode : String) : Engine :=
  { Mode := mode, TrustedProxies := [], Root := { BasePath := "/", Handlers := [] },
    Routes := [] }

/-- The call `router.Use(middleware)` on the root group. -/
def Engine.Use (e : Engine) (m : HandlerName) : Engine :=
  { e with Root := { e.Root with Handlers := e.Root.Handlers ++ [m] } }

/-- The method `(*Engine).addRoute`: the tree of the method panics when the
path is registered already, and when `rule` refuses a path with a wildcard;
otherwise the route is stored. -/
def Engine.addRoute (rule : WildcardRule) (e : Engine) (method path : String)
    (handlers : List HandlerName) : Except PanicValue Engine :=
  let registered := (e.Routes.filter (fun r => r.Method = method)).map (fun r => r.Path)
  if path ∈ registered then
    Except.error ⟨"handlers are already registered for path \x27" ++ path ++ "\x27"⟩
  else if hasWildcard path || registered.any hasWildcard then
    match rule registered path with
    | some p => Except.error p
    | none => Except.ok { e with Routes := e.Routes ++ [⟨method, path, handlers⟩] }
  else Except.ok { e with Routes := e.Routes ++ [⟨method, path, handlers⟩] }

/-- The call `group.Handle(method, path, handler)`: the route is registered
under the base path of the group joined with the path, and the chain stored
for it is the middleware the group holds at this moment, followed by the
handler. -/
def Engine.handle (rule : WildcardRule) (e : Engine) (group : RouterGroup)
    (method path : String) (handler : HandlerName) : Except PanicValue Engine :=
  e.addRoute rule method (joinPaths group.BasePath path) (group.Handlers ++ [handler])

/-- The call `router.Group(path)`: the new group starts with the middleware
the root group holds at this moment. -/
def Engine.Group (e : Engine) (path : String) : RouterGroup :=
  { BasePath := joinPaths e.Root.BasePath path, Handlers := e.Root.Handlers }

/-- The function `getVersion`. -/
def getVersion : String := "1.0.0"

/-- The function `SetupRoutes`; a registration that panics ends it. -/
def SetupRoutes (rule : WildcardRule) (cfg : config.Config) (_log : Logger) :
    Except PanicValue Engine :=
  let mode := if cfg.IsProduction then "release" else "debug"
  let router := New mode
  let router := { router with TrustedProxies := cfg.Security.TrustedProxies }
  let router := router.Use HandlerName.RecoveryMiddleware
  let router := router.Use HandlerName.LoggingMiddleware
  let router := if cfg.Metrics.Enabled then router.Use HandlerName.MetricsMiddleware else router
  match router.handle rule router.Root "GET" cfg.Health.Path HandlerName.HandleHealth with
  | Except.error p => Except.error p
  | Except.ok router =>
  match router.handle rule router.Root "GET" "/healthz/live" HandlerName.HandleLiveness with
  | Except.error p => Except.error p
  | Except.ok router =>
  match router.handle rule router.Root "GET" "/healthz/ready" HandlerName.HandleReadiness with
  | Except.error p => Except.error p
  | Except.ok router =>
  match (if cfg.Metrics.Enabled then
      router.handle rule router.Root "GET" cfg.Metrics.Path HandlerName.promhttpHandler
    else Except.ok router) with
  | Except.error p => Except.error p
  | Except.ok router =>
  let v1 := router.Group "/api/v1"
  match router.handle rule v1 "POST" "/sum" HandlerName.HandleSum with
  | Except.error p => Except.error p
  | Except.ok router =>
  match router.handle rule v1 "GET" "/sum" HandlerName.HandleSumGet with
  | Except.error p => Except.error p
  | Except.ok router =>
  router.handle rule router.Root "GET" "/" HandlerName.rootInfo

end server

/-! ## Package config, continued -/

namespace config

/-- What `Load` reads from its surroundings: `Getenv` is `os.Getenv` (the value
of a variable, `""` when the variable is not set), `ParseBool` is
`strconv.ParseBool` and `ParseDuration` is `time.ParseDuration` with the result
in nanoseconds; the two parsers give `none` on an error. -/
structure Environ where
  Getenv : String → String
  ParseBool : String → Option Bool
  ParseDuration : String → Option Int

/-- The constant `time.Second`, a `Duration` in nanoseconds. -/
def Second : Int := 1000000000

/-- The function `getEnv`. -/
def getEnv (e : Environ) (key defaultValue : String) : String :=
  let value := e.Getenv key
  if value ≠ "" then value else defaultValue

/-- The function `getBoolEnv`. -/
def getBoolEnv (e : Environ) (key : String) (defaultValue : Bool) : Bool :=
  let value := e.Getenv key
  if value ≠ "" then
    match e.ParseBool value with
    | some parsed => parsed
    | none => defaultValue
  else defaultValue

/-- The function `getDurationEnv`. -/
def getDurationEnv (e : Environ) (key : String) (defaultValue : Int) : Int :=
  let value := e.Getenv key
  if value ≠ "" then
    match e.ParseDuration value with
    | some parsed => parsed
    | none => defaultValue
  else defaultValue

/-- The function `getSliceEnv`: a value that is not empty is returned as the
one element of a slice. -/
def getSliceEnv (e : Environ) (key : String) (defaultValue : List String) : List String :=
  let value := e.Getenv key
  if value ≠ "" then [value] else defaultValue

/-- The function `Load`. -/
def Load (e : Environ) : Config :=
  { Server :=
      { Port := getEnv e "PORT" "8080"
        Host := getEnv e "HOST" "0.0.0.0"
        ReadTimeout := getDurationEnv e "READ_TIMEOUT" (30 * Second)
        WriteTimeout := getDurationEnv e "WRITE_TIMEOUT" (30 * Second)
        ShutdownTimeout := getDurationEnv e "SHUTDOWN_TIMEOUT" (15 * Second)
        Environment := getEnv e "ENVIRONMENT" "development" }
    Logger :=
      { Level := getEnv e "LOG_LEVEL" "info"
        Format := getEnv e "LOG_FORMAT" "json" }
    Metrics :=
      { Enabled := getBoolEnv e "METRICS_ENABLED" true
        Path := getEnv e "METRICS_PATH" "/metrics" }
    Health := { Path := getEnv e "HEALTH_PATH" "/healthz" }
    Security :=
      { APIKeyHeader := getEnv e "API_KEY_HEADER" "X-API-Key"
        TrustedProxies :=
          getSliceEnv e "TRUSTED_PROXIES" ["10.0.0.0/8", "172.16.0.0/12", "192.168.0.0/16"] } }

end config

/-! ## Fixtures for the worked examples -/

namespace Example

open Float64

/-- The request body of the valid request of the handler tests. -/
def validBody : String := "\x7b\"numbers\":[1.5,2.5,3.0]\x7d"

/-- The request body of the handler test with too few numbers. -/
def shortBody : String := "\x7b\"numbers\":[1.5]\x7d"

/-- A binder that knows two request bodies, the valid body of the tests and a
body with one number, and rejects every other body. -/
def binder (body : String) : Except Error models.SumRequest :=
  if body = validBody then
    Except.ok ⟨[dyadic 3 1, dyadic 5 1, dyadic 3 0]⟩
  else if body = shortBody then
    Except.ok ⟨[dyadic 3 1]⟩
  else
    Except.error ⟨"invalid request body"⟩

/-- A world whose clock advances by one millisecond per reading. -/
def world : World :=
  { clock := fun n => ⟨1700000000000000000 + 1000000 * n, 5000000 + 1000000 * n⟩
    ticks := 0
    Alloc := 8388608
    NumGoroutine := 12
    ShouldBindJSON := binder
    durationString := fun d => fmtD d ++ "ns"
    log := []
    calls := [] }

/-- The context the test router prepares for a request with the given body. -/
def context (method path body : String) : Context :=
  { Request := { Method := method, Path := path, Header := [], Body := body }
    Keys := [("request_id", Any.str "test-request-id")]
    Written := [] }

/-- The sum handler of the tests. -/
def sumHandler : handlers.SumHandler := { logger := ⟨"error", "json"⟩ }

/-- A health handler started one millisecond before the first reading of the
clock of `world`. -/
def healthHandler : handlers.HealthHandler :=
  { logger := ⟨"error", "json"⟩
    startTime := ⟨1699999999999000000, 4000000⟩
    version := "1.0.0-test" }

/-- The world `world` with two GiB of allocated memory. -/
def highMemoryWorld : World := { world with Alloc := 2147483648 }

/-- The world `world` read by a handler that starts at the very same instant. -/
def startingHandler : handlers.HealthHandler :=
  { healthHandler with startTime := ⟨1700000000000000000, 5000000⟩ }

end Example

namespace Example

/-- The world `world` of a running server: every body takes 120 bytes, the
stamp of the request IDs is that of the first reading of the clock, and the
stack trace is one line. -/
def serverWorld : World :=
  { world with
    renderSize := fun _ => 120
    formatStamp := fun _ => "20231114221320"
    Stack := "goroutine 1 [running]:" }

/-- The context of a `GET /healthz/live` request with the given headers, before
the chain starts. -/
def probe (header : List (String × List String)) : Context :=
  { Request :=
      { Method := "GET", Path := "/healthz/live", Header := header, Body := "",
        URL := some "/healthz/live" }
    Keys := []
    Written := []
    FullPath := "/healthz/live" }

/-- A downstream chain that is the liveness handler. -/
def liveness : ChainAction :=
  fun w c => (healthHandler.HandleLiveness w c, none)

/-- A downstream chain that writes nothing. -/
def silent : ChainAction :=
  fun w c => ((w, c), none)

/-- A downstream chain that panics with the given text. -/
def faulty (text : String) : ChainAction :=
  fun w c => ((w, c), some ⟨text⟩)

/-- The configuration `config.Load` returns when no variable is set. -/
def defaultConfig : config.Config :=
  { Server :=
      { Port := "8080", Host := "0.0.0.0", ReadTimeout := 30000000000,
        WriteTimeout := 30000000000, ShutdownTimeout := 15000000000,
        Environment := "development" }
    Logger := { Level := "info", Format := "json" }
    Metrics := { Enabled := true, Path := "/metrics" }
    Health := { Path := "/healthz" }
    Security :=
      { APIKeyHeader := "X-API-Key",
        TrustedProxies := ["10.0.0.0/8", "172.16.0.0/12", "192.168.0.0/16"] } }

end Example

namespace Example

/-- The configuration `defaultConfig` with the path of the liveness probe as
the path of the health check. -/
def collidingConfig : config.Config :=
  { defaultConfig with Health := { Path := "/healthz/live" } }

/-- A tree that accepts every path with a wildcard. -/
def acceptAll : server.WildcardRule := fun _ _ => none

/-- The spellings `strconv.ParseBool` accepts. -/
def parseBool (s : String) : Option Bool :=
  if s = "1" ∨ s = "t" ∨ s = "T" ∨ s = "true" ∨ s = "TRUE" ∨ s = "True" then some true
  else if s = "0" ∨ s = "f" ∨ s = "F" ∨ s = "false" ∨ s = "FALSE" ∨ s = "False" then some false
  else none

/-- An environment in which no variable is set. -/
def emptyEnviron : config.Environ :=
  { Getenv := fun _ => ""
    ParseBool := parseBool
    ParseDuration := fun _ => none }

/-- An environment in which `TRUSTED_PROXIES` names two networks, separated by
a comma, and no other variable is set. -/
def proxyEnviron : config.Environ :=
  { emptyEnviron with
    Getenv := fun key => if key = "TRUSTED_PROXIES" then "10.0.0.0/8,192.168.0.0/16" else "" }

/-- The world `serverWorld` with a clock that stands one nanosecond before the
epoch. -/
def earlyWorld : World :=
  { serverWorld with clock := fun _ => ⟨-1, 0⟩ }

end Example

namespace Example

/-- The constant `math.MaxFloat64`, the largest `float64` that is a number. -/
def maxFloat64 : Float64 :=
  Float64.fin false ⟨2046, by decide⟩ ⟨4503599627370495, by norm_num⟩

/-- A request body with two numbers, each the largest `float64`. -/
def overflowBody : String :=
  "\x7b\"numbers\":[1.7976931348623157e308,1.7976931348623157e308]\x7d"

/-- The binder `binder`, which also knows the body `overflowBody`. -/
def overflowBinder (body : String) : Except Error models.SumRequest :=
  if body = overflowBody then Except.ok ⟨[maxFloat64, maxFloat64]⟩ else binder body

/-- The world `world` with the binder `overflowBinder`. -/
def overflowWorld : World := { world with ShouldBindJSON := overflowBinder }

/-- The world `serverWorld` with the binder `overflowBinder`. -/
def overflowServerWorld : World := { serverWorld with ShouldBindJSON := overflowBinder }

/-- The context of a `POST /api/v1/sum` request with the given body, before the
chain starts. -/
def sumPost (body : String) : Context :=
  { Request :=
      { Method := "POST", Path := "/api/v1/sum", Header := [], Body := body,
        URL := some "/api/v1/sum" }
    Keys := []
    Written := []
    FullPath := "/api/v1/sum" }

/-- A downstream chain that is the liveness handler followed by a panic. -/
def writesThenFaults : ChainAction :=
  fun w c => (healthHandler.HandleLiveness w c, some ⟨"boom"⟩)

end Example

/-! ## Lemmas -/

section Lemmas

open models handlers

/-- The verb `%d` prints a length as its decimal digits. -/
theorem fmtD_natCast (n : Nat) : fmtD (n : Int) = Nat.repr n := rfl

/-- A sum that is a number has two summands that are numbers. -/
theorem add_isFinite (a b : Float64) (h : (Float64.add a b).isFinite = true) :
    a.isFinite = true ∧ b.isFinite = true := by
  cases a with
  | nan => simp [Float64.add, Float64.isFinite] at h
  | inf s =>
    cases b with
    | nan => simp [Float64.add, Float64.isFinite] at h
    | inf t => by_cases hst : s = t <;> simp [Float64.add, Float64.isFinite, hst] at h
    | fin _ _ _ => simp [Float64.add, Float64.isFinite] at h
  | fin _ _ _ =>
    cases b with
    | nan => simp [Float64.add, Float64.isFinite] at h
    | inf t => simp [Float64.add, Float64.isFinite] at h
    | fin _ _ _ => exact ⟨rfl, rfl⟩

/-- The encoder refuses exactly the data that are not numbers. -/
theorem unsupportedText_eq_none_iff (x : Float64) :
    x.unsupportedText = none ↔ x.isFinite = true := by
  cases x with
  | nan => simp [Float64.unsupportedText, Float64.isFinite]
  | inf s => cases s <;> simp [Float64.unsupportedText, Float64.isFinite]
  | fin _ _ _ => simp [Float64.unsupportedText, Float64.isFinite]

/-- When the loop of `NewSumResponse` ends on a number, it started on a number
and every summand is a number. -/
theorem sumLoop_isFinite (numbers : List Float64) :
    ∀ sum : Float64, (sumLoop numbers sum).isFinite = true →
      sum.isFinite = true ∧ firstUnsupported numbers = none := by
  induction numbers with
  | nil => intro sum h; exact ⟨h, rfl⟩
  | cons num rest ih =>
    intro sum h
    obtain ⟨hadd, hrest⟩ := ih (Float64.add sum num) h
    obtain ⟨hsum, hnum⟩ := add_isFinite sum num hadd
    refine ⟨hsum, ?_⟩
    simp only [firstUnsupported, (unsupportedText_eq_none_iff num).2 hnum]
    exact hrest

/-- The response `NewSumResponse` builds is encoded when its sum is a number. -/
theorem NewSumResponse_marshals (now : Time) (numbers : List Float64) (requestID : String)
    (h : (sumLoop numbers Float64.zero).isFinite = true) :
    (Payload.sum (NewSumResponse now numbers requestID)).marshalError = none := by
  obtain ⟨_, hnum⟩ := sumLoop_isFinite numbers Float64.zero h
  simp only [Payload.marshalError, NewSumResponse, (unsupportedText_eq_none_iff _).2 h, hnum]

/-- The response `NewSumResponse` builds is refused by the encoder when its sum
is not a number, with the error that names the sum. -/
theorem NewSumResponse_marshalError (now : Time) (numbers : List Float64) (requestID : String)
    (h : (sumLoop numbers Float64.zero).isFinite = false) :
    ∃ t, (sumLoop numbers Float64.zero).unsupportedText = some t
      ∧ (Payload.sum (NewSumResponse now numbers requestID)).marshalError
          = some ⟨"json: unsupported value: " ++ t⟩ := by
  cases hs : (sumLoop numbers Float64.zero).unsupportedText with
  | none =>
    rw [(unsupportedText_eq_none_iff _).1 hs] at h
    cases h
  | some t =>
    refine ⟨t, rfl, ?_⟩
    simp only [Payload.marshalError, NewSumResponse, hs]

/-- The response `NewSumResponse` builds is encoded exactly when its sum is a
number. -/
theorem NewSumResponse_marshals_iff (now : Time) (numbers : List Float64)
    (requestID : String) :
    (Payload.sum (NewSumResponse now numbers requestID)).marshalError = none
      ↔ (sumLoop numbers Float64.zero).isFinite = true := by
  constructor
  · intro hm
    cases hf : (sumLoop numbers Float64.zero).isFinite with
    | true => rfl
    | false =>
      obtain ⟨t, _, herr⟩ := NewSumResponse_marshalError now numbers requestID hf
      rw [herr] at hm
      cases hm
  · exact NewSumResponse_marshals now numbers requestID

/-- A `c.JSON` call with an object that is encoded writes the body. -/
theorem JSON_of_marshals (c : Context) (code : Nat) (obj : Payload)
    (h : obj.marshalError = none) :
    c.JSON code obj =
      { c with
        status := if c.Written = [] then code else c.status
        Written := c.Written ++ [(code, obj)] } := by
  simp only [Context.JSON, h]

/-- A `c.JSON` call with an object the encoder refuses writes nothing, attaches
the error and aborts the chain. -/
theorem JSON_of_marshalError (c : Context) (code : Nat) (obj : Payload) (err : Error)
    (h : obj.marshalError = some err) :
    c.JSON code obj =
      { c with
        status := if c.Written = [] then code else c.status
        Errors := c.Errors ++ [err]
        index := abortIndex } := by
  simp only [Context.JSON, h]

/-- A literal that splits as `a ++ b ++ c` still contains `b` after any suffix
is appended. -/
theorem append_split (a b c x lit : String) (h : a ++ b ++ c = lit) :
    lit ++ x = a ++ b ++ (c ++ x) := by
  rw [← h, String.append_assoc (a ++ b)]

/-- The summation loop is the left fold of the addition. -/
theorem sumLoop_eq_foldl (numbers : List Float64) (sum : Float64) :
    sumLoop numbers sum = numbers.foldl Float64.add sum := by
  induction numbers generalizing sum with
  | nil => rfl
  | cons num rest ih => simp [sumLoop, ih]

set_option maxRecDepth 100000 in
/-- The loop run on `1.5, 2.5, 3.0` from `0.0`. -/
theorem sumLoop_example :
    sumLoop [Float64.dyadic 3 1, Float64.dyadic 5 1, Float64.dyadic 3 0] Float64.zero
      = Float64.dyadic 7 0 := by decide

set_option maxRecDepth 100000 in
/-- The addition on some telling operands: `0.1 + 0.2` rounds up to
`0.30000000000000004`, the largest finite number added to itself overflows to
`+Inf`, the smallest subnormal added to itself is exact, `1.5 + (-1.5)` is
`+0`, `(-0) + (-0)` is `-0`, and `+Inf + (-Inf)` is a NaN. -/
theorem add_examples :
    Float64.add (Float64.fin false ⟨1019, by decide⟩ ⟨0x999999999999A, by decide⟩)
        (Float64.fin false ⟨1020, by decide⟩ ⟨0x999999999999A, by decide⟩)
      = Float64.fin false ⟨1021, by decide⟩ ⟨0x3333333333334, by decide⟩
    ∧ Float64.add (Float64.fin false ⟨2046, by decide⟩ ⟨2 ^ 52 - 1, by decide⟩)
        (Float64.fin false ⟨2046, by decide⟩ ⟨2 ^ 52 - 1, by decide⟩)
      = Float64.inf false
    ∧ Float64.add (Float64.fin false ⟨0, by decide⟩ ⟨1, by decide⟩)
        (Float64.fin false ⟨0, by decide⟩ ⟨1, by decide⟩)
      = Float64.fin false ⟨0, by decide⟩ ⟨2, by decide⟩
    ∧ Float64.add (Float64.fin false ⟨1023, by decide⟩ ⟨2 ^ 51, by decide⟩)
        (Float64.fin true ⟨1023, by decide⟩ ⟨2 ^ 51, by decide⟩)
      = Float64.zero
    ∧ Float64.add (Float64.fin true ⟨0, by decide⟩ ⟨0, by decide⟩)
        (Float64.fin true ⟨0, by decide⟩ ⟨0, by decide⟩)
      = Float64.fin true ⟨0, by decide⟩ ⟨0, by decide⟩
    ∧ Float64.add (Float64.inf false) (Float64.inf true) = Float64.nan := by
  decide

/-- The fields of the literal `1.5`. -/
theorem dyadic_3_1 :
    Float64.dyadic 3 1 = Float64.fin false ⟨1023, by decide⟩ ⟨2 ^ 51, by decide⟩ := by decide

/-- The fields of the literal `2.5`. -/
theorem dyadic_5_1 :
    Float64.dyadic 5 1 = Float64.fin false ⟨1024, by decide⟩ ⟨2 ^ 50, by decide⟩ := by decide

/-- The fields of the literal `3.0`. -/
theorem dyadic_3_0 :
    Float64.dyadic 3 0 = Float64.fin false ⟨1024, by decide⟩ ⟨2 ^ 51, by decide⟩ := by decide

/-- The fields of the literal `7.0`. -/
theorem dyadic_7_0 :
    Float64.dyadic 7 0 = Float64.fin false ⟨1025, by decide⟩ ⟨2 ^ 51 + 2 ^ 50, by decide⟩ := by
  decide

/-- The health loop keeps the status when every check is `"ok"`. -/
theorem healthLoop_of_all_ok (checks : List (String × String)) (status : String)
    (h : ∀ kv ∈ checks, kv.2 = "ok") : healthLoop checks status = status := by
  induction checks with
  | nil => rfl
  | cons kv rest ih =>
    have hkv : kv.2 = "ok" := h kv (List.mem_cons_self _ _)
    have hrest : ∀ x ∈ rest, x.2 = "ok" := fun x hx => h x (List.mem_cons_of_mem _ hx)
    obtain ⟨k, v⟩ := kv
    simp only at hkv
    simp [healthLoop, hkv, ih hrest]

/-- The health loop ends on `"unhealthy"` when some check is not `"ok"`. -/
theorem healthLoop_of_not_all_ok (checks : List (String × String)) (status : String)
    (h : ¬ ∀ kv ∈ checks, kv.2 = "ok") : healthLoop checks status = "unhealthy" := by
  induction checks with
  | nil => exact absurd (fun _ hkv => absurd hkv (List.not_mem_nil _)) h
  | cons kv rest ih =>
    obtain ⟨k, v⟩ := kv
    by_cases hv : v = "ok"
    · have hrest : ¬ ∀ x ∈ rest, x.2 = "ok" := by
        intro hall
        apply h
        intro x hx
        rcases List.mem_cons.1 hx with rfl | hx
        · exact hv
        · exact hall x hx
      simp [healthLoop, hv, ih hrest]
    · simp [healthLoop, hv]

/-- The order in which the `range` loop visits the checks does not matter. -/
theorem healthLoop_perm {l1 l2 : List (String × String)} (hp : l1.Perm l2) (status : String) :
    healthLoop l1 status = healthLoop l2 status := by
  by_cases h : ∀ kv ∈ l1, kv.2 = "ok"
  · rw [healthLoop_of_all_ok l1 status h,
      healthLoop_of_all_ok l2 status (fun kv hkv => h kv (hp.mem_iff.2 hkv))]
  · rw [healthLoop_of_not_all_ok l1 status h,
      healthLoop_of_not_all_ok l2 status
        (fun h2 => h (fun kv hkv => h2 kv (hp.mem_iff.1 hkv)))]

/-- The status of a new health response is `"healthy"` exactly when all checks
are `"ok"`. -/
theorem NewHealthResponse_healthy_iff (now : Time) (version uptime : String)
    (checks : StringMap) (requestID : String) :
    (NewHealthResponse now version uptime checks requestID).Status = "healthy"
      ↔ ∀ kv ∈ checks.entries, kv.2 = "ok" := by
  constructor
  · intro h
    by_contra hn
    have h2 : healthLoop checks.entries "healthy" = "healthy" := h
    rw [healthLoop_of_not_all_ok checks.entries "healthy" hn] at h2
    exact absurd h2 (by decide)
  · exact healthLoop_of_all_ok checks.entries "healthy"

/-- The status of a new health response is `"unhealthy"` exactly when some check
is not `"ok"`. -/
theorem NewHealthResponse_unhealthy_iff (now : Time) (version uptime : String)
    (checks : StringMap) (requestID : String) :
    (NewHealthResponse now version uptime checks requestID).Status = "unhealthy"
      ↔ ¬ ∀ kv ∈ checks.entries, kv.2 = "ok" := by
  constructor
  · intro h hall
    have h2 : healthLoop checks.entries "healthy" = "unhealthy" := h
    rw [healthLoop_of_all_ok checks.entries "healthy" hall] at h2
    exact absurd h2 (by decide)
  · exact healthLoop_of_not_all_ok checks.entries "healthy"

/-- The goroutine check is `"ok"` exactly up to the ceiling. -/
theorem checkGoroutines_eq_ok_iff (h : HealthHandler) (w : World) :
    h.checkGoroutines w = "ok" ↔ w.NumGoroutine ≤ 1000 := by
  unfold HealthHandler.checkGoroutines
  by_cases hg : w.NumGoroutine > 1000
  · have hne : "high_goroutine_count_" ++ fmtD w.NumGoroutine ≠ "ok" := by
      intro heq
      have hlen := congrArg String.length heq
      rw [String.length_append] at hlen
      have h21 : "high_goroutine_count_".length = 21 := by decide
      have h2 : "ok".length = 2 := by decide
      omega
    simp [hg, hne]
  · simp [hg]
    omega

/-- The memory check is `"ok"` exactly up to one GiB. -/
theorem checkMemory_eq_ok_iff (h : HealthHandler) (w : World) :
    h.checkMemory w = "ok" ↔ w.Alloc ≤ 1073741824 := by
  unfold HealthHandler.checkMemory
  by_cases hm : w.Alloc > 1024 * 1024 * 1024
  · simp [hm]
  · simp [hm]
    omega

/-- The outcome of the uptime check. -/
theorem checkUptime_fst (h : HealthHandler) (w : World) :
    (h.checkUptime w).1 =
      if (w.Since h.startTime).1 < Microsecond then "starting" else "ok" := by
  unfold HealthHandler.checkUptime
  by_cases hu : (w.Since h.startTime).1 < Microsecond
  · simp [hu]
  · simp [hu]

/-- The uptime check reads the clock once. -/
theorem checkUptime_snd (h : HealthHandler) (w : World) :
    (h.checkUptime w).2 = { w with ticks := w.ticks + 1 } := by
  unfold HealthHandler.checkUptime
  simp only [World.Since, World.Now]
  split_ifs <;> rfl

/-- The uptime check is `"ok"` exactly from one microsecond on. -/
theorem checkUptime_eq_ok_iff (h : HealthHandler) (w : World) :
    (h.checkUptime w).1 = "ok" ↔ Microsecond ≤ (w.Since h.startTime).1 := by
  rw [checkUptime_fst]
  by_cases hu : (w.Since h.startTime).1 < Microsecond
  · simp [hu]
  · simp [hu]
    omega

/-- The map `performHealthChecks` builds. -/
theorem performHealthChecks_fst (h : HealthHandler) (w : World) :
    (h.performHealthChecks w).1 =
      some [("memory", h.checkMemory w), ("goroutines", h.checkGoroutines w),
            ("uptime", (h.checkUptime w).1)] := by
  unfold HealthHandler.performHealthChecks
  simp [StringMap.set, StringMap.entries, setEntry]

/-- All three checks are `"ok"` exactly when each of them is. -/
theorem threeChecks_all_ok_iff (m g u : String) :
    (∀ kv ∈ [("memory", m), ("goroutines", g), ("uptime", u)], kv.2 = "ok")
      ↔ m = "ok" ∧ g = "ok" ∧ u = "ok" := by
  simp

/-- The one `c.JSON` call of `HandleHealth`. -/
theorem HandleHealth_written (h : HealthHandler) (w : World) (c : Context) :
    (h.HandleHealth w c).2.Written = c.Written ++
      [(if (NewHealthResponse (w.clock (w.ticks + 2)) h.version
              (w.durationString (subMono (w.clock (w.ticks + 1)).mono h.startTime.mono))
              (some [("memory", h.checkMemory w), ("goroutines", h.checkGoroutines w),
                     ("uptime", (h.checkUptime w).1)])
              (Any.assertString (c.Get "request_id"))).Status = "healthy"
        then 200 else 503,
        Payload.health (NewHealthResponse (w.clock (w.ticks + 2)) h.version
              (w.durationString (subMono (w.clock (w.ticks + 1)).mono h.startTime.mono))
              (some [("memory", h.checkMemory w), ("goroutines", h.checkGoroutines w),
                     ("uptime", (h.checkUptime w).1)])
              (Any.assertString (c.Get "request_id"))))] := by
  have hp : h.performHealthChecks w =
      (some [("memory", h.checkMemory w), ("goroutines", h.checkGoroutines w),
             ("uptime", (h.checkUptime w).1)], { w with ticks := w.ticks + 1 }) := by
    unfold HealthHandler.performHealthChecks
    rw [← checkUptime_snd h w]
    simp [StringMap.set, StringMap.entries, setEntry]
  unfold HealthHandler.HandleHealth
  rw [hp]
  simp [World.Since, World.Now, World.enter, World.logEntry, Context.JSON, Payload.marshalError,
    HealthResponse.IsHealthy, StatusOK, StatusServiceUnavailable, middleware.RequestIDKey]

/-- The response of `HandleHealth`: either all checks are `"ok"` and it is
healthy with 200, or some check is not and it is unhealthy with 503. -/
theorem HandleHealth_cases (h : HealthHandler) (w : World) (c : Context) :
    ∃ code resp,
      (h.HandleHealth w c).2.Written = c.Written ++ [(code, Payload.health resp)]
      ∧ resp.Checks = (h.performHealthChecks w).1
      ∧ ((h.checkMemory w = "ok" ∧ h.checkGoroutines w = "ok" ∧ (h.checkUptime w).1 = "ok")
            ∧ resp.Status = "healthy" ∧ code = 200
          ∨ ¬ (h.checkMemory w = "ok" ∧ h.checkGoroutines w = "ok"
                ∧ (h.checkUptime w).1 = "ok")
            ∧ resp.Status = "unhealthy" ∧ code = 503) := by
  refine ⟨_, _, HandleHealth_written h w c, (performHealthChecks_fst h w).symm, ?_⟩
  by_cases hall : h.checkMemory w = "ok" ∧ h.checkGoroutines w = "ok" ∧ (h.checkUptime w).1 = "ok"
  · have hs : (NewHealthResponse (w.clock (w.ticks + 2)) h.version
        (w.durationString (subMono (w.clock (w.ticks + 1)).mono h.startTime.mono))
        (some [("memory", h.checkMemory w), ("goroutines", h.checkGoroutines w),
               ("uptime", (h.checkUptime w).1)])
        (Any.assertString (c.Get "request_id"))).Status = "healthy" :=
      (NewHealthResponse_healthy_iff _ _ _ _ _).2 ((threeChecks_all_ok_iff _ _ _).2 hall)
    rw [hs]
    exact Or.inl ⟨hall, rfl, by simp⟩
  · have hs : (NewHealthResponse (w.clock (w.ticks + 2)) h.version
        (w.durationString (subMono (w.clock (w.ticks + 1)).mono h.startTime.mono))
        (some [("memory", h.checkMemory w), ("goroutines", h.checkGoroutines w),
               ("uptime", (h.checkUptime w).1)])
        (Any.assertString (c.Get "request_id"))).Status = "unhealthy" :=
      (NewHealthResponse_unhealthy_iff _ _ _ _ _).2
        (fun hok => hall ((threeChecks_all_ok_iff _ _ _).1 hok))
    rw [hs]
    exact Or.inr ⟨hall, rfl, by simp⟩

/-- A decimal digit character stands for its digit. -/
theorem digitChar_toNat_sub (k : Nat) (hk : k < 10) : (Nat.digitChar k).toNat - 48 = k := by
  interval_cases k <;> rfl

/-- Reading the digits `toDigitsCore` produces gives the number back. -/
theorem toDigitsCore_foldl (fuel : Nat) :
    ∀ (n : Nat) (ds : List Char), n < fuel →
      List.foldl (fun a ch => a * 10 + (Char.toNat ch - 48)) 0 (Nat.toDigitsCore 10 fuel n ds)
        = List.foldl (fun a ch => a * 10 + (Char.toNat ch - 48)) n ds := by
  induction fuel with
  | zero => intro n ds h; omega
  | succ fuel ih =>
    intro n ds h
    have hd : (Nat.digitChar (n % 10)).toNat - 48 = n % 10 :=
      digitChar_toNat_sub (n % 10) (Nat.mod_lt n (by decide))
    by_cases h0 : n / 10 = 0
    · have hn : n % 10 = n := by omega
      rw [hn] at hd
      simp only [Nat.toDigitsCore, h0, if_true, List.foldl_cons, hn, hd, Nat.zero_mul,
        Nat.zero_add]
    · have hlt : n / 10 < fuel := by omega
      simp only [Nat.toDigitsCore, h0, if_false]
      rw [ih (n / 10) _ hlt]
      simp only [List.foldl_cons, hd]
      have hn : n / 10 * 10 + n % 10 = n := by omega
      rw [hn]

/-- The decimal rendering of a natural number determines the number. -/
theorem repr_injective (a b : Nat) (h : Nat.repr a = Nat.repr b) : a = b := by
  have ha := toDigitsCore_foldl (a + 1) a [] (Nat.lt_succ_self a)
  have hb := toDigitsCore_foldl (b + 1) b [] (Nat.lt_succ_self b)
  have hdata : Nat.toDigits 10 a = Nat.toDigits 10 b := by
    have := congrArg String.data h
    simpa [Nat.repr] using this
  simp only [List.foldl_nil] at ha hb
  unfold Nat.toDigits at hdata
  rw [← ha, ← hb, hdata]

/-- The verb `%d` prints a count that is not negative as its decimal digits. -/
theorem fmtD_of_nonneg (g : Int) (hg : 0 ≤ g) : fmtD g = Nat.repr g.toNat := by
  obtain ⟨n, rfl⟩ := Int.eq_ofNat_of_zero_le hg
  rfl

/-- Appending to a fixed text is injective. -/
theorem append_left_cancel (pre a b : String) (h : pre ++ a = pre ++ b) : a = b := by
  have hd := congrArg String.data h
  simp only [String.data_append] at hd
  exact String.ext (List.append_cancel_left hd)

/-- The readiness loop keeps `true` exactly when every check is `"ok"`. -/
theorem readyLoop_true_iff (checks : List (String × String)) :
    readyLoop checks true = true ↔ ∀ kv ∈ checks, kv.2 = "ok" := by
  induction checks with
  | nil => simp [readyLoop]
  | cons kv rest ih =>
    obtain ⟨k, v⟩ := kv
    by_cases hv : v = "ok"
    · simp [readyLoop, hv, ih]
    · simp [readyLoop, hv]

/-- The map `performReadinessChecks` builds. -/
theorem performReadinessChecks_eq (h : HealthHandler) :
    h.performReadinessChecks = some [("service", "ok"), ("configuration", h.checkConfiguration)] := by
  simp [HealthHandler.performReadinessChecks, StringMap.set, StringMap.entries, setEntry]

/-- With a clock that never reads a time before the epoch, the loop of
`randomString` appends one character of the charset per round and reads the
clock once per round. -/
theorem randomLoop_spec (n : Nat) :
    ∀ (b : List Char) (w : World), (∀ k, 0 ≤ (w.clock k).wall) →
      ∃ r w2, middleware.randomLoop n b w = (Except.ok (b ++ r), w2)
        ∧ r.length = n ∧ (∀ ch ∈ r, ch ∈ middleware.charset.data)
        ∧ w2 = { w with ticks := w.ticks + n } := by
  induction n with
  | zero => intro b w _; exact ⟨[], w, by simp [middleware.randomLoop], rfl, by simp, rfl⟩
  | succ n ih =>
    intro b w hclock
    have hlen : (middleware.charset.length : Int) = 62 := by decide
    have h0 : 0 ≤ Int.tmod (w.clock w.ticks).wall (middleware.charset.length : Int) :=
      Int.tmod_nonneg _ (hclock w.ticks)
    have h1 : Int.tmod (w.clock w.ticks).wall (middleware.charset.length : Int) < 62 := by
      rw [hlen]
      exact Int.tmod_lt_of_pos _ (by decide)
    have hdl : middleware.charset.data.length = 62 := by decide
    have hlt : (Int.tmod (w.clock w.ticks).wall (middleware.charset.length : Int)).toNat
        < middleware.charset.data.length := by
      rw [hdl]
      omega
    obtain ⟨r, w2, hr, hrl, hrc, hw2⟩ := ih (b ++ [middleware.charset.data.get ⟨_, hlt⟩])
      { w with ticks := w.ticks + 1 } hclock
    refine ⟨middleware.charset.data.get ⟨_, hlt⟩ :: r, w2, ?_, ?_, ?_, ?_⟩
    · simp only [middleware.randomLoop, World.Now, h0, if_true, List.get?_eq_get hlt]
      rw [hr]
      simp
    · simp [hrl]
    · intro ch hch
      rcases List.mem_cons.1 hch with h | h
      · rw [h]
        exact List.get_mem _ _ _
      · exact hrc ch h
    · rw [hw2]
      simp only [World.mk.injEq, and_true, true_and]
      omega


/-- With a clock that never reads a time before the epoch, the loop of
`randomString` fills all its bytes. -/
theorem randomLoop_ok (n : Nat) :
    ∀ (b : List Char) (w : World), (∀ k, 0 ≤ (w.clock k).wall) →
      ∃ b2 w2, middleware.randomLoop n b w = (Except.ok b2, w2) := by
  induction n with
  | zero => intro b w _; exact ⟨b, w, rfl⟩
  | succ n ih =>
    intro b w hclock
    have hlen : (middleware.charset.length : Int) = 62 := by decide
    have h0 : 0 ≤ Int.tmod (w.clock w.ticks).wall (middleware.charset.length : Int) :=
      Int.tmod_nonneg _ (hclock w.ticks)
    have h1 : Int.tmod (w.clock w.ticks).wall (middleware.charset.length : Int) < 62 := by
      rw [hlen]
      exact Int.tmod_lt_of_pos _ (by decide)
    have hdl : middleware.charset.data.length = 62 := by decide
    have hlt : (Int.tmod (w.clock w.ticks).wall (middleware.charset.length : Int)).toNat
        < middleware.charset.data.length := by
      rw [hdl]
      omega
    obtain ⟨b2, w2, hb2⟩ := ih (b ++ [middleware.charset.data.get ⟨_, hlt⟩])
      { w with ticks := w.ticks + 1 } hclock
    refine ⟨b2, w2, ?_⟩
    simp only [middleware.randomLoop, World.Now, h0, if_true, List.get?_eq_get hlt]
    exact hb2

/-- With such a clock `generateRequestID` returns an identifier, and the
identifier is not empty. -/
theorem generateRequestID_ok (w : World) (hclock : ∀ k, 0 ≤ (w.clock k).wall) :
    ∃ id w2, middleware.generateRequestID w = (Except.ok id, w2) ∧ id ≠ "" := by
  obtain ⟨b2, w2, hb2⟩ := randomLoop_ok 8 [] { w with ticks := w.ticks + 1 } hclock
  refine ⟨w.formatStamp (w.clock w.ticks) ++ "-" ++ String.mk b2, w2, ?_, ?_⟩
  · simp only [middleware.generateRequestID, middleware.randomString, World.Now]
    rw [hb2]
  · intro h
    have hl := congrArg String.length h
    simp only [String.length_append] at hl
    have h1 : "-".length = 1 := by decide
    have h2 : "".length = 0 := by decide
    omega

/-- With such a clock `generateRequestID` changes nothing in its surroundings
but the number of clock readings. -/
theorem generateRequestID_world (w : World) (hclock : ∀ k, 0 ≤ (w.clock k).wall) :
    (middleware.generateRequestID w).2 = { w with ticks := w.ticks + 9 } := by
  obtain ⟨r, w2, hr, _, _, hw2⟩ := randomLoop_spec 8 [] { w with ticks := w.ticks + 1 } hclock
  simp only [middleware.generateRequestID, middleware.randomString, World.Now]
  rw [hr, hw2]

/-- A key that was just set is found. -/
theorem Get_Set (c : Context) (key : String) (value : Any) :
    (c.Set key value).Get key = some value := by
  simp [Context.Get, Context.Set, List.lookup]

/-- A response header that was just set to a text that is not empty is found. -/
theorem WriterHeaderGet_Header (c : Context) (key value : String) (hv : value ≠ "") :
    (c.Header key value).WriterHeaderGet key = value := by
  simp [Context.WriterHeaderGet, Context.Header, hv, List.lookup]

/-- Setting a response header leaves the key/value store alone. -/
theorem Get_Header (c : Context) (key value k : String) :
    (c.Header key value).Get k = c.Get k := by
  unfold Context.Header
  split_ifs <;> rfl

/-- The loop of `c.Next()` runs no handler when `c.index` points at none of
the positions still ahead. -/
theorem nextLoop_skip (more : List HandlerFunc) :
    ∀ (pos : Nat) (w : World) (c : Context),
      (∀ k : Nat, pos ≤ k → k < pos + more.length → c.index ≠ (k : Int)) →
      nextLoop more pos w c = ((w, c), none) := by
  induction more with
  | nil => intro pos w c _; rfl
  | cons h rest ih =>
    intro pos w c hk
    have hpos : c.index ≠ (pos : Int) :=
      hk pos (Nat.le_refl pos) (by simp)
    simp only [nextLoop, hpos, if_false]
    apply ih
    intro k h1 h2
    apply hk k (by omega)
    simp only [List.length_cons]
    omega

/-- What `RecoveryMiddleware` leaves behind when the downstream chain panics. -/
theorem RecoveryMiddleware_of_panic (log : Logger) (Next : ChainAction) (w : World)
    (c : Context) (w1 : World) (c1 : Context) (p : PanicValue)
    (h : Next w c = ((w1, c1), some p)) :
    (middleware.RecoveryMiddleware log Next w c).2 = none
    ∧ (middleware.RecoveryMiddleware log Next w c).1.2 =
        { c1 with
          status := if c1.Written = [] then 500 else c1.status
          Written := c1.Written ++
            [(500, Payload.error
              { Error := "internal server error", Code := "INTERNAL_SERVER_ERROR",
                Details := none, Timestamp := w1.clock w1.ticks,
                RequestID := Any.assertString (c1.Get "request_id"),
                Path := c1.Request.Path })]
          index := abortIndex } := by
  simp [middleware.RecoveryMiddleware, h, Context.JSON, Payload.marshalError, Context.Abort,
    World.Now, World.enter, Logger.LogError, World.logEntry, StatusInternalServerError,
    middleware.RequestIDKey, NewErrorResponse, Context.Get]

/-- How `LoggingMiddleware` runs, with a clock that never reads a time before
the epoch: it picks the identifier, stores it under `request_id` and in the
response header, runs the downstream chain, lets a panic pass, and logs the
request otherwise. -/
theorem LoggingMiddleware_run (log : Logger) (w : World) (c : Context)
    (hclock : c.GetHeader "X-Request-ID" = "" → ∀ k, 0 ≤ (w.clock k).wall) :
    ∃ (id : String) (w1 : World),
      id ≠ ""
      ∧ (c.GetHeader "X-Request-ID" ≠ "" → id = c.GetHeader "X-Request-ID")
      ∧ (c.GetHeader "X-Request-ID" = "" →
          (middleware.generateRequestID (w.Now).2).1 = Except.ok id)
      ∧ w1.ShouldBindJSON = w.ShouldBindJSON
      ∧ ∀ Next : ChainAction, middleware.LoggingMiddleware log Next w c =
          match Next w1 ((c.Set middleware.RequestIDKey (Any.str id)).Header "X-Request-ID" id) with
          | ((w3, c3), some p) => ((w3, c3), some p)
          | ((w3, c3), none) =>
            (((log.LogHTTPRequest c3.Request.Method c3.Request.Path c3.Request.UserAgent
                c3.Request.ClientIP c3.Status (w3.Since (w.Now).1).1 id
                (w3.Since (w.Now).1).2), c3), none) := by
  by_cases hin : c.GetHeader "X-Request-ID" = ""
  · obtain ⟨id, w2, hgen, hne⟩ := generateRequestID_ok (w.Now).2 (hclock hin)
    have hw2 : w2 = { (w.Now).2 with ticks := (w.Now).2.ticks + 9 } := by
      have h := generateRequestID_world (w.Now).2 (hclock hin)
      rw [hgen] at h
      exact h
    refine ⟨id, w2, hne, fun h => absurd hin h, fun _ => by rw [hgen], by rw [hw2]; rfl, ?_⟩
    intro Next
    simp only [middleware.LoggingMiddleware, hin, if_true]
    rw [show middleware.generateRequestID (w.Now).2 = (Except.ok id, w2) from hgen]
  · refine ⟨c.GetHeader "X-Request-ID", (w.Now).2, hin, fun _ => rfl,
      fun h => absurd h hin, rfl, ?_⟩
    intro Next
    simp only [middleware.LoggingMiddleware, hin, if_false]

/-- The three outcomes of `HandleSum` each make one `c.JSON` call, with the
request ID of the context in the object: an `ErrorResponse` with status 400, or,
when the binder returned a request that `Validate` accepts, with status 200
the response `NewSumResponse` builds from the bound numbers. -/
theorem HandleSum_writes (s : SumHandler) (w : World) (c : Context) :
    ∃ code body, (s.HandleSum w c).2 = c.JSON code body
      ∧ body.requestID = Any.assertString (c.Get "request_id")
      ∧ ((code = 400 ∧ ∃ e, body = Payload.error e)
          ∨ (code = 200 ∧ ∃ req now id,
              w.ShouldBindJSON c.Request.Body = Except.ok req ∧ req.Validate = none
              ∧ body = Payload.sum (NewSumResponse now req.Numbers id))) := by
  unfold SumHandler.HandleSum
  cases hb : w.ShouldBindJSON c.Request.Body with
  | error err => exact ⟨StatusBadRequest, Payload.error _, rfl, rfl, Or.inl ⟨rfl, _, rfl⟩⟩
  | ok request =>
    cases hv : request.Validate with
    | some err =>
      simp only [hv]
      exact ⟨StatusBadRequest, Payload.error _, rfl, rfl, Or.inl ⟨rfl, _, rfl⟩⟩
    | none =>
      simp only [hv]
      exact ⟨StatusOK, Payload.sum _, rfl, rfl, Or.inr ⟨rfl, request, _, _, rfl, hv, rfl⟩⟩

/-- The one `c.JSON` call of `HandleSumGet`, with an object that is encoded. -/
theorem HandleSumGet_writes (s : SumHandler) (w : World) (c : Context) :
    ∃ code body, (s.HandleSumGet w c).2 = c.JSON code body
      ∧ body.requestID = Any.assertString (c.Get "request_id")
      ∧ body.marshalError = none := by
  simp only [SumHandler.HandleSumGet]
  exact ⟨_, _, rfl, rfl, rfl⟩

/-- The one `c.JSON` call of `HandleHealth`, with an object that is encoded. -/
theorem HandleHealth_writes (h : HealthHandler) (w : World) (c : Context) :
    ∃ code body, (h.HandleHealth w c).2 = c.JSON code body
      ∧ body.requestID = Any.assertString (c.Get "request_id")
      ∧ body.marshalError = none :=
  ⟨_, Payload.health _, rfl, rfl, rfl⟩

/-- The one `c.JSON` call of `HandleLiveness`, with an object that is encoded. -/
theorem HandleLiveness_writes (h : HealthHandler) (w : World) (c : Context) :
    ∃ code body, (h.HandleLiveness w c).2 = c.JSON code body
      ∧ body.requestID = Any.assertString (c.Get "request_id")
      ∧ body.marshalError = none :=
  ⟨_, Payload.health _, rfl, rfl, rfl⟩

/-- The one `c.JSON` call of `HandleReadiness`, with an object that is encoded. -/
theorem HandleReadiness_writes (h : HealthHandler) (w : World) (c : Context) :
    ∃ code body, (h.HandleReadiness w c).2 = c.JSON code body
      ∧ body.requestID = Any.assertString (c.Get "request_id")
      ∧ body.marshalError = none :=
  ⟨_, Payload.health _, rfl, rfl, rfl⟩

/-- The chain recovery, logging, handler, for a handler that makes one
`c.JSON` call with the request ID of the context and does nothing else to the
context: the object of the call and the response header carry the identifier
the logging middleware picked, the body is written when the object is encoded,
and nothing is written when the encoder refuses the object. What is known of
the call from the result of the binder (`Q`) is known of it in the chain. -/
theorem chain_plain (log : Logger) (H : World → Context → World × Context)
    (Q : Except Error models.SumRequest → Nat → Payload → Prop)
    (hH : ∀ w c, ∃ code body, (H w c).2 = c.JSON code body
      ∧ body.requestID = Any.assertString (c.Get "request_id")
      ∧ Q (w.ShouldBindJSON c.Request.Body) code body)
    (w : World) (c : Context) (hidx : c.index = -1)
    (hclock : c.GetHeader "X-Request-ID" = "" → ∀ k, 0 ≤ (w.clock k).wall) :
    ∃ id code body,
      id ≠ ""
      ∧ (c.GetHeader "X-Request-ID" ≠ "" → id = c.GetHeader "X-Request-ID")
      ∧ (c.GetHeader "X-Request-ID" = "" →
          (middleware.generateRequestID (w.Now).2).1 = Except.ok id)
      ∧ Q (w.ShouldBindJSON c.Request.Body) code body
      ∧ (body.marshalError = none →
          (serve [middleware.RecoveryMiddleware log, middleware.LoggingMiddleware log,
            plainHandler H] w c).1.2.Written = c.Written ++ [(code, body)])
      ∧ (∀ err, body.marshalError = some err →
          (serve [middleware.RecoveryMiddleware log, middleware.LoggingMiddleware log,
            plainHandler H] w c).1.2.Written = c.Written
          ∧ (serve [middleware.RecoveryMiddleware log, middleware.LoggingMiddleware log,
            plainHandler H] w c).1.2.Errors = c.Errors ++ [err])
      ∧ (serve [middleware.RecoveryMiddleware log, middleware.LoggingMiddleware log,
            plainHandler H] w c).1.2.Status = (if c.Written = [] then code else c.status)
      ∧ body.requestID = id
      ∧ (serve [middleware.RecoveryMiddleware log, middleware.LoggingMiddleware log,
            plainHandler H] w c).1.2.WriterHeaderGet "X-Request-ID" = id
      ∧ (serve [middleware.RecoveryMiddleware log, middleware.LoggingMiddleware log,
            plainHandler H] w c).2 = none := by
  obtain ⟨id, w1, hne, hin, hgen, hbind, hL⟩ :=
    LoggingMiddleware_run log w { c with index := 1 } hclock
  obtain ⟨code, body, hHc, hHid, hQ⟩ := hH w1
    { (({ c with index := 1 } : Context).Set middleware.RequestIDKey (Any.str id)).Header
        "X-Request-ID" id with index := 2 }
  have hQ2 : Q (w.ShouldBindJSON c.Request.Body) code body := by
    rw [hbind] at hQ
    simpa [Context.Set, Context.Header, hne] using hQ
  refine ⟨id, code, body, hne, hin, hgen, hQ2, ?_⟩
  have hid : body.requestID = id := by
    rw [hHid]
    simp [Context.Get, Context.Set, Context.Header, hne, middleware.RequestIDKey, List.lookup,
      Any.assertString]
  have hrun : (serve [middleware.RecoveryMiddleware log, middleware.LoggingMiddleware log,
        plainHandler H] w c).2 = none
      ∧ ∃ k : Int, (serve [middleware.RecoveryMiddleware log, middleware.LoggingMiddleware log,
        plainHandler H] w c).1.2 =
          { (Context.JSON
              { c with
                Keys := (middleware.RequestIDKey, Any.str id)
                  :: c.Keys.filter (fun kv => kv.1 != middleware.RequestIDKey)
                WriterHeader := ("X-Request-ID", id)
                  :: c.WriterHeader.filter (fun kv => kv.1 != "X-Request-ID")
                index := 2 } code body) with index := k } := by
    simp only [serve, nextLoop, hidx]
    simp only [show (-1 : Int) + 1 = ((0 : Nat) : Int) from rfl, if_true, Nat.cast_zero]
    simp only [middleware.RecoveryMiddleware]
    simp only [show ((0 : Int) + 1) = ((0 + 1 : Nat) : Int) from rfl, if_true]
    rw [show ((0 + 1 : Nat) : Int) = 1 from rfl, hL]
    simp only [Context.Set, Context.Header, hne, if_false]
    simp only [show ((1 : Int) + 1) = ((0 + 1 + 1 : Nat) : Int) from rfl, if_true, plainHandler]
    simp only [Context.Set, Context.Header, hne, if_false] at hHc
    rw [show ((0 + 1 + 1 : Nat) : Int) = 2 from rfl]
    generalize hout : H w1 _ = out at hHc ⊢
    obtain ⟨wH, cH⟩ := out
    simp only at hHc
    subst hHc
    cases hm : body.marshalError with
    | none =>
      refine ⟨?_, 5, ?_⟩ <;>
        simp [Context.JSON, hm, Context.Status, World.Since, World.Now, Logger.LogHTTPRequest,
          World.logEntry, Request.UserAgent]
    | some err =>
      refine ⟨?_, 66, ?_⟩ <;>
        simp [Context.JSON, hm, abortIndex, Context.Status, World.Since, World.Now,
          Logger.LogHTTPRequest, World.logEntry, Request.UserAgent]
  obtain ⟨hp, k, hc⟩ := hrun
  rw [hc]
  refine ⟨?_, ?_, ?_, hid, ?_, hp⟩
  · intro hm
    simp [Context.JSON, hm]
  · intro err hm
    simp [Context.JSON, hm]
  · cases hm : body.marshalError <;> simp [Context.JSON, hm, Context.Status]
  · cases hm : body.marshalError <;>
      simp [Context.JSON, hm, Context.WriterHeaderGet, List.lookup]

/-- The chain recovery, logging, handler, for a handler that panics: the body
of the 500 response and the response header carry the identifier the logging
middleware picked. -/
theorem chain_panic (log : Logger) (p : PanicValue)
    (w : World) (c : Context) (hidx : c.index = -1)
    (hclock : c.GetHeader "X-Request-ID" = "" → ∀ k, 0 ≤ (w.clock k).wall) :
    ∃ id code body,
      id ≠ ""
      ∧ (c.GetHeader "X-Request-ID" ≠ "" → id = c.GetHeader "X-Request-ID")
      ∧ (c.GetHeader "X-Request-ID" = "" →
          (middleware.generateRequestID (w.Now).2).1 = Except.ok id)
      ∧ (serve [middleware.RecoveryMiddleware log, middleware.LoggingMiddleware log,
            fun _ w1 c1 => ((w1, c1), some p)] w c).1.2.Written = c.Written ++ [(code, body)]
      ∧ body.requestID = id
      ∧ (serve [middleware.RecoveryMiddleware log, middleware.LoggingMiddleware log,
            fun _ w1 c1 => ((w1, c1), some p)] w c).1.2.WriterHeaderGet "X-Request-ID" = id
      ∧ (serve [middleware.RecoveryMiddleware log, middleware.LoggingMiddleware log,
            fun _ w1 c1 => ((w1, c1), some p)] w c).2 = none := by
  obtain ⟨id, w1, hne, hin, hgen, _, hL⟩ :=
    LoggingMiddleware_run log w { c with index := 1 } hclock
  refine ⟨id, 500, Payload.error
    { Error := "internal server error", Code := "INTERNAL_SERVER_ERROR", Details := none,
      Timestamp := w1.clock w1.ticks, RequestID := id, Path := c.Request.Path },
    hne, hin, hgen, ?_⟩
  have hrun : (serve [middleware.RecoveryMiddleware log, middleware.LoggingMiddleware log,
        fun _ w1 c1 => ((w1, c1), some p)] w c).2 = none
      ∧ (serve [middleware.RecoveryMiddleware log, middleware.LoggingMiddleware log,
        fun _ w1 c1 => ((w1, c1), some p)] w c).1.2 =
          { c with
            Keys := (middleware.RequestIDKey, Any.str id)
              :: c.Keys.filter (fun kv => kv.1 != middleware.RequestIDKey)
            WriterHeader := ("X-Request-ID", id)
              :: c.WriterHeader.filter (fun kv => kv.1 != "X-Request-ID")
            status := if c.Written = [] then 500 else c.status
            Written := c.Written ++ [(500, Payload.error
              { Error := "internal server error", Code := "INTERNAL_SERVER_ERROR",
                Details := none, Timestamp := w1.clock w1.ticks, RequestID := id,
                Path := c.Request.Path })]
            index := 64 } := by
    simp only [serve, nextLoop, hidx]
    simp only [show (-1 : Int) + 1 = ((0 : Nat) : Int) from rfl, if_true, Nat.cast_zero]
    simp only [middleware.RecoveryMiddleware]
    simp only [show ((0 : Int) + 1) = ((0 + 1 : Nat) : Int) from rfl, if_true]
    rw [show ((0 + 1 : Nat) : Int) = 1 from rfl, hL]
    simp only [Context.Set, Context.Header, hne, if_false]
    simp only [show ((1 : Int) + 1) = ((0 + 1 + 1 : Nat) : Int) from rfl, if_true]
    simp [Context.JSON, Payload.marshalError, Context.Abort, abortIndex, World.Now, World.enter, Logger.LogError,
      World.logEntry, StatusInternalServerError, NewErrorResponse, Context.Get,
      middleware.RequestIDKey, List.lookup, Any.assertString]
  obtain ⟨hp, hc⟩ := hrun
  rw [hc]
  refine ⟨rfl, rfl, ?_, hp⟩
  simp [Context.WriterHeaderGet, List.lookup]

/-- The clock of the example world never reads a time before the epoch. -/
theorem serverWorld_clock (k : Nat) : 0 ≤ (Example.serverWorld.clock k).wall := by
  show (0 : Int) ≤ 1700000000000000000 + 1000000 * (k : Int)
  have : (0 : Int) ≤ (k : Int) := Int.ofNat_nonneg k
  omega

end Lemmas

/-! ## Lemmas on the registration of routes -/

section RouteLemmas

open server

/-- A registration that returns has stored the route behind the others. -/
theorem addRoute_ok (rule : WildcardRule) (e : Engine) (method path : String)
    (handlers : List HandlerName) (e2 : Engine)
    (h : e.addRoute rule method path handlers = Except.ok e2) :
    e2 = { e with Routes := e.Routes ++ [⟨method, path, handlers⟩] } := by
  unfold Engine.addRoute at h
  simp only at h
  split_ifs at h with h1 h2
  · cases hr : rule ((e.Routes.filter (fun r => r.Method = method)).map (fun r => r.Path)) path with
    | some p => rw [hr] at h; cases h
    | none =>
      rw [hr] at h
      injection h with h
      exact h.symm
  · injection h with h
    exact h.symm

/-- A path that is registered for the method is refused. -/
theorem addRoute_duplicate (rule : WildcardRule) (e : Engine) (method path : String)
    (handlers : List HandlerName)
    (hold : path ∈ (e.Routes.filter (fun r => r.Method = method)).map (fun r => r.Path)) :
    e.addRoute rule method path handlers
      = Except.error ⟨"handlers are already registered for path \x27" ++ path ++ "\x27"⟩ := by
  unfold Engine.addRoute
  simp only [hold, if_true]

/-- A registration that returns was given a path that was not registered for
the method. -/
theorem addRoute_new (rule : WildcardRule) (e : Engine) (method path : String)
    (handlers : List HandlerName) (e2 : Engine)
    (h : e.addRoute rule method path handlers = Except.ok e2) :
    path ∉ (e.Routes.filter (fun r => r.Method = method)).map (fun r => r.Path) := by
  intro hold
  rw [addRoute_duplicate rule e method path handlers hold] at h
  cases h

/-- A path without a wildcard that is new among paths without a wildcard is
registered. -/
theorem addRoute_static (rule : WildcardRule) (e : Engine) (method path : String)
    (handlers : List HandlerName)
    (hnew : path ∉ (e.Routes.filter (fun r => r.Method = method)).map (fun r => r.Path))
    (hw : hasWildcard path = false)
    (hws : ((e.Routes.filter (fun r => r.Method = method)).map (fun r => r.Path)).any
      hasWildcard = false) :
    e.addRoute rule method path handlers
      = Except.ok { e with Routes := e.Routes ++ [⟨method, path, handlers⟩] } := by
  unfold Engine.addRoute
  simp only [hnew, hw, hws, if_false, Bool.or_self, Bool.false_eq_true]

/-- The absolute paths of the fixed routes. -/
theorem joinPaths_fixed :
    joinPaths "/" "/healthz/live" = "/healthz/live"
    ∧ joinPaths "/" "/healthz/ready" = "/healthz/ready"
    ∧ joinPaths "/" "/api/v1" = "/api/v1"
    ∧ joinPaths "/api/v1" "/sum" = "/api/v1/sum"
    ∧ joinPaths "/" "/" = "/"
    ∧ hasWildcard "/healthz/live" = false
    ∧ hasWildcard "/healthz/ready" = false
    ∧ hasWildcard "/api/v1/sum" = false
    ∧ hasWildcard "/" = false := by
  refine ⟨by decide, by decide, by decide, by decide, by decide, by decide, by decide,
    by decide, by decide⟩

set_option maxHeartbeats 400000 in
/-- When `SetupRoutes` returns, every stored chain is the middleware followed
by the handler of the route, and the configured paths collide with no route. -/
theorem SetupRoutes_of_ok (rule : WildcardRule) (cfg : config.Config) (log : Logger) :
    ∀ e, SetupRoutes rule cfg log = Except.ok e →
      e.Root.Handlers =
          [HandlerName.RecoveryMiddleware, HandlerName.LoggingMiddleware]
            ++ (if cfg.Metrics.Enabled then [HandlerName.MetricsMiddleware] else [])
      ∧ (∀ r ∈ e.Routes, ∃ handler,
          r.Handlers = [HandlerName.RecoveryMiddleware, HandlerName.LoggingMiddleware]
            ++ (if cfg.Metrics.Enabled then [HandlerName.MetricsMiddleware] else [])
            ++ [handler]
          ∧ handler ≠ HandlerName.RecoveryMiddleware
          ∧ handler ≠ HandlerName.LoggingMiddleware
          ∧ handler ≠ HandlerName.MetricsMiddleware)
      ∧ e.Routes.map (fun r => (r.Method, r.Path, r.Handlers.getLast?))
          = [("GET", joinPaths "/" cfg.Health.Path, some HandlerName.HandleHealth),
             ("GET", "/healthz/live", some HandlerName.HandleLiveness),
             ("GET", "/healthz/ready", some HandlerName.HandleReadiness)]
            ++ (if cfg.Metrics.Enabled then
                  [("GET", joinPaths "/" cfg.Metrics.Path, some HandlerName.promhttpHandler)]
                else [])
            ++ [("POST", "/api/v1/sum", some HandlerName.HandleSum),
                ("GET", "/api/v1/sum", some HandlerName.HandleSumGet),
                ("GET", "/", some HandlerName.rootInfo)]
      ∧ joinPaths "/" cfg.Health.Path
          ∉ ["/healthz/live", "/healthz/ready", "/api/v1/sum", "/"]
      ∧ (cfg.Metrics.Enabled = true →
          joinPaths "/" cfg.Metrics.Path
            ∉ [joinPaths "/" cfg.Health.Path, "/healthz/live", "/healthz/ready",
                "/api/v1/sum", "/"]) := by
  obtain ⟨j1, j2, j3, j4, j5, w1, w2, w3, w4⟩ := joinPaths_fixed
  intro e h
  unfold SetupRoutes at h
  cases hm : cfg.Metrics.Enabled
  · simp only [hm, Bool.false_eq_true, if_false, Engine.handle, Engine.Group, New,
      Engine.Use, j1, j2, j3, j4, j5] at h ⊢
    split at h
    · cases h
    · rename_i r1 h1
      have e1 := addRoute_ok _ _ _ _ _ _ h1
      subst e1
      simp only at h
      split at h
      · cases h
      · rename_i r2 h2
        have d2 := addRoute_new _ _ _ _ _ _ h2
        have e2 := addRoute_ok _ _ _ _ _ _ h2
        subst e2
        simp only at h
        split at h
        · cases h
        · rename_i r3 h3
          have d3 := addRoute_new _ _ _ _ _ _ h3
          have e3 := addRoute_ok _ _ _ _ _ _ h3
          subst e3
          simp only at h
          split at h
          · cases h
          · rename_i r5 h5
            have d5 := addRoute_new _ _ _ _ _ _ h5
            have e5 := addRoute_ok _ _ _ _ _ _ h5
            subst e5
            simp only at h
            split at h
            · cases h
            · rename_i r6 h6
              have d6 := addRoute_new _ _ _ _ _ _ h6
              have e6 := addRoute_ok _ _ _ _ _ _ h6
              subst e6
              simp only at h
              have d7 := addRoute_new _ _ _ _ _ _ h
              have e7 := addRoute_ok _ _ _ _ _ _ h
              subst e7
              simp only [j1, j2, j3, j4, j5] at d2 d3 d5 d6 d7
              simp at d2 d3 d5 d6 d7
              simp [j1, j2, j3, j4, j5]
              exact ⟨fun h => d2 h.symm, fun h => d3 h.symm, fun h => d6 h.symm, fun h => d7 h.symm⟩
  · simp only [hm, if_true, Engine.handle, Engine.Group, New, Engine.Use, j1, j2, j3, j4,
      j5] at h ⊢
    split at h
    · cases h
    · rename_i r1 h1
      have e1 := addRoute_ok _ _ _ _ _ _ h1
      subst e1
      simp only at h
      split at h
      · cases h
      · rename_i r2 h2
        have d2 := addRoute_new _ _ _ _ _ _ h2
        have e2 := addRoute_ok _ _ _ _ _ _ h2
        subst e2
        simp only at h
        split at h
        · cases h
        · rename_i r3 h3
          have d3 := addRoute_new _ _ _ _ _ _ h3
          have e3 := addRoute_ok _ _ _ _ _ _ h3
          subst e3
          simp only at h
          split at h
          · cases h
          · rename_i r4 h4
            have d4 := addRoute_new _ _ _ _ _ _ h4
            have e4 := addRoute_ok _ _ _ _ _ _ h4
            subst e4
            simp only at h
            split at h
            · cases h
            · rename_i r5 h5
              have d5 := addRoute_new _ _ _ _ _ _ h5
              have e5 := addRoute_ok _ _ _ _ _ _ h5
              subst e5
              simp only at h
              split at h
              · cases h
              · rename_i r6 h6
                have d6 := addRoute_new _ _ _ _ _ _ h6
                have e6 := addRoute_ok _ _ _ _ _ _ h6
                subst e6
                simp only at h
                have d7 := addRoute_new _ _ _ _ _ _ h
                have e7 := addRoute_ok _ _ _ _ _ _ h
                subst e7
                simp only [j1, j2, j3, j4, j5] at d2 d3 d4 d5 d6 d7
                simp at d2 d3 d4 d5 d6 d7
                simp [j1, j2, j3, j4, j5]
                exact ⟨⟨fun h => d2 h.symm, fun h => d3 h.symm, fun h => d6.1 h.symm,
                  fun h => d7.1 h.symm⟩, d4.1, d4.2.1, d4.2.2, fun h => d6.2 h.symm, fun h => d7.2 h.symm⟩

/-- `SetupRoutes` returns when the configured paths hold no wildcard and
collide with no route. -/
theorem SetupRoutes_returns (rule : WildcardRule) (cfg : config.Config) (log : Logger) :
    hasWildcard (joinPaths "/" cfg.Health.Path) = false →
        joinPaths "/" cfg.Health.Path
          ∉ ["/healthz/live", "/healthz/ready", "/api/v1/sum", "/"] →
        (cfg.Metrics.Enabled = true →
          hasWildcard (joinPaths "/" cfg.Metrics.Path) = false
          ∧ joinPaths "/" cfg.Metrics.Path
              ∉ [joinPaths "/" cfg.Health.Path, "/healthz/live", "/healthz/ready",
                  "/api/v1/sum", "/"]) →
        ∃ e, SetupRoutes rule cfg log = Except.ok e := by
  obtain ⟨j1, j2, j3, j4, j5, w1, w2, w3, w4⟩ := joinPaths_fixed
  intro hw hnew hmetrics
  simp only [List.mem_cons, List.mem_singleton, List.not_mem_nil, or_false, not_or] at hnew
  obtain ⟨n1, n2, n3, n4⟩ := hnew
  unfold SetupRoutes
  cases hm : cfg.Metrics.Enabled
  · simp only [hm, Bool.false_eq_true, if_false, Engine.handle, Engine.Group, New,
      Engine.Use, j1, j2, j3, j4, j5]
    rw [addRoute_static _ _ _ _ _ (by simp) hw (by simp)]
    simp only [j1, j2, j3, j4, j5]
    rw [addRoute_static _ _ _ _ _ (by simp [Ne.symm n1]) w1 (by simp [hw])]
    simp only [j1, j2, j3, j4, j5]
    rw [addRoute_static _ _ _ _ _ (by simp [Ne.symm n2]) w2 (by simp [hw, w1])]
    simp only [j1, j2, j3, j4, j5]
    rw [addRoute_static _ _ _ _ _ (by simp) w3 (by simp)]
    simp only [j1, j2, j3, j4, j5]
    rw [addRoute_static _ _ _ _ _ (by simp [Ne.symm n3]) w3 (by simp [hw, w1, w2])]
    simp only [j1, j2, j3, j4, j5]
    rw [addRoute_static _ _ _ _ _ (by simp [Ne.symm n4]) w4 (by simp [hw, w1, w2, w3])]
    exact ⟨_, rfl⟩
  · obtain ⟨mw, mnew⟩ := hmetrics hm
    simp only [List.mem_cons, List.mem_singleton, List.not_mem_nil, or_false, not_or] at mnew
    obtain ⟨m0, m1, m2, m3, m4⟩ := mnew
    simp only [hm, if_true, Engine.handle, Engine.Group, New, Engine.Use, j1, j2, j3, j4, j5]
    rw [addRoute_static _ _ _ _ _ (by simp) hw (by simp)]
    simp only [j1, j2, j3, j4, j5]
    rw [addRoute_static _ _ _ _ _ (by simp [Ne.symm n1]) w1 (by simp [hw])]
    simp only [j1, j2, j3, j4, j5]
    rw [addRoute_static _ _ _ _ _ (by simp [Ne.symm n2]) w2 (by simp [hw, w1])]
    simp only [j1, j2, j3, j4, j5]
    rw [addRoute_static _ _ _ _ _ (by simp [m0, m1, m2]) mw (by simp [hw, w1, w2])]
    simp only [j1, j2, j3, j4, j5]
    rw [addRoute_static _ _ _ _ _ (by simp) w3 (by simp)]
    simp only [j1, j2, j3, j4, j5]
    rw [addRoute_static _ _ _ _ _ (by simp [Ne.symm n3, Ne.symm m3]) w3
      (by simp [hw, w1, w2, mw])]
    simp only [j1, j2, j3, j4, j5]
    rw [addRoute_static _ _ _ _ _ (by simp [Ne.symm n4, Ne.symm m4]) w4
      (by simp [hw, w1, w2, w3, mw])]
    exact ⟨_, rfl⟩

/-- `SetupRoutes` panics when the health path is the path of the liveness
probe. -/
theorem SetupRoutes_duplicate (rule : WildcardRule) (cfg : config.Config) (log : Logger) :
    joinPaths "/" cfg.Health.Path = "/healthz/live" →
        SetupRoutes rule cfg log
          = Except.error ⟨"handlers are already registered for path \x27/healthz/live\x27"⟩ := by
  obtain ⟨j1, j2, j3, j4, j5, w1, w2, w3, w4⟩ := joinPaths_fixed
  intro hp
  unfold SetupRoutes
  have hw : hasWildcard (joinPaths "/" cfg.Health.Path) = false := by rw [hp]; exact w1
  cases hm : cfg.Metrics.Enabled
  · simp only [hm, Bool.false_eq_true, if_false, Engine.handle, Engine.Group, New,
      Engine.Use, j1, j2, j3, j4, j5]
    rw [addRoute_static _ _ _ _ _ (by simp) hw (by simp)]
    simp only [j1, j2, j3, j4, j5]
    rw [addRoute_duplicate _ _ _ _ _ (by simp [hp])]
    rfl
  · simp only [hm, if_true, Engine.handle, Engine.Group, New, Engine.Use, j1, j2, j3, j4, j5]
    rw [addRoute_static _ _ _ _ _ (by simp) hw (by simp)]
    simp only [j1, j2, j3, j4, j5]
    rw [addRoute_duplicate _ _ _ _ _ (by simp [hp])]
    rfl

end RouteLemmas

/-! ## The sum request and its response -/

namespace models

open Float64

/-- C1. `Validate` returns no error if and only if the length of `Numbers` lies
between 2 and 100, both included: lengths 2 and 100 are accepted, lengths 0, 1
and 101 are rejected, and two requests of the same length get the same result
whatever their numbers are. -/
theorem Validate_none_iff_length (s : SumRequest) :
    (s.Validate = none ↔ 2 ≤ s.Numbers.length ∧ s.Numbers.length ≤ 100)
    ∧ (s.Numbers.length = 2 ∨ s.Numbers.length = 100 → s.Validate = none)
    ∧ (s.Numbers.length = 0 ∨ s.Numbers.length = 1 ∨ s.Numbers.length = 101 →
        s.Validate ≠ none)
    ∧ (∀ t : SumRequest, t.Numbers.length = s.Numbers.length → t.Validate = s.Validate) := by
  have key : s.Validate = none ↔ 2 ≤ s.Numbers.length ∧ s.Numbers.length ≤ 100 := by
    unfold SumRequest.Validate
    split_ifs with h1 h2
    · simp; omega
    · simp; omega
    · simp; omega
  refine ⟨key, ?_, ?_, ?_⟩
  · intro h
    exact key.2 (by omega)
  · intro h hn
    have := key.1 hn
    omega
  · intro t ht
    simp [SumRequest.Validate, ht]

/-- Worked instances of C1: two numbers and a hundred numbers pass, none, one
and a hundred and one do not, and the values are irrelevant. -/
theorem Validate_none_iff_length_witness :
    SumRequest.Validate ⟨[zero, nan]⟩ = none
    ∧ SumRequest.Validate ⟨List.replicate 100 zero⟩ = none
    ∧ SumRequest.Validate ⟨[]⟩ ≠ none
    ∧ SumRequest.Validate ⟨[inf true]⟩ ≠ none
    ∧ SumRequest.Validate ⟨List.replicate 101 zero⟩ ≠ none
    ∧ SumRequest.Validate ⟨[dyadic 3 1, dyadic 5 1]⟩ = SumRequest.Validate ⟨[zero, nan]⟩ :=
  ⟨(Validate_none_iff_length ⟨[zero, nan]⟩).2.1 (Or.inl rfl),
   (Validate_none_iff_length ⟨List.replicate 100 zero⟩).2.1 (Or.inr (by simp)),
   (Validate_none_iff_length ⟨[]⟩).2.2.1 (Or.inl rfl),
   (Validate_none_iff_length ⟨[inf true]⟩).2.2.1 (Or.inr (Or.inl rfl)),
   (Validate_none_iff_length ⟨List.replicate 101 zero⟩).2.2.1 (Or.inr (Or.inr (by simp))),
   (Validate_none_iff_length ⟨[zero, nan]⟩).2.2.2 ⟨[dyadic 3 1, dyadic 5 1]⟩ rfl⟩

/-- C2. When the length `n` of `Numbers` is below 2 the error of `Validate` is
exactly `at least 2 numbers are required, got ` followed by the decimal digits
of `n`, and when `n` exceeds 100 it is exactly
`maximum 100 numbers allowed, got ` followed by the decimal digits of `n`. -/
theorem Validate_error_message (s : SumRequest) :
    (s.Numbers.length < 2 → s.Validate =
        some ⟨"at least 2 numbers are required, got " ++ Nat.repr s.Numbers.length⟩)
    ∧ (100 < s.Numbers.length → s.Validate =
        some ⟨"maximum 100 numbers allowed, got " ++ Nat.repr s.Numbers.length⟩) := by
  constructor
  · intro h
    simp [SumRequest.Validate, h, Errorf, fmtD_natCast]
  · intro h
    have h2 : ¬ s.Numbers.length < 2 := by omega
    simp [SumRequest.Validate, h, h2, Errorf, fmtD_natCast]

/-- Worked instances of C2: the messages for one, zero and 101 numbers. -/
theorem Validate_error_message_witness :
    SumRequest.Validate ⟨[zero]⟩ = some ⟨"at least 2 numbers are required, got 1"⟩
    ∧ SumRequest.Validate ⟨[]⟩ = some ⟨"at least 2 numbers are required, got 0"⟩
    ∧ SumRequest.Validate ⟨List.replicate 101 zero⟩ =
        some ⟨"maximum 100 numbers allowed, got 101"⟩ :=
  ⟨(Validate_error_message ⟨[zero]⟩).1 (by decide),
   (Validate_error_message ⟨[]⟩).1 (by decide),
   (Validate_error_message ⟨List.replicate 101 zero⟩).2 (by simp)⟩

/-- C3. For every list of numbers, the empty one included, and every request
ID, the `Sum` of `NewSumResponse` is the left fold of the float64 addition over
the numbers in input order, started from `0.0`; for `1.5, 2.5, 3.0` it is
exactly `7.0` (the last four conjuncts say which numbers the four data are). -/
theorem NewSumResponse_Sum (now : Time) (numbers : List Float64) (requestID : String) :
    (NewSumResponse now numbers requestID).Sum = numbers.foldl Float64.add Float64.zero
    ∧ (NewSumResponse now [dyadic 3 1, dyadic 5 1, dyadic 3 0] requestID).Sum = dyadic 7 0
    ∧ toRat (dyadic 3 1) = some (3 / 2) ∧ toRat (dyadic 5 1) = some (5 / 2)
    ∧ toRat (dyadic 3 0) = some 3 ∧ toRat (dyadic 7 0) = some 7 := by
  refine ⟨sumLoop_eq_foldl numbers Float64.zero, ?_, ?_, ?_, ?_, ?_⟩
  · simp only [NewSumResponse]
    exact sumLoop_example
  · rw [dyadic_3_1]
    simp [toRat, significand, scale]
    norm_num
  · rw [dyadic_5_1]
    simp [toRat, significand, scale]
    norm_num
  · rw [dyadic_3_0]
    simp [toRat, significand, scale]
    norm_num
  · rw [dyadic_7_0]
    simp [toRat, significand, scale]
    norm_num

/-- C4. For every list of numbers and every request ID, `NewSumResponse` has
`Count` equal to the length of the list, `Numbers` equal to the list, element
for element in the same order, and `RequestID` equal to the request ID. -/
theorem NewSumResponse_echo (now : Time) (numbers : List Float64) (requestID : String) :
    (NewSumResponse now numbers requestID).Count = numbers.length
    ∧ (NewSumResponse now numbers requestID).Numbers = numbers
    ∧ (∀ i : Nat, (NewSumResponse now numbers requestID).Numbers.get? i = numbers.get? i)
    ∧ (NewSumResponse now numbers requestID).RequestID = requestID :=
  ⟨rfl, rfl, fun _ => rfl, rfl⟩

end models

/-! ## The sum handler -/

namespace handlers

open models Float64

/-- C5, as the code has it. When the binder accepts the body and the bound list
has between 2 and 100 numbers, `HandleSum` makes exactly one `c.JSON` call, with
status 200 and the `SumResponse` that `NewSumResponse` builds from the bound
list and the request ID held in the context. When the sum is a number, that
response is written as the body. When the sum is not a number, the encoder
refuses the response: no body is written, the error of the encoder is attached
to the context and the chain is aborted. In both cases the status of the
writer is 200, unless a body was written before the handler ran. -/
theorem HandleSum_ok (s : SumHandler) (w : World) (c : Context) (req : SumRequest)
    (hbind : w.ShouldBindJSON c.Request.Body = Except.ok req)
    (hmin : 2 ≤ req.Numbers.length) (hmax : req.Numbers.length ≤ 100) :
    (s.HandleSum w c).2 = c.JSON 200
        (Payload.sum (NewSumResponse (w.clock w.ticks) req.Numbers
          (Any.assertString (c.Get "request_id"))))
    ∧ ((sumLoop req.Numbers Float64.zero).isFinite = true →
        (s.HandleSum w c).2.Written = c.Written ++
          [(200, Payload.sum (NewSumResponse (w.clock w.ticks) req.Numbers
              (Any.assertString (c.Get "request_id"))))])
    ∧ ((sumLoop req.Numbers Float64.zero).isFinite = false →
        (s.HandleSum w c).2.Written = c.Written
        ∧ (∃ t, (sumLoop req.Numbers Float64.zero).unsupportedText = some t
            ∧ (s.HandleSum w c).2.Errors = c.Errors ++ [⟨"json: unsupported value: " ++ t⟩])
        ∧ (s.HandleSum w c).2.index = abortIndex)
    ∧ (c.Written = [] → (s.HandleSum w c).2.Status = 200) := by
  have hv : req.Validate = none := by
    unfold SumRequest.Validate
    have h1 : ¬ req.Numbers.length < 2 := by omega
    have h2 : ¬ req.Numbers.length > 100 := by omega
    simp [h1, h2]
  have hcall : (s.HandleSum w c).2 = c.JSON 200
      (Payload.sum (NewSumResponse (w.clock w.ticks) req.Numbers
        (Any.assertString (c.Get "request_id")))) := by
    simp [SumHandler.HandleSum, hbind, hv, World.Now, World.enter, World.logEntry, StatusOK,
      middleware.RequestIDKey]
  refine ⟨hcall, ?_, ?_, ?_⟩
  · intro hfin
    rw [hcall, JSON_of_marshals _ _ _ (NewSumResponse_marshals _ _ _ hfin)]
  · intro hfin
    obtain ⟨t, ht, herr⟩ := NewSumResponse_marshalError (w.clock w.ticks) req.Numbers
      (Any.assertString (c.Get "request_id")) hfin
    rw [hcall, JSON_of_marshalError _ _ _ _ herr]
    exact ⟨rfl, ⟨t, ht, rfl⟩, rfl⟩
  · intro hw
    rw [hcall]
    cases hm : (Payload.sum (NewSumResponse (w.clock w.ticks) req.Numbers
        (Any.assertString (c.Get "request_id")))).marshalError with
    | none => rw [JSON_of_marshals _ _ _ hm]; simp [Context.Status, hw]
    | some err => rw [JSON_of_marshalError _ _ _ _ hm]; simp [Context.Status, hw]

set_option maxRecDepth 100000 in
/-- Worked instance of C5: the body with `1.5, 2.5, 3.0` yields 200 with sum
`7.0`, count 3 and the three numbers. -/
theorem HandleSum_ok_witness :
    Example.world.ShouldBindJSON
        (Example.context "POST" "/api/v1/sum" Example.validBody).Request.Body
      = Except.ok ⟨[dyadic 3 1, dyadic 5 1, dyadic 3 0]⟩
    ∧ (Example.sumHandler.HandleSum Example.world
        (Example.context "POST" "/api/v1/sum" Example.validBody)).2.Written
      = [(200, Payload.sum
          { Sum := dyadic 7 0, Count := 3, Numbers := [dyadic 3 1, dyadic 5 1, dyadic 3 0],
            Timestamp := ⟨1700000000000000000, 5000000⟩,
            RequestID := "test-request-id" })] := by
  refine ⟨rfl, ?_⟩
  rw [(HandleSum_ok Example.sumHandler Example.world
    (Example.context "POST" "/api/v1/sum" Example.validBody)
    ⟨[dyadic 3 1, dyadic 5 1, dyadic 3 0]⟩ rfl (by decide) (by decide)).2.1 (by decide)]
  decide

set_option maxRecDepth 100000 in
/-- The claim C5 fails as it is worded. The body with two numbers that are
each the largest `float64` decodes to a list of length 2; their sum is the
positive infinity, which the encoder refuses; the handler answers with status
200 and writes no body, so there is no `SumResponse` in the response. -/
theorem HandleSum_ok_counterexample :
    Example.overflowWorld.ShouldBindJSON
        (Example.context "POST" "/api/v1/sum" Example.overflowBody).Request.Body
      = Except.ok ⟨[Example.maxFloat64, Example.maxFloat64]⟩
    ∧ (NewSumResponse ⟨1700000000000000000, 5000000⟩
        [Example.maxFloat64, Example.maxFloat64] "test-request-id").Sum = Float64.inf false
    ∧ (Example.sumHandler.HandleSum Example.overflowWorld
        (Example.context "POST" "/api/v1/sum" Example.overflowBody)).2.Written = []
    ∧ (Example.sumHandler.HandleSum Example.overflowWorld
        (Example.context "POST" "/api/v1/sum" Example.overflowBody)).2.Written
      ≠ [(200, Payload.sum (NewSumResponse ⟨1700000000000000000, 5000000⟩
          [Example.maxFloat64, Example.maxFloat64] "test-request-id"))]
    ∧ (Example.sumHandler.HandleSum Example.overflowWorld
        (Example.context "POST" "/api/v1/sum" Example.overflowBody)).2.Status = 200
    ∧ (Example.sumHandler.HandleSum Example.overflowWorld
        (Example.context "POST" "/api/v1/sum" Example.overflowBody)).2.Errors
      = [⟨"json: unsupported value: +Inf"⟩] := by
  refine ⟨rfl, by decide!, by decide!, by decide!, by decide!, by decide!⟩

/-- C6. When the binder accepts the body and the bound list has 0, 1 or at least
101 numbers, `HandleSum` makes exactly one `c.JSON` call, with status 400 and an
`ErrorResponse` whose code is `VALIDATION_ERROR`, whose error is the message
`Validate` returns (it contains `at least 2` for lengths 0 and 1 and
`maximum 100` from 101 on) and whose path is the URL path of the request;
`NewSumResponse` is not entered. -/
theorem HandleSum_validation_error (s : SumHandler) (w : World) (c : Context)
    (req : SumRequest) (hbind : w.ShouldBindJSON c.Request.Body = Except.ok req)
    (hlen : req.Numbers.length = 0 ∨ req.Numbers.length = 1 ∨ 101 ≤ req.Numbers.length) :
    ∃ err, req.Validate = some err
      ∧ (s.HandleSum w c).2.Written = c.Written ++
          [(400, Payload.error
            { Error := err.msg, Code := "VALIDATION_ERROR", Details := none,
              Timestamp := w.clock w.ticks,
              RequestID := Any.assertString (c.Get "request_id"),
              Path := c.Request.Path })]
      ∧ (req.Numbers.length ≤ 1 → ∃ pre post, err.msg = pre ++ "at least 2" ++ post)
      ∧ (101 ≤ req.Numbers.length → ∃ pre post, err.msg = pre ++ "maximum 100" ++ post)
      ∧ (s.HandleSum w c).1.calls = w.calls ++ [Call.Validate, Call.NewErrorResponse] := by
  by_cases h1 : req.Numbers.length < 2
  · refine ⟨Errorf "at least 2 numbers are required, got " req.Numbers.length,
      ?_, ?_, ?_, ?_, ?_⟩
    · simp [SumRequest.Validate, h1]
    · simp [SumHandler.HandleSum, hbind, SumRequest.Validate, h1, Context.JSON, Payload.marshalError, World.Now,
        World.enter, World.logEntry, StatusBadRequest, middleware.RequestIDKey,
        NewErrorResponse]
    · intro _
      exact ⟨"", " numbers are required, got " ++ fmtD req.Numbers.length,
        append_split "" "at least 2" " numbers are required, got " _ _ (by decide)⟩
    · intro h
      omega
    · simp [SumHandler.HandleSum, hbind, SumRequest.Validate, h1, Context.JSON, Payload.marshalError, World.Now,
        World.enter, World.logEntry]
  · have h2 : req.Numbers.length > 100 := by omega
    refine ⟨Errorf "maximum 100 numbers allowed, got " req.Numbers.length, ?_, ?_, ?_, ?_, ?_⟩
    · simp [SumRequest.Validate, h1, h2]
    · simp [SumHandler.HandleSum, hbind, SumRequest.Validate, h1, h2, Context.JSON, Payload.marshalError, World.Now,
        World.enter, World.logEntry, StatusBadRequest, middleware.RequestIDKey,
        NewErrorResponse]
    · intro h
      omega
    · intro _
      exact ⟨"", " numbers allowed, got " ++ fmtD req.Numbers.length,
        append_split "" "maximum 100" " numbers allowed, got " _ _ (by decide)⟩
    · simp [SumHandler.HandleSum, hbind, SumRequest.Validate, h1, h2, Context.JSON, Payload.marshalError, World.Now,
        World.enter, World.logEntry]

/-- Worked instance of C6: the body with the single number `1.5`. -/
theorem HandleSum_validation_error_witness :
    ∃ err, SumRequest.Validate ⟨[dyadic 3 1]⟩ = some err
      ∧ (Example.sumHandler.HandleSum Example.world
          (Example.context "POST" "/api/v1/sum" Example.shortBody)).2.Written
        = [] ++ [(400, Payload.error
            { Error := err.msg, Code := "VALIDATION_ERROR", Details := none,
              Timestamp := ⟨1700000000000000000, 5000000⟩,
              RequestID := "test-request-id",
              Path := "/api/v1/sum" })]
      ∧ (1 ≤ 1 → ∃ pre post, err.msg = pre ++ "at least 2" ++ post)
      ∧ (101 ≤ 1 → ∃ pre post, err.msg = pre ++ "maximum 100" ++ post)
      ∧ (Example.sumHandler.HandleSum Example.world
          (Example.context "POST" "/api/v1/sum" Example.shortBody)).1.calls
        = [] ++ [Call.Validate, Call.NewErrorResponse] :=
  HandleSum_validation_error Example.sumHandler Example.world
    (Example.context "POST" "/api/v1/sum" Example.shortBody) ⟨[dyadic 3 1]⟩
    rfl (by decide)

/-- C7. When the binder rejects the body with an error, `HandleSum` makes
exactly one `c.JSON` call, with status 400 and an `ErrorResponse` whose code is
`INVALID_REQUEST_BODY`, whose error is the message of the binding error and
whose request ID is the one held in the context; neither `Validate` nor
`NewSumResponse` is entered. -/
theorem HandleSum_bind_error (s : SumHandler) (w : World) (c : Context) (err : Error)
    (hbind : w.ShouldBindJSON c.Request.Body = Except.error err) :
    (s.HandleSum w c).2.Written = c.Written ++
        [(400, Payload.error
          { Error := err.msg, Code := "INVALID_REQUEST_BODY", Details := none,
            Timestamp := w.clock w.ticks,
            RequestID := Any.assertString (c.Get "request_id"),
            Path := c.Request.Path })]
    ∧ (s.HandleSum w c).1.calls = w.calls ++ [Call.NewErrorResponse] := by
  simp [SumHandler.HandleSum, hbind, Context.JSON, Payload.marshalError, World.Now, World.enter, World.logEntry,
    StatusBadRequest, middleware.RequestIDKey, NewErrorResponse]

/-- Worked instance of C7: the body `invalid json`. -/
theorem HandleSum_bind_error_witness :
    Example.world.ShouldBindJSON
        (Example.context "POST" "/api/v1/sum" "invalid json").Request.Body
      = Except.error ⟨"invalid request body"⟩
    ∧ (Example.sumHandler.HandleSum Example.world
        (Example.context "POST" "/api/v1/sum" "invalid json")).2.Written
      = [(400, Payload.error
          { Error := "invalid request body", Code := "INVALID_REQUEST_BODY", Details := none,
            Timestamp := ⟨1700000000000000000, 5000000⟩,
            RequestID := "test-request-id",
            Path := "/api/v1/sum" })]
    ∧ (Example.sumHandler.HandleSum Example.world
        (Example.context "POST" "/api/v1/sum" "invalid json")).1.calls
      = [Call.NewErrorResponse] :=
  ⟨rfl,
   HandleSum_bind_error Example.sumHandler Example.world
    (Example.context "POST" "/api/v1/sum" "invalid json") ⟨"invalid request body"⟩ rfl⟩

end handlers

/-! ## The health response and the health handler -/

namespace models

/-- C8. For every map of checks, the empty and the nil map included,
`NewHealthResponse` has status `healthy` if and only if every value of the map
is exactly `ok`, and status `unhealthy` otherwise; `IsHealthy` is true exactly
in the first case; version, uptime, checks and request ID are the arguments
unchanged. -/
theorem NewHealthResponse_Status (now : Time) (version uptime : String) (checks : StringMap)
    (requestID : String) :
    ((NewHealthResponse now version uptime checks requestID).Status = "healthy"
        ↔ ∀ kv ∈ checks.entries, kv.2 = "ok")
    ∧ ((NewHealthResponse now version uptime checks requestID).Status = "unhealthy"
        ↔ ¬ ∀ kv ∈ checks.entries, kv.2 = "ok")
    ∧ ((NewHealthResponse now version uptime checks requestID).IsHealthy = true
        ↔ ∀ kv ∈ checks.entries, kv.2 = "ok")
    ∧ (NewHealthResponse now version uptime none requestID).Status = "healthy"
    ∧ (NewHealthResponse now version uptime (some []) requestID).Status = "healthy"
    ∧ (NewHealthResponse now version uptime checks requestID).Version = version
    ∧ (NewHealthResponse now version uptime checks requestID).Uptime = uptime
    ∧ (NewHealthResponse now version uptime checks requestID).Checks = checks
    ∧ (NewHealthResponse now version uptime checks requestID).RequestID = requestID := by
  refine ⟨NewHealthResponse_healthy_iff _ _ _ _ _, NewHealthResponse_unhealthy_iff _ _ _ _ _,
    ?_, rfl, rfl, rfl, rfl, rfl, rfl⟩
  simp only [HealthResponse.IsHealthy, beq_iff_eq]
  exact NewHealthResponse_healthy_iff _ _ _ _ _

end models

namespace handlers

open models

/-- C9. `HandleHealth` makes exactly one `c.JSON` call; its body carries the
outcomes of the three sub-checks memory, goroutines and uptime; the status is
`unhealthy` with HTTP 503 if and only if at least one outcome is not exactly
`ok`, and `healthy` with HTTP 200 otherwise; the HTTP status code and the
status of the body never disagree. -/
theorem HandleHealth_status_iff_checks (h : HealthHandler) (w : World) (c : Context) :
    ∃ code resp,
      (h.HandleHealth w c).2.Written = c.Written ++ [(code, Payload.health resp)]
      ∧ resp.Checks = some [("memory", h.checkMemory w), ("goroutines", h.checkGoroutines w),
                            ("uptime", (h.checkUptime w).1)]
      ∧ ((resp.Status = "unhealthy" ∧ code = 503) ↔
          (h.checkMemory w ≠ "ok" ∨ h.checkGoroutines w ≠ "ok" ∨ (h.checkUptime w).1 ≠ "ok"))
      ∧ ((resp.Status = "healthy" ∧ code = 200) ↔
          (h.checkMemory w = "ok" ∧ h.checkGoroutines w = "ok" ∧ (h.checkUptime w).1 = "ok"))
      ∧ (code = 200 ↔ resp.Status = "healthy")
      ∧ (code = 503 ↔ resp.Status = "unhealthy") := by
  obtain ⟨code, resp, hw, hc, hcase⟩ := HandleHealth_cases h w c
  refine ⟨code, resp, hw, by rw [hc, performHealthChecks_fst], ?_⟩
  rcases hcase with ⟨hall, hs, hcode⟩ | ⟨hall, hs, hcode⟩
  · subst hcode
    simp [hs, hall]
  · subst hcode
    simp [hs]
    tauto

/-- Worked instances of C9: in the example world all three outcomes are `ok` and
the code is 200; with two GiB allocated the memory outcome is not `ok` and the
code is 503. -/
theorem HandleHealth_status_iff_checks_witness :
    (∃ code resp,
      (Example.healthHandler.HandleHealth Example.world
          (Example.context "GET" "/healthz" "")).2.Written = [] ++ [(code, Payload.health resp)]
      ∧ resp.Checks = some [("memory", "ok"), ("goroutines", "ok"), ("uptime", "ok")]
      ∧ resp.Status = "healthy" ∧ code = 200)
    ∧ (∃ code resp,
      (Example.healthHandler.HandleHealth Example.highMemoryWorld
          (Example.context "GET" "/healthz" "")).2.Written = [] ++ [(code, Payload.health resp)]
      ∧ resp.Checks = some [("memory", "high_memory_usage"), ("goroutines", "ok"),
                            ("uptime", "ok")]
      ∧ resp.Status = "unhealthy" ∧ code = 503) := by
  constructor
  · obtain ⟨code, resp, hw, hc, _, hok, _, _⟩ :=
      HandleHealth_status_iff_checks Example.healthHandler Example.world
        (Example.context "GET" "/healthz" "")
    exact ⟨code, resp, hw, hc, (hok.2 (by decide)).1, (hok.2 (by decide)).2⟩
  · obtain ⟨code, resp, hw, hc, hbad, _, _, _⟩ :=
      HandleHealth_status_iff_checks Example.healthHandler Example.highMemoryWorld
        (Example.context "GET" "/healthz" "")
    exact ⟨code, resp, hw, hc, (hbad.2 (Or.inl (by decide))).1,
      (hbad.2 (Or.inl (by decide))).2⟩

/-- C10. `HandleHealth` answers 200 with status `healthy` and the checks memory,
goroutines and uptime all `ok` exactly when the allocated memory is at most
1073741824 bytes, the goroutine count is at most 1000 and the time since the
start of the handler is at least 1000 nanoseconds; the memory check is
`high_memory_usage` above 1073741824 bytes and the uptime check is `starting`
below 1000 nanoseconds, and whenever one of the three bounds fails the answer
is 503 with status `unhealthy`. -/
theorem HandleHealth_healthy_iff_thresholds (h : HealthHandler) (w : World) (c : Context) :
    ∃ code resp,
      (h.HandleHealth w c).2.Written = c.Written ++ [(code, Payload.health resp)]
      ∧ resp.Checks = some
          [("memory", if 1073741824 < w.Alloc then "high_memory_usage" else "ok"),
           ("goroutines", h.checkGoroutines w),
           ("uptime", if (w.Since h.startTime).1 < 1000 then "starting" else "ok")]
      ∧ ((code = 200 ∧ resp.Status = "healthy"
            ∧ resp.Checks = some [("memory", "ok"), ("goroutines", "ok"), ("uptime", "ok")])
          ↔ (w.Alloc ≤ 1073741824 ∧ w.NumGoroutine ≤ 1000
              ∧ 1000 ≤ (w.Since h.startTime).1))
      ∧ ((code = 503 ∧ resp.Status = "unhealthy")
          ↔ ¬ (w.Alloc ≤ 1073741824 ∧ w.NumGoroutine ≤ 1000
              ∧ 1000 ≤ (w.Since h.startTime).1)) := by
  obtain ⟨code, resp, hw, hc, hcase⟩ := HandleHealth_cases h w c
  have hm : h.checkMemory w = if 1073741824 < w.Alloc then "high_memory_usage" else "ok" := rfl
  have hu := checkUptime_fst h w
  have hT : (h.checkMemory w = "ok" ∧ h.checkGoroutines w = "ok" ∧ (h.checkUptime w).1 = "ok")
      ↔ (w.Alloc ≤ 1073741824 ∧ w.NumGoroutine ≤ 1000 ∧ 1000 ≤ (w.Since h.startTime).1) := by
    rw [checkMemory_eq_ok_iff, checkGoroutines_eq_ok_iff, checkUptime_eq_ok_iff]
    rfl
  refine ⟨code, resp, hw, ?_, ?_⟩
  · rw [hc, performHealthChecks_fst, ← hm, hu]
    rfl
  rw [← hT]
  rcases hcase with ⟨hall, hs, hcode⟩ | ⟨hall, hs, hcode⟩
  · subst hcode
    simp [hs, hall, hc, performHealthChecks_fst]
  · subst hcode
    simp [hs, hall]

/-- Worked instances of C10: eight MiB, twelve goroutines and one millisecond of
uptime give 200; a handler read in the instant of its start gives `starting`
and 503. -/
theorem HandleHealth_healthy_iff_thresholds_witness :
    (∃ code resp,
      (Example.healthHandler.HandleHealth Example.world
          (Example.context "GET" "/healthz" "")).2.Written = [] ++ [(code, Payload.health resp)]
      ∧ code = 200 ∧ resp.Status = "healthy"
      ∧ resp.Checks = some [("memory", "ok"), ("goroutines", "ok"), ("uptime", "ok")])
    ∧ (∃ code resp,
      (Example.startingHandler.HandleHealth Example.world
          (Example.context "GET" "/healthz" "")).2.Written = [] ++ [(code, Payload.health resp)]
      ∧ code = 503 ∧ resp.Status = "unhealthy"
      ∧ resp.Checks = some [("memory", "ok"), ("goroutines", "ok"), ("uptime", "starting")]) := by
  constructor
  · obtain ⟨code, resp, hw, _, hok, _⟩ :=
      HandleHealth_healthy_iff_thresholds Example.healthHandler Example.world
        (Example.context "GET" "/healthz" "")
    exact ⟨code, resp, hw, hok.2 (by decide)⟩
  · obtain ⟨code, resp, hw, hc, _, hbad⟩ :=
      HandleHealth_healthy_iff_thresholds Example.startingHandler Example.world
        (Example.context "GET" "/healthz" "")
    exact ⟨code, resp, hw, (hbad.2 (by decide)).1, (hbad.2 (by decide)).2, hc⟩

end handlers

/-! ## The goroutine check and the two light probes -/

namespace handlers

open models

/-- C11. `checkGoroutines` returns `ok` for a goroutine count of at most 1000;
above 1000 it returns `high_goroutine_count_` followed by the decimal digits
of the count, which is never `ok`, and two counts above 1000 with the same
outcome are the same count. -/
theorem checkGoroutines_outcome (h : HealthHandler) (w : World) :
    (w.NumGoroutine ≤ 1000 → h.checkGoroutines w = "ok")
    ∧ (1000 < w.NumGoroutine →
        h.checkGoroutines w = "high_goroutine_count_" ++ Nat.repr w.NumGoroutine.toNat
        ∧ h.checkGoroutines w ≠ "ok")
    ∧ (∀ (h2 : HealthHandler) (w2 : World), 1000 < w.NumGoroutine → 1000 < w2.NumGoroutine →
        h.checkGoroutines w = h2.checkGoroutines w2 → w.NumGoroutine = w2.NumGoroutine) := by
  have hhigh : ∀ (h1 : HealthHandler) (w1 : World), 1000 < w1.NumGoroutine →
      h1.checkGoroutines w1 = "high_goroutine_count_" ++ Nat.repr w1.NumGoroutine.toNat := by
    intro h1 w1 hg
    have hpos : 0 ≤ w1.NumGoroutine := by omega
    simp [HealthHandler.checkGoroutines, hg, fmtD_of_nonneg _ hpos]
  refine ⟨?_, ?_, ?_⟩
  · intro hg
    exact (checkGoroutines_eq_ok_iff h w).2 hg
  · intro hg
    refine ⟨hhigh h w hg, ?_⟩
    intro hok
    have := (checkGoroutines_eq_ok_iff h w).1 hok
    omega
  · intro h2 w2 hg hg2 heq
    rw [hhigh h w hg, hhigh h2 w2 hg2] at heq
    have hr := repr_injective _ _ (append_left_cancel _ _ _ heq)
    omega

/-- Worked instances of C11: 1000 goroutines are `ok`, 1001 are not. -/
theorem checkGoroutines_outcome_witness :
    Example.healthHandler.checkGoroutines { Example.world with NumGoroutine := 1000 } = "ok"
    ∧ Example.healthHandler.checkGoroutines { Example.world with NumGoroutine := 1001 }
        = "high_goroutine_count_1001"
    ∧ Example.healthHandler.checkGoroutines { Example.world with NumGoroutine := 1001 } ≠ "ok" :=
  ⟨(checkGoroutines_outcome Example.healthHandler
      { Example.world with NumGoroutine := 1000 }).1 (by decide),
   ((checkGoroutines_outcome Example.healthHandler
      { Example.world with NumGoroutine := 1001 }).2.1 (by decide)).1,
   ((checkGoroutines_outcome Example.healthHandler
      { Example.world with NumGoroutine := 1001 }).2.1 (by decide)).2⟩

/-- C12. `HandleReadiness` makes exactly one `c.JSON` call; the checks of its
body are the map `performReadinessChecks` returned, with the entries service
and configuration; the status is `ready` with HTTP 200 exactly when every
entry of that map is `ok`, and `not_ready` with HTTP 503 otherwise. Both are
decided by the loop over the map, which keeps `true` exactly when every entry
of the map it runs over is `ok`. -/
theorem HandleReadiness_status (h : HealthHandler) (w : World) (c : Context) :
    ∃ code resp,
      (h.HandleReadiness w c).2.Written = c.Written ++ [(code, Payload.health resp)]
      ∧ resp.Checks = h.performReadinessChecks
      ∧ h.performReadinessChecks
          = some [("service", "ok"), ("configuration", h.checkConfiguration)]
      ∧ resp.Status
          = (if readyLoop h.performReadinessChecks.entries true then "ready" else "not_ready")
      ∧ code = (if readyLoop h.performReadinessChecks.entries true then 200 else 503)
      ∧ ((resp.Status = "ready" ∧ code = 200)
          ↔ ∀ kv ∈ h.performReadinessChecks.entries, kv.2 = "ok")
      ∧ ((resp.Status = "not_ready" ∧ code = 503)
          ↔ ¬ ∀ kv ∈ h.performReadinessChecks.entries, kv.2 = "ok")
      ∧ (∀ checks : List (String × String),
          readyLoop checks true = true ↔ ∀ kv ∈ checks, kv.2 = "ok") := by
  refine ⟨if readyLoop h.performReadinessChecks.entries true then 200 else 503,
    { Status := if readyLoop h.performReadinessChecks.entries true then "ready" else "not_ready"
      Timestamp := w.clock w.ticks
      Version := ""
      Uptime := ""
      Checks := h.performReadinessChecks
      RequestID := Any.assertString (c.Get "request_id") },
    ?_, rfl, performReadinessChecks_eq h, rfl, rfl, ?_, ?_, readyLoop_true_iff⟩
  · cases hr : readyLoop h.performReadinessChecks.entries true <;>
      simp [HealthHandler.HandleReadiness, hr, Context.JSON, Payload.marshalError, World.Now, World.logEntry,
        StatusOK, StatusServiceUnavailable, middleware.RequestIDKey]
  · rw [← readyLoop_true_iff]
    cases hr : readyLoop h.performReadinessChecks.entries true <;> simp
  · rw [← readyLoop_true_iff]
    cases hr : readyLoop h.performReadinessChecks.entries true <;> simp

/-- C13. `HandleLiveness` makes exactly one `c.JSON` call, with status 200 and
a body whose status is `alive` and which has no checks, no version and no
uptime; the call is the same for every handler state, every amount of
allocated memory and every goroutine count. -/
theorem HandleLiveness_alive (h : HealthHandler) (w : World) (c : Context) :
    (h.HandleLiveness w c).2.Written = c.Written ++
      [(200, Payload.health
        { Status := "alive", Timestamp := w.clock w.ticks, Version := "", Uptime := "",
          Checks := none, RequestID := Any.assertString (c.Get "request_id") })]
    ∧ (∀ (h2 : HealthHandler) (alloc : Nat) (goroutines : Int),
        (h2.HandleLiveness { w with Alloc := alloc, NumGoroutine := goroutines } c).2.Written
          = (h.HandleLiveness w c).2.Written) := by
  constructor
  · simp [HealthHandler.HandleLiveness, Context.JSON, Payload.marshalError, World.Now, World.logEntry, StatusOK,
      middleware.RequestIDKey]
  · intro h2 alloc goroutines
    simp [HealthHandler.HandleLiveness, Context.JSON, Payload.marshalError, World.Now, World.logEntry]

end handlers

/-! ## The middleware -/

namespace middleware

open models handlers

/-- C14. `LoggingMiddleware` runs the downstream chain on a context in which the
key `request_id` and the response header `X-Request-ID` hold one and the same
identifier: the inbound header `X-Request-ID` when that is not empty, and
otherwise the identifier `generateRequestID` returns, which it does with a
clock that never reads a time before the epoch. The downstream chain runs on
that context (a panic of it passes through, so its result is used), and the
middleware does not change the context afterwards. -/
theorem LoggingMiddleware_request_id (log : Logger) (w : World) (c : Context)
    (hclock : c.GetHeader "X-Request-ID" = "" → ∀ k, 0 ≤ (w.clock k).wall) :
    ∃ (id : String) (w1 : World) (c1 : Context) (post : Outcome → Outcome),
      id ≠ ""
      ∧ (c.GetHeader "X-Request-ID" ≠ "" → id = c.GetHeader "X-Request-ID")
      ∧ (c.GetHeader "X-Request-ID" = "" →
          (generateRequestID (w.Now).2).1 = Except.ok id)
      ∧ c1.Get "request_id" = some (Any.str id)
      ∧ c1.WriterHeaderGet "X-Request-ID" = id
      ∧ (∀ s p, post (s, some p) = (s, some p))
      ∧ (∀ w2 c2, (post ((w2, c2), none)).1.2 = c2 ∧ (post ((w2, c2), none)).2 = none)
      ∧ (∀ Next : ChainAction, LoggingMiddleware log Next w c = post (Next w1 c1)) := by
  by_cases hin : c.GetHeader "X-Request-ID" = ""
  · obtain ⟨id, w2, hgen, hne⟩ := generateRequestID_ok (w.Now).2 (hclock hin)
    refine ⟨id, w2, (c.Set RequestIDKey (Any.str id)).Header "X-Request-ID" id,
      fun r => match r with
        | ((w3, c3), some p) => ((w3, c3), some p)
        | ((w3, c3), none) =>
          (((log.LogHTTPRequest c3.Request.Method c3.Request.Path c3.Request.UserAgent
              c3.Request.ClientIP c3.Status (w3.Since (w.Now).1).1 id (w3.Since (w.Now).1).2),
            c3), none),
      hne, ?_, ?_, ?_, ?_, ?_, ?_, ?_⟩
    · intro h
      exact absurd hin h
    · intro _
      rw [hgen]
    · rw [Get_Header]
      exact Get_Set _ _ _
    · exact WriterHeaderGet_Header _ _ _ hne
    · intro s p
      rfl
    · intro w3 c3
      exact ⟨rfl, rfl⟩
    · intro Next
      simp only [LoggingMiddleware, hin, if_true]
      rw [show generateRequestID (w.Now).2 = (Except.ok id, w2) from hgen]
  · refine ⟨c.GetHeader "X-Request-ID", (w.Now).2,
      (c.Set RequestIDKey (Any.str (c.GetHeader "X-Request-ID"))).Header "X-Request-ID"
        (c.GetHeader "X-Request-ID"),
      fun r => match r with
        | ((w3, c3), some p) => ((w3, c3), some p)
        | ((w3, c3), none) =>
          (((log.LogHTTPRequest c3.Request.Method c3.Request.Path c3.Request.UserAgent
              c3.Request.ClientIP c3.Status (w3.Since (w.Now).1).1
              (c.GetHeader "X-Request-ID") (w3.Since (w.Now).1).2),
            c3), none),
      hin, ?_, ?_, ?_, ?_, ?_, ?_, ?_⟩
    · intro _
      rfl
    · intro h
      exact absurd h hin
    · rw [Get_Header]
      exact Get_Set _ _ _
    · exact WriterHeaderGet_Header _ _ _ hin
    · intro s p
      rfl
    · intro w3 c3
      exact ⟨rfl, rfl⟩
    · intro Next
      simp only [LoggingMiddleware, hin, if_false]

end middleware

namespace middleware

open models handlers

/-- C16, as the code has it. When the chain downstream of `RecoveryMiddleware`
panics, the middleware stops the panic, makes one `c.JSON` call with status
500 and an `ErrorResponse` with error `internal server error`, code
`INTERNAL_SERVER_ERROR` and the URL path of the request, which writes that
body, and calls `c.Abort()`. The status of the response is 500 when the
downstream chain had written no body before the panic; when it had, the status
stays the one that was written and the error body follows the bodies written
before. Served as the first handler of a chain, the middleware is the last
code that runs: the engine returns in the state the middleware left, and none
of the handlers behind runs any more. When the downstream chain does not
panic, the middleware leaves its result as it is. -/
theorem RecoveryMiddleware_recovers (log : Logger) :
    (∀ (Next : ChainAction) (w : World) (c : Context) (w1 : World) (c1 : Context)
        (p : PanicValue), Next w c = ((w1, c1), some p) →
      (RecoveryMiddleware log Next w c).2 = none
      ∧ (RecoveryMiddleware log Next w c).1.2 =
          { c1 with
            status := if c1.Written = [] then 500 else c1.status
            Written := c1.Written ++
              [(500, Payload.error
                { Error := "internal server error", Code := "INTERNAL_SERVER_ERROR",
                  Details := none, Timestamp := w1.clock w1.ticks,
                  RequestID := Any.assertString (c1.Get "request_id"),
                  Path := c1.Request.Path })]
            index := abortIndex }
      ∧ (c1.Written = [] → (RecoveryMiddleware log Next w c).1.2.Status = 500)
      ∧ (c1.Written ≠ [] → (RecoveryMiddleware log Next w c).1.2.Status = c1.Status))
    ∧ (∀ (Next : ChainAction) (w : World) (c : Context) (s : World × Context),
        Next w c = (s, none) → RecoveryMiddleware log Next w c = (s, none))
    ∧ (∀ (rest : List HandlerFunc) (w : World) (c : Context) (w1 : World) (c1 : Context)
        (p : PanicValue), c.index = -1 → rest.length + 1 < 63 →
        nextLoop rest 1 w { c with index := 1 } = ((w1, c1), some p) →
        serve (RecoveryMiddleware log :: rest) w c =
          (((RecoveryMiddleware log
                (fun w2 c2 => nextLoop rest 1 w2 { c2 with index := c2.index + 1 })
                w { c with index := 0 }).1.1,
            { c1 with
              status := if c1.Written = [] then 500 else c1.status
              Written := c1.Written ++
                [(500, Payload.error
                  { Error := "internal server error", Code := "INTERNAL_SERVER_ERROR",
                    Details := none, Timestamp := w1.clock w1.ticks,
                    RequestID := Any.assertString (c1.Get "request_id"),
                    Path := c1.Request.Path })]
              index := abortIndex + 1 }), none)) := by
  refine ⟨?_, ?_, ?_⟩
  · intro Next w c w1 c1 p h
    obtain ⟨hp, hc⟩ := RecoveryMiddleware_of_panic log Next w c w1 c1 p h
    refine ⟨hp, hc, ?_, ?_⟩
    · intro hw
      rw [hc]
      simp [Context.Status, hw]
    · intro hw
      rw [hc]
      simp [Context.Status, hw]
  · intro Next w c s h
    obtain ⟨w1, c1⟩ := s
    simp [RecoveryMiddleware, h]
  · intro rest w c w1 c1 p hidx hlen hdown
    have hdown2 : (fun w2 c2 => nextLoop rest 1 w2 { c2 with index := c2.index + 1 })
        w { c with index := 0 } = ((w1, c1), some p) := by
      simpa using hdown
    obtain ⟨hp, hc⟩ := RecoveryMiddleware_of_panic log
      (fun w2 c2 => nextLoop rest 1 w2 { c2 with index := c2.index + 1 })
      w { c with index := 0 } w1 c1 p hdown2
    generalize hR : RecoveryMiddleware log
        (fun w2 c2 => nextLoop rest 1 w2 { c2 with index := c2.index + 1 })
        w { c with index := 0 } = out at hp hc
    obtain ⟨⟨wR, cR⟩, pR⟩ := out
    simp only at hp hc
    subst hp
    simp only [serve, nextLoop, hidx]
    simp only [show (-1 : Int) + 1 = ((0 : Nat) : Int) from rfl, if_true]
    simp only [Nat.cast_zero]
    rw [hR]
    simp only
    rw [nextLoop_skip]
    · rw [hc]
    · intro k hk1 hk2
      rw [hc]
      simp only [abortIndex]
      omega

/-- C17. Two runs of `RecoveryMiddleware` whose downstream chains panic with
two payloads, on contexts with the same URL path and the same value under
`request_id`, both add one `c.JSON` call with status 500, and the bodies have
the same error (`internal server error`), code, path, request ID and details;
when the two downstream chains leave the same state, the contexts after the
two runs are equal: the payload reaches the log only. -/
theorem RecoveryMiddleware_payload_independent (log : Logger) (Next1 Next2 : ChainAction)
    (w : World) (c : Context) (w1 w2 : World) (c1 c2 : Context) (p1 p2 : PanicValue)
    (h1 : Next1 w c = ((w1, c1), some p1)) (h2 : Next2 w c = ((w2, c2), some p2))
    (hpath : c1.Request.Path = c2.Request.Path)
    (hid : c1.Get "request_id" = c2.Get "request_id") :
    ∃ r1 r2,
      (RecoveryMiddleware log Next1 w c).1.2.Written = c1.Written ++ [(500, Payload.error r1)]
      ∧ (RecoveryMiddleware log Next2 w c).1.2.Written
          = c2.Written ++ [(500, Payload.error r2)]
      ∧ r1.Error = "internal server error" ∧ r2.Error = r1.Error
      ∧ r1.Code = "INTERNAL_SERVER_ERROR" ∧ r2.Code = r1.Code
      ∧ r2.Path = r1.Path ∧ r2.RequestID = r1.RequestID ∧ r2.Details = r1.Details
      ∧ (w1.clock w1.ticks = w2.clock w2.ticks → c1 = c2 →
          (RecoveryMiddleware log Next1 w c).1.2 = (RecoveryMiddleware log Next2 w c).1.2) := by
  obtain ⟨_, hc1⟩ := RecoveryMiddleware_of_panic log Next1 w c w1 c1 p1 h1
  obtain ⟨_, hc2⟩ := RecoveryMiddleware_of_panic log Next2 w c w2 c2 p2 h2
  refine ⟨{ Error := "internal server error", Code := "INTERNAL_SERVER_ERROR",
            Details := none, Timestamp := w1.clock w1.ticks,
            RequestID := Any.assertString (c1.Get "request_id"),
            Path := c1.Request.Path },
          { Error := "internal server error", Code := "INTERNAL_SERVER_ERROR",
            Details := none, Timestamp := w2.clock w2.ticks,
            RequestID := Any.assertString (c2.Get "request_id"),
            Path := c2.Request.Path },
          by rw [hc1], by rw [hc2], rfl, rfl, rfl, rfl, ?_, ?_, rfl, ?_⟩
  · simp [hpath]
  · simp [hid]
  · intro ht hc
    rw [hc1, hc2, hc, ht]

/-- C19. `MetricsMiddleware` runs the downstream chain with the gauge of the
active connections one above its value at entry, and leaves with the gauge one
below the value the downstream chain left, whether that chain returned or
panicked (a panic passes through); when the downstream chain leaves the gauge
as it found it, the gauge after the middleware equals the gauge before it. -/
theorem MetricsMiddleware_gauge (w : World) (c : Context) :
    ∃ w1 : World,
      w1.activeConnections = w.activeConnections + 1
      ∧ ∀ Next : ChainAction,
          (MetricsMiddleware Next w c).2 = (Next w1 c).2
          ∧ (MetricsMiddleware Next w c).1.1.activeConnections
              = (Next w1 c).1.1.activeConnections - 1
          ∧ ((Next w1 c).1.1.activeConnections = w1.activeConnections →
              (MetricsMiddleware Next w c).1.1.activeConnections = w.activeConnections) := by
  refine ⟨{ (w.Now).2 with activeConnections := w.activeConnections + 1 }, rfl, ?_⟩
  intro Next
  have key : (MetricsMiddleware Next w c).2
        = (Next { (w.Now).2 with activeConnections := w.activeConnections + 1 } c).2
      ∧ (MetricsMiddleware Next w c).1.1.activeConnections
        = (Next { (w.Now).2 with activeConnections := w.activeConnections + 1 } c).1.1.activeConnections
            - 1 := by
    simp only [MetricsMiddleware, World.Now]
    generalize Next _ c = out
    obtain ⟨⟨w2, c2⟩, p⟩ := out
    cases p with
    | some p => exact ⟨rfl, rfl⟩
    | none =>
      simp only [World.Since, World.Now, observe]
      split_ifs <;> simp
  refine ⟨key.1, key.2, ?_⟩
  intro hkeep
  rw [key.2, hkeep]
  simp

end middleware

/-! ## The routes -/

namespace server

/-- C18, as the code has it. `SetupRoutes` registers its routes one after the
other and panics when a registration is refused, so it does not return for
every configuration. Whenever it returns, the root group holds the middleware
recovery, logging and, when metrics are enabled, metrics, in this order, the
handler chain stored for every registered route is this middleware, in this
order, followed by the handler of the route, and the health path and, with
metrics enabled, the metrics path, joined to the root, differ from each other
and from the paths of the other `GET` routes. It returns when these paths
differ in this way and hold no wildcard. It panics when the health path is the
path of the liveness probe. -/
theorem SetupRoutes_middleware_order (rule : WildcardRule) (cfg : config.Config)
    (log : Logger) :
    (∀ e, SetupRoutes rule cfg log = Except.ok e →
      e.Root.Handlers =
          [HandlerName.RecoveryMiddleware, HandlerName.LoggingMiddleware]
            ++ (if cfg.Metrics.Enabled then [HandlerName.MetricsMiddleware] else [])
      ∧ (∀ r ∈ e.Routes, ∃ handler,
          r.Handlers = [HandlerName.RecoveryMiddleware, HandlerName.LoggingMiddleware]
            ++ (if cfg.Metrics.Enabled then [HandlerName.MetricsMiddleware] else [])
            ++ [handler]
          ∧ handler ≠ HandlerName.RecoveryMiddleware
          ∧ handler ≠ HandlerName.LoggingMiddleware
          ∧ handler ≠ HandlerName.MetricsMiddleware)
      ∧ e.Routes.map (fun r => (r.Method, r.Path, r.Handlers.getLast?))
          = [("GET", joinPaths "/" cfg.Health.Path, some HandlerName.HandleHealth),
             ("GET", "/healthz/live", some HandlerName.HandleLiveness),
             ("GET", "/healthz/ready", some HandlerName.HandleReadiness)]
            ++ (if cfg.Metrics.Enabled then
                  [("GET", joinPaths "/" cfg.Metrics.Path, some HandlerName.promhttpHandler)]
                else [])
            ++ [("POST", "/api/v1/sum", some HandlerName.HandleSum),
                ("GET", "/api/v1/sum", some HandlerName.HandleSumGet),
                ("GET", "/", some HandlerName.rootInfo)]
      ∧ joinPaths "/" cfg.Health.Path
          ∉ ["/healthz/live", "/healthz/ready", "/api/v1/sum", "/"]
      ∧ (cfg.Metrics.Enabled = true →
          joinPaths "/" cfg.Metrics.Path
            ∉ [joinPaths "/" cfg.Health.Path, "/healthz/live", "/healthz/ready",
                "/api/v1/sum", "/"]))
    ∧ (hasWildcard (joinPaths "/" cfg.Health.Path) = false →
        joinPaths "/" cfg.Health.Path
          ∉ ["/healthz/live", "/healthz/ready", "/api/v1/sum", "/"] →
        (cfg.Metrics.Enabled = true →
          hasWildcard (joinPaths "/" cfg.Metrics.Path) = false
          ∧ joinPaths "/" cfg.Metrics.Path
              ∉ [joinPaths "/" cfg.Health.Path, "/healthz/live", "/healthz/ready",
                  "/api/v1/sum", "/"]) →
        ∃ e, SetupRoutes rule cfg log = Except.ok e)
    ∧ (joinPaths "/" cfg.Health.Path = "/healthz/live" →
        SetupRoutes rule cfg log
          = Except.error ⟨"handlers are already registered for path \x27/healthz/live\x27"⟩) :=
  ⟨SetupRoutes_of_ok rule cfg log, SetupRoutes_returns rule cfg log,
    SetupRoutes_duplicate rule cfg log⟩

end server

namespace middleware

open models handlers

/-- C15, as the code has it. Every request served through the chain recovery,
logging, handler ends without a panic and with the response header
`X-Request-ID` set to an identifier that is not empty: the inbound header
`X-Request-ID` when that is not empty, and the identifier `generateRequestID`
returns otherwise (with a clock that never reads a time before the epoch,
under which it returns one). When the handler is `HandleSumGet`, one of the
three health probes, or a handler that panics (the call is then the 500
response of the recovery middleware), exactly one body is written, and it
carries that identifier as its request ID. When the handler is `HandleSum`, the
object of its one `c.JSON` call carries that identifier; the object is an error
with status 400, which is written as the body, or the sum response with status
200, which is written as the body when the sum is a number; when the sum is
not a number the response has status 200 and no body. -/
theorem chain_request_id (log : Logger) (sh : SumHandler) (hh : HealthHandler)
    (p : PanicValue) (w : World) (c : Context) (hidx : c.index = -1)
    (hclock : c.GetHeader "X-Request-ID" = "" → ∀ k, 0 ≤ (w.clock k).wall) :
    (∀ final ∈ ([plainHandler sh.HandleSumGet,
        plainHandler hh.HandleHealth, plainHandler hh.HandleLiveness,
        plainHandler hh.HandleReadiness, fun _ w1 c1 => ((w1, c1), some p)] :
        List HandlerFunc),
      ∃ id code body,
        id ≠ ""
        ∧ (c.GetHeader "X-Request-ID" ≠ "" → id = c.GetHeader "X-Request-ID")
        ∧ (c.GetHeader "X-Request-ID" = "" →
            (generateRequestID (w.Now).2).1 = Except.ok id)
        ∧ (serve [RecoveryMiddleware log, LoggingMiddleware log, final] w c).1.2.Written
            = c.Written ++ [(code, body)]
        ∧ body.requestID = id
        ∧ (serve [RecoveryMiddleware log, LoggingMiddleware log, final] w c).1.2.WriterHeaderGet
            "X-Request-ID" = id
        ∧ (serve [RecoveryMiddleware log, LoggingMiddleware log, final] w c).2 = none)
    ∧ (∃ id code body,
        id ≠ ""
        ∧ (c.GetHeader "X-Request-ID" ≠ "" → id = c.GetHeader "X-Request-ID")
        ∧ (c.GetHeader "X-Request-ID" = "" →
            (generateRequestID (w.Now).2).1 = Except.ok id)
        ∧ body.requestID = id
        ∧ (serve [RecoveryMiddleware log, LoggingMiddleware log,
            plainHandler sh.HandleSum] w c).1.2.WriterHeaderGet "X-Request-ID" = id
        ∧ (serve [RecoveryMiddleware log, LoggingMiddleware log,
            plainHandler sh.HandleSum] w c).2 = none
        ∧ ((code = 400 ∧ (∃ e, body = Payload.error e)
              ∧ (serve [RecoveryMiddleware log, LoggingMiddleware log,
                  plainHandler sh.HandleSum] w c).1.2.Written = c.Written ++ [(400, body)])
            ∨ (code = 200 ∧ ∃ req now,
                w.ShouldBindJSON c.Request.Body = Except.ok req ∧ req.Validate = none
                ∧ body = Payload.sum (NewSumResponse now req.Numbers id)
                ∧ ((sumLoop req.Numbers Float64.zero).isFinite = true →
                    (serve [RecoveryMiddleware log, LoggingMiddleware log,
                      plainHandler sh.HandleSum] w c).1.2.Written
                      = c.Written ++ [(200, body)])
                ∧ ((sumLoop req.Numbers Float64.zero).isFinite = false →
                    (serve [RecoveryMiddleware log, LoggingMiddleware log,
                      plainHandler sh.HandleSum] w c).1.2.Written = c.Written
                    ∧ (c.Written = [] →
                        (serve [RecoveryMiddleware log, LoggingMiddleware log,
                          plainHandler sh.HandleSum] w c).1.2.Status = 200))))) := by
  have plain : ∀ (H : World → Context → World × Context),
      (∀ w c, ∃ code body, (H w c).2 = c.JSON code body
        ∧ body.requestID = Any.assertString (c.Get "request_id")
        ∧ body.marshalError = none) →
      ∃ id code body,
        id ≠ ""
        ∧ (c.GetHeader "X-Request-ID" ≠ "" → id = c.GetHeader "X-Request-ID")
        ∧ (c.GetHeader "X-Request-ID" = "" →
            (generateRequestID (w.Now).2).1 = Except.ok id)
        ∧ (serve [RecoveryMiddleware log, LoggingMiddleware log, plainHandler H] w c).1.2.Written
            = c.Written ++ [(code, body)]
        ∧ body.requestID = id
        ∧ (serve [RecoveryMiddleware log, LoggingMiddleware log,
            plainHandler H] w c).1.2.WriterHeaderGet "X-Request-ID" = id
        ∧ (serve [RecoveryMiddleware log, LoggingMiddleware log, plainHandler H] w c).2
            = none := by
    intro H hH
    obtain ⟨id, code, body, hne, hin, hgen, hQ, hW, _, _, hid, hhead, hp⟩ :=
      chain_plain log H (fun _ _ body => body.marshalError = none) hH w c hidx hclock
    exact ⟨id, code, body, hne, hin, hgen, hW hQ, hid, hhead, hp⟩
  constructor
  · intro final hmem
    simp only [List.mem_cons, List.mem_singleton, List.not_mem_nil, or_false] at hmem
    rcases hmem with rfl | rfl | rfl | rfl | rfl
    · exact plain _ (HandleSumGet_writes sh)
    · exact plain _ (HandleHealth_writes hh)
    · exact plain _ (HandleLiveness_writes hh)
    · exact plain _ (HandleReadiness_writes hh)
    · exact chain_panic log p w c hidx hclock
  · obtain ⟨id, code, body, hne, hin, hgen, hQ, hW, hE, hS, hid, hhead, hp⟩ :=
      chain_plain log sh.HandleSum
        (fun bind code body =>
          (code = 400 ∧ ∃ e, body = Payload.error e)
          ∨ (code = 200 ∧ ∃ req now id,
              bind = Except.ok req ∧ req.Validate = none
              ∧ body = Payload.sum (NewSumResponse now req.Numbers id)))
        (HandleSum_writes sh) w c hidx hclock
    refine ⟨id, code, body, hne, hin, hgen, hid, hhead, hp, ?_⟩
    rcases hQ with ⟨h400, e, he⟩ | ⟨h200, req, now, id2, hb, hv, hbody⟩
    · left
      refine ⟨h400, ⟨e, he⟩, ?_⟩
      rw [← h400]
      exact hW (by rw [he]; rfl)
    · right
      have hid2 : id2 = id := by
        rw [hbody] at hid
        exact hid
      rw [hid2] at hbody
      refine ⟨h200, req, now, hb, hv, hbody, ?_, ?_⟩
      · intro hfin
        rw [← h200]
        exact hW (by rw [hbody]; exact NewSumResponse_marshals _ _ _ hfin)
      · intro hfin
        obtain ⟨t, _, herr⟩ := NewSumResponse_marshalError now req.Numbers id hfin
        rw [← hbody] at herr
        refine ⟨(hE _ herr).1, ?_⟩
        intro hw
        rw [hS, if_pos hw, h200]

end middleware

namespace middleware

open models handlers

/-- C20, as the code has it. When the downstream chain returns without a
panic, `MetricsMiddleware` adds to the observations, in this order, the
duration and one increment of the request counter, both with the label values
method, endpoint and status code, then the request size with the label values
method and endpoint only, and then, only when the size the writer reports is
positive, the response size with the label values method, endpoint and status
code. The endpoint is the pattern of the route, or the URL path when no route
matched. When the downstream chain panics, the middleware adds no observation
to those the downstream chain left, and the panic passes through. The label
names of the four vectors are declared accordingly. -/
theorem MetricsMiddleware_observations (Next : ChainAction) (w : World) (c : Context) :
    (∀ (w2 : World) (c2 : Context),
      Next { (w.Now).2 with activeConnections := w.activeConnections + 1 } c
        = ((w2, c2), none) →
      (MetricsMiddleware Next w c).1.1.observations = w2.observations ++
        [⟨Metric.httpDuration,
            [c2.Request.Method, if c2.FullPath = "" then c2.Request.Path else c2.FullPath,
             Nat.repr c2.Status],
            Sample.seconds (w2.Since (w.Now).1).1⟩,
         ⟨Metric.httpRequests,
            [c2.Request.Method, if c2.FullPath = "" then c2.Request.Path else c2.FullPath,
             Nat.repr c2.Status],
            Sample.inc⟩,
         ⟨Metric.httpRequestSize,
            [c2.Request.Method, if c2.FullPath = "" then c2.Request.Path else c2.FullPath],
            Sample.bytes (computeRequestSize c.Request)⟩]
        ++ (if 0 < c2.Size w2.renderSize then
              [⟨Metric.httpResponseSize,
                [c2.Request.Method,
                 if c2.FullPath = "" then c2.Request.Path else c2.FullPath,
                 Nat.repr c2.Status],
                Sample.bytes (c2.Size w2.renderSize)⟩]
            else []))
    ∧ (∀ (w2 : World) (c2 : Context) (p : PanicValue),
      Next { (w.Now).2 with activeConnections := w.activeConnections + 1 } c
        = ((w2, c2), some p) →
      (MetricsMiddleware Next w c).1.1.observations = w2.observations
      ∧ (MetricsMiddleware Next w c).2 = some p)
    ∧ labelNames Metric.httpDuration = ["method", "endpoint", "status_code"]
    ∧ labelNames Metric.httpRequests = ["method", "endpoint", "status_code"]
    ∧ labelNames Metric.httpRequestSize = ["method", "endpoint"]
    ∧ labelNames Metric.httpResponseSize = ["method", "endpoint", "status_code"] := by
  refine ⟨?_, ?_, rfl, rfl, rfl, rfl⟩
  · intro w2 c2 hnext
    have hnext2 : Next
        { clock := w.clock, ticks := w.ticks + 1, Alloc := w.Alloc,
          NumGoroutine := w.NumGoroutine, ShouldBindJSON := w.ShouldBindJSON,
          durationString := w.durationString, log := w.log, calls := w.calls,
          activeConnections := w.activeConnections + 1, observations := w.observations,
          renderSize := w.renderSize, Stack := w.Stack, formatStamp := w.formatStamp } c
        = ((w2, c2), none) := hnext
    simp only [MetricsMiddleware, World.Now, hnext2, World.Since, observe, fmtD_natCast]
    by_cases hpos : 0 < c2.Size w2.renderSize
    · simp [hpos]
    · simp [hpos]
  · intro w2 c2 p hnext
    have hnext2 : Next
        { clock := w.clock, ticks := w.ticks + 1, Alloc := w.Alloc,
          NumGoroutine := w.NumGoroutine, ShouldBindJSON := w.ShouldBindJSON,
          durationString := w.durationString, log := w.log, calls := w.calls,
          activeConnections := w.activeConnections + 1, observations := w.observations,
          renderSize := w.renderSize, Stack := w.Stack, formatStamp := w.formatStamp } c
        = ((w2, c2), some p) := hnext
    simp [MetricsMiddleware, World.Now, hnext2]

end middleware

/-! ## Worked instances for the probes, the middleware and the routes -/

namespace handlers

open models

/-- Worked instance of C13: with two GiB allocated the health handler answers
503 and the liveness handler still answers 200 with status `alive`. -/
theorem HandleLiveness_alive_witness :
    (Example.healthHandler.HandleLiveness Example.highMemoryWorld
        (Example.context "GET" "/healthz/live" "")).2.Written
      = [(200, Payload.health
          { Status := "alive", Timestamp := ⟨1700000000000000000, 5000000⟩, Version := "",
            Uptime := "", Checks := none, RequestID := "test-request-id" })]
    ∧ (Example.healthHandler.HandleHealth Example.highMemoryWorld
        (Example.context "GET" "/healthz" "")).2.Written.map Prod.fst = [503] :=
  ⟨(HandleLiveness_alive Example.healthHandler Example.highMemoryWorld
      (Example.context "GET" "/healthz/live" "")).1,
   by decide⟩

end handlers

namespace middleware

open models handlers

/-- Worked instance of C14: the inbound header `abc-123` is the identifier the
downstream chain finds under `request_id` and in the response header. -/
theorem LoggingMiddleware_request_id_witness :
    ∃ (id : String) (w1 : World) (c1 : Context) (post : Outcome → Outcome),
        id = "abc-123"
        ∧ c1.Get "request_id" = some (Any.str id)
        ∧ c1.WriterHeaderGet "X-Request-ID" = id
        ∧ (∀ Next : ChainAction,
            LoggingMiddleware ⟨"info", "json"⟩ Next Example.serverWorld
              (Example.probe [("X-Request-ID", ["abc-123"])]) = post (Next w1 c1)) := by
  obtain ⟨id, w1, c1, post, _, hin, _, hget, hhead, _, _, hall⟩ :=
    LoggingMiddleware_request_id ⟨"info", "json"⟩ Example.serverWorld
      (Example.probe [("X-Request-ID", ["abc-123"])]) (fun _ => serverWorld_clock)
  exact ⟨id, w1, c1, post, hin (by decide), hget, hhead, hall⟩

/-- Worked instance of C15: a liveness request without the inbound header gets
the generated identifier in the body and in the response header. -/
theorem chain_request_id_witness :
    (∃ id code body,
        id ≠ ""
        ∧ ((Example.probe []).GetHeader "X-Request-ID" ≠ "" →
            id = (Example.probe []).GetHeader "X-Request-ID")
        ∧ ((Example.probe []).GetHeader "X-Request-ID" = "" →
            (generateRequestID (Example.serverWorld.Now).2).1 = Except.ok id)
        ∧ (serve [RecoveryMiddleware ⟨"info", "json"⟩, LoggingMiddleware ⟨"info", "json"⟩,
              plainHandler Example.healthHandler.HandleLiveness]
            Example.serverWorld (Example.probe [])).1.2.Written
            = (Example.probe []).Written ++ [(code, body)]
        ∧ body.requestID = id
        ∧ (serve [RecoveryMiddleware ⟨"info", "json"⟩, LoggingMiddleware ⟨"info", "json"⟩,
              plainHandler Example.healthHandler.HandleLiveness]
            Example.serverWorld (Example.probe [])).1.2.WriterHeaderGet "X-Request-ID" = id
        ∧ (serve [RecoveryMiddleware ⟨"info", "json"⟩, LoggingMiddleware ⟨"info", "json"⟩,
              plainHandler Example.healthHandler.HandleLiveness]
            Example.serverWorld (Example.probe [])).2 = none)
    ∧ (serve [RecoveryMiddleware ⟨"info", "json"⟩, LoggingMiddleware ⟨"info", "json"⟩,
          plainHandler Example.healthHandler.HandleLiveness]
        Example.serverWorld (Example.probe [])).1.2.Written
        = [(200, Payload.health
            { Status := "alive", Timestamp := ⟨1700000000010000000, 15000000⟩, Version := "",
              Uptime := "", Checks := none, RequestID := "20231114221320-EGIKMOQS" })]
    ∧ (serve [RecoveryMiddleware ⟨"info", "json"⟩, LoggingMiddleware ⟨"info", "json"⟩,
          plainHandler Example.healthHandler.HandleLiveness]
        Example.serverWorld (Example.probe [])).1.2.WriterHeader
        = [("X-Request-ID", "20231114221320-EGIKMOQS")] :=
  ⟨(chain_request_id ⟨"info", "json"⟩ Example.sumHandler Example.healthHandler ⟨"boom"⟩
      Example.serverWorld (Example.probe []) rfl (fun _ => serverWorld_clock)).1
      (plainHandler Example.healthHandler.HandleLiveness) (by simp),
   by decide!, by decide!⟩

set_option maxRecDepth 100000 in
/-- The claim C15 fails as it is worded. The sum request with two numbers that
are each the largest `float64` is served without a panic, with status 200 and
the response header `X-Request-ID`, and with no body: no body of the response
carries a request ID. -/
theorem chain_request_id_counterexample :
    (serve [RecoveryMiddleware ⟨"info", "json"⟩, LoggingMiddleware ⟨"info", "json"⟩,
          plainHandler Example.sumHandler.HandleSum]
        Example.overflowServerWorld (Example.sumPost Example.overflowBody)).2 = none
    ∧ (serve [RecoveryMiddleware ⟨"info", "json"⟩, LoggingMiddleware ⟨"info", "json"⟩,
          plainHandler Example.sumHandler.HandleSum]
        Example.overflowServerWorld (Example.sumPost Example.overflowBody)).1.2.Status = 200
    ∧ (serve [RecoveryMiddleware ⟨"info", "json"⟩, LoggingMiddleware ⟨"info", "json"⟩,
          plainHandler Example.sumHandler.HandleSum]
        Example.overflowServerWorld (Example.sumPost Example.overflowBody)).1.2.WriterHeader
        = [("X-Request-ID", "20231114221320-EGIKMOQS")]
    ∧ (serve [RecoveryMiddleware ⟨"info", "json"⟩, LoggingMiddleware ⟨"info", "json"⟩,
          plainHandler Example.sumHandler.HandleSum]
        Example.overflowServerWorld (Example.sumPost Example.overflowBody)).1.2.Written = []
    ∧ ¬ ∃ code body, (code, body) ∈
        (serve [RecoveryMiddleware ⟨"info", "json"⟩, LoggingMiddleware ⟨"info", "json"⟩,
            plainHandler Example.sumHandler.HandleSum]
          Example.overflowServerWorld (Example.sumPost Example.overflowBody)).1.2.Written
        ∧ body.requestID ≠ "" := by
  have hw : (serve [RecoveryMiddleware ⟨"info", "json"⟩, LoggingMiddleware ⟨"info", "json"⟩,
        plainHandler Example.sumHandler.HandleSum]
      Example.overflowServerWorld (Example.sumPost Example.overflowBody)).1.2.Written = [] := by
    decide!
  refine ⟨by decide!, by decide!, by decide!, hw, ?_⟩
  rintro ⟨code, body, hmem, _⟩
  rw [hw] at hmem
  cases hmem

/-- Worked instance of C16: behind the recovery middleware a handler panics
before it calls `c.Next()`; the response is the 500 body, and the liveness
handler that stands behind the panicking handler does not run. -/
theorem RecoveryMiddleware_recovers_witness :
    (serve [RecoveryMiddleware ⟨"info", "json"⟩, fun _ w c => ((w, c), some ⟨"boom"⟩),
        plainHandler Example.healthHandler.HandleLiveness]
      Example.serverWorld (Example.probe [])).1.2.Written
      = [(500, Payload.error
          { Error := "internal server error", Code := "INTERNAL_SERVER_ERROR",
            Details := none, Timestamp := ⟨1700000000000000000, 5000000⟩,
            RequestID := "", Path := "/healthz/live" })]
    ∧ (serve [RecoveryMiddleware ⟨"info", "json"⟩, fun _ w c => ((w, c), some ⟨"boom"⟩),
        plainHandler Example.healthHandler.HandleLiveness]
      Example.serverWorld (Example.probe [])).2 = none := by
  have h := (RecoveryMiddleware_recovers ⟨"info", "json"⟩).2.2
    [fun _ w c => ((w, c), some ⟨"boom"⟩), plainHandler Example.healthHandler.HandleLiveness]
    Example.serverWorld (Example.probe []) Example.serverWorld
    { Example.probe [] with index := 1 } ⟨"boom"⟩ rfl (by decide) rfl
  rw [h]
  exact ⟨rfl, rfl⟩

/-- The claim C16 fails as it is worded. A downstream stage that writes the
liveness response and then panics is recovered, and the response does not have
the status 500: it keeps the status 200 that was written, and the error body
follows the liveness body. -/
theorem RecoveryMiddleware_recovers_counterexample :
    (Example.writesThenFaults Example.serverWorld (Example.probe [])).2 = some ⟨"boom"⟩
    ∧ (RecoveryMiddleware ⟨"info", "json"⟩ Example.writesThenFaults Example.serverWorld
        (Example.probe [])).2 = none
    ∧ (RecoveryMiddleware ⟨"info", "json"⟩ Example.writesThenFaults Example.serverWorld
        (Example.probe [])).1.2.Status = 200
    ∧ (RecoveryMiddleware ⟨"info", "json"⟩ Example.writesThenFaults Example.serverWorld
        (Example.probe [])).1.2.Status ≠ 500
    ∧ (RecoveryMiddleware ⟨"info", "json"⟩ Example.writesThenFaults Example.serverWorld
        (Example.probe [])).1.2.Written.map Prod.fst = [200, 500] := by
  refine ⟨by decide!, by decide!, by decide!, by decide!, by decide!⟩

/-- Worked instance of C17: the payloads `boom` and `secret` give the same
context after the recovery. -/
theorem RecoveryMiddleware_payload_independent_witness :
    (RecoveryMiddleware ⟨"info", "json"⟩ (Example.faulty "boom") Example.serverWorld
        (Example.probe [])).1.2
      = (RecoveryMiddleware ⟨"info", "json"⟩ (Example.faulty "secret") Example.serverWorld
        (Example.probe [])).1.2 := by
  obtain ⟨r1, r2, _, _, _, _, _, _, _, _, _, hsame⟩ :=
    RecoveryMiddleware_payload_independent ⟨"info", "json"⟩ (Example.faulty "boom")
      (Example.faulty "secret") Example.serverWorld (Example.probe [])
      Example.serverWorld Example.serverWorld (Example.probe []) (Example.probe [])
      ⟨"boom"⟩ ⟨"secret"⟩ rfl rfl rfl rfl
  exact hsame rfl rfl

/-- Worked instance of C19: the gauge is back at its value after a downstream
chain that returns and after one that panics, and the panic passes through. -/
theorem MetricsMiddleware_gauge_witness :
    (MetricsMiddleware Example.liveness Example.serverWorld
        (Example.probe [])).1.1.activeConnections = Example.serverWorld.activeConnections
    ∧ (MetricsMiddleware (Example.faulty "boom") Example.serverWorld
        (Example.probe [])).1.1.activeConnections = Example.serverWorld.activeConnections
    ∧ (MetricsMiddleware (Example.faulty "boom") Example.serverWorld
        (Example.probe [])).2 = some ⟨"boom"⟩ := by
  obtain ⟨w1, _, hall⟩ := MetricsMiddleware_gauge Example.serverWorld (Example.probe [])
  exact ⟨(hall Example.liveness).2.2 rfl, (hall (Example.faulty "boom")).2.2 rfl,
    (hall (Example.faulty "boom")).1⟩

/-- The claim C20 fails as it is worded. After a liveness request the
observations do not hold one observation labelled `GET`, `/healthz/live`, `200`
for each of the four metrics: the request size has two label values. After a
downstream chain that writes nothing there is no observation of the response
size. After a downstream chain that panics there is no observation at all. -/
theorem MetricsMiddleware_observations_counterexample :
    ¬ (∀ m : Metric, ∃ o ∈ (MetricsMiddleware Example.liveness Example.serverWorld
          (Example.probe [])).1.1.observations,
        o.metric = m ∧ o.labels = ["GET", "/healthz/live", "200"])
    ∧ (¬ ∃ o ∈ (MetricsMiddleware Example.silent Example.serverWorld
          (Example.probe [])).1.1.observations, o.metric = Metric.httpResponseSize)
    ∧ (MetricsMiddleware (Example.faulty "boom") Example.serverWorld
          (Example.probe [])).1.1.observations = [] := by
  refine ⟨?_, by decide, by decide⟩
  intro h
  have h2 := h Metric.httpRequestSize
  revert h2
  decide

/-- Worked instance of C20 as the code has it: the four observations of a
liveness request. -/
theorem MetricsMiddleware_observations_witness :
    (MetricsMiddleware Example.liveness Example.serverWorld
        (Example.probe [])).1.1.observations
      = [⟨Metric.httpDuration, ["GET", "/healthz/live", "200"], Sample.seconds 2000000⟩,
         ⟨Metric.httpRequests, ["GET", "/healthz/live", "200"], Sample.inc⟩,
         ⟨Metric.httpRequestSize, ["GET", "/healthz/live"], Sample.bytes 24⟩,
         ⟨Metric.httpResponseSize, ["GET", "/healthz/live", "200"], Sample.bytes 120⟩] := by
  rw [(MetricsMiddleware_observations Example.liveness Example.serverWorld
    (Example.probe [])).1 _ _ rfl]
  decide

end middleware

namespace server

/-- Worked instance of C18: with the default configuration `SetupRoutes`
returns, the root group holds the three middleware, and the chain of
`POST /api/v1/sum` is the three middleware followed by `HandleSum`. -/
theorem SetupRoutes_middleware_order_witness :
    ∃ e, SetupRoutes Example.acceptAll Example.defaultConfig ⟨"info", "json"⟩ = Except.ok e
      ∧ e.Root.Handlers =
          [HandlerName.RecoveryMiddleware, HandlerName.LoggingMiddleware]
            ++ (if Example.defaultConfig.Metrics.Enabled then [HandlerName.MetricsMiddleware]
                else [])
      ∧ (⟨"POST", "/api/v1/sum",
          [HandlerName.RecoveryMiddleware, HandlerName.LoggingMiddleware,
           HandlerName.MetricsMiddleware, HandlerName.HandleSum]⟩ : Route) ∈ e.Routes :=
  ⟨_, rfl,
   ((SetupRoutes_middleware_order Example.acceptAll Example.defaultConfig ⟨"info", "json"⟩).1
      _ rfl).1,
   by decide⟩

/-- The claim C18 fails as it is worded. With the path of the liveness probe as
the health path, `SetupRoutes` panics at the registration of the liveness
route, whatever the tree decides on wildcards: it returns no router, so no
middleware wraps any route. -/
theorem SetupRoutes_middleware_order_counterexample :
    (∀ rule : WildcardRule,
      SetupRoutes rule Example.collidingConfig ⟨"info", "json"⟩
        = Except.error ⟨"handlers are already registered for path \x27/healthz/live\x27"⟩)
    ∧ (∀ rule : WildcardRule,
      ¬ ∃ e, SetupRoutes rule Example.collidingConfig ⟨"info", "json"⟩ = Except.ok e) := by
  have h : ∀ rule : WildcardRule,
      SetupRoutes rule Example.collidingConfig ⟨"info", "json"⟩
        = Except.error ⟨"handlers are already registered for path \x27/healthz/live\x27"⟩ :=
    fun _ => rfl
  refine ⟨h, ?_⟩
  rintro rule ⟨e, he⟩
  rw [h rule] at he
  cases he

end server

/-! ## The error response and the length invariant of the sum handler -/

namespace models

/-- C21. `NewErrorResponse` returns a response whose error is the message of
the error it is given, whose code, path and request ID are the strings it is
given, whose details are absent and whose timestamp is the reading of the
clock; so for the values of the test of the repository. -/
theorem NewErrorResponse_fields (now : Time) (err : Error) (code path requestID : String) :
    (NewErrorResponse now err code path requestID).Error = err.msg
    ∧ (NewErrorResponse now err code path requestID).Code = code
    ∧ (NewErrorResponse now err code path requestID).Path = path
    ∧ (NewErrorResponse now err code path requestID).RequestID = requestID
    ∧ (NewErrorResponse now err code path requestID).Details = none
    ∧ (NewErrorResponse now err code path requestID).Timestamp = now
    ∧ NewErrorResponse ⟨1700000000000000000, 5000000⟩
          ⟨"assert.AnError general error for testing"⟩ "TEST_ERROR" "/test/path"
          "test-request-789"
        = { Error := "assert.AnError general error for testing", Code := "TEST_ERROR",
            Details := none, Timestamp := ⟨1700000000000000000, 5000000⟩,
            RequestID := "test-request-789", Path := "/test/path" } :=
  ⟨rfl, rfl, rfl, rfl, rfl, rfl, rfl⟩

end models

namespace handlers

open models

/-- C22, as the code has it. Every run of `HandleSum` makes exactly one
`c.JSON` call and is of one of three kinds. Either the binder fails: the call
has status 400 and an error object, and only `NewErrorResponse` is entered. Or
the binder returns a request that `Validate` rejects: the call has status 400
and an error object, and `Validate` and `NewErrorResponse` are entered. Or
`Validate` accepts the bound request: `Validate` is entered before
`NewSumResponse`, and the call has status 200 and a sum object whose count
lies between 2 and 100 and is the length of its numbers. So `NewSumResponse`
is entered only after `Validate` returned no error, and no call with another
status carries a `SumResponse`. The object of the call is written as the body
when it is encoded, which every error object is, and which the sum object is
exactly when its sum is a number; when the encoder refuses it, the status is
200 and no body is written. Every body the handler writes with status 200
obeys the length invariant. -/
theorem HandleSum_length_invariant (s : SumHandler) (w : World) (c : Context) :
    ∃ code body trace,
      (s.HandleSum w c).2 = c.JSON code body
      ∧ (s.HandleSum w c).1.calls = w.calls ++ trace
      ∧ ((code = 400 ∧ (∃ e, body = Payload.error e) ∧ trace = [Call.NewErrorResponse]
            ∧ ∃ err, w.ShouldBindJSON c.Request.Body = Except.error err)
          ∨ (code = 400 ∧ (∃ e, body = Payload.error e)
            ∧ trace = [Call.Validate, Call.NewErrorResponse]
            ∧ ∃ req err, w.ShouldBindJSON c.Request.Body = Except.ok req
                ∧ req.Validate = some err)
          ∨ (code = 200 ∧ trace = [Call.Validate, Call.NewSumResponse]
            ∧ ∃ req resp, w.ShouldBindJSON c.Request.Body = Except.ok req
                ∧ req.Validate = none
                ∧ body = Payload.sum resp
                ∧ resp.Numbers = req.Numbers
                ∧ 2 ≤ resp.Count ∧ resp.Count ≤ 100
                ∧ resp.Numbers.length = resp.Count
                ∧ resp.Sum = sumLoop req.Numbers Float64.zero
                ∧ (body.marshalError = none
                    ↔ (sumLoop req.Numbers Float64.zero).isFinite = true)))
      ∧ (Call.NewSumResponse ∈ trace ↔ code = 200)
      ∧ (code ≠ 200 → ∀ resp, body ≠ Payload.sum resp)
      ∧ (body.marshalError = none →
          (s.HandleSum w c).2.Written = c.Written ++ [(code, body)])
      ∧ (body.marshalError ≠ none →
          code = 200 ∧ (s.HandleSum w c).2.Written = c.Written
          ∧ (c.Written = [] → (s.HandleSum w c).2.Status = 200))
      ∧ (∀ resp, (200, Payload.sum resp) ∈ (s.HandleSum w c).2.Written →
          (200, Payload.sum resp) ∈ c.Written
          ∨ (2 ≤ resp.Count ∧ resp.Count ≤ 100 ∧ resp.Numbers.length = resp.Count)) := by
  have key : ∃ code body trace,
      (s.HandleSum w c).2 = c.JSON code body
      ∧ (s.HandleSum w c).1.calls = w.calls ++ trace
      ∧ ((code = 400 ∧ (∃ e, body = Payload.error e) ∧ trace = [Call.NewErrorResponse]
            ∧ ∃ err, w.ShouldBindJSON c.Request.Body = Except.error err)
          ∨ (code = 400 ∧ (∃ e, body = Payload.error e)
            ∧ trace = [Call.Validate, Call.NewErrorResponse]
            ∧ ∃ req err, w.ShouldBindJSON c.Request.Body = Except.ok req
                ∧ req.Validate = some err)
          ∨ (code = 200 ∧ trace = [Call.Validate, Call.NewSumResponse]
            ∧ ∃ req resp, w.ShouldBindJSON c.Request.Body = Except.ok req
                ∧ req.Validate = none
                ∧ body = Payload.sum resp
                ∧ resp.Numbers = req.Numbers
                ∧ 2 ≤ resp.Count ∧ resp.Count ≤ 100
                ∧ resp.Numbers.length = resp.Count
                ∧ resp.Sum = sumLoop req.Numbers Float64.zero
                ∧ (body.marshalError = none
                    ↔ (sumLoop req.Numbers Float64.zero).isFinite = true))) := by
    cases hb : w.ShouldBindJSON c.Request.Body with
    | error err =>
      refine ⟨400, Payload.error
          (NewErrorResponse (w.clock w.ticks) err "INVALID_REQUEST_BODY" c.Request.Path
            (Any.assertString (c.Get "request_id"))),
        [Call.NewErrorResponse], ?_, ?_, Or.inl ⟨rfl, ⟨_, rfl⟩, rfl, err, rfl⟩⟩
      · simp [SumHandler.HandleSum, hb, World.Now, World.enter, World.logEntry,
          StatusBadRequest, middleware.RequestIDKey]
      · simp [SumHandler.HandleSum, hb, World.Now, World.enter, World.logEntry]
    | ok req =>
      cases hv : req.Validate with
      | some err =>
        refine ⟨400, Payload.error
            (NewErrorResponse (w.clock w.ticks) err "VALIDATION_ERROR" c.Request.Path
              (Any.assertString (c.Get "request_id"))),
          [Call.Validate, Call.NewErrorResponse], ?_, ?_,
          Or.inr (Or.inl ⟨rfl, ⟨_, rfl⟩, rfl, req, err, rfl, hv⟩)⟩
        · simp [SumHandler.HandleSum, hb, hv, World.Now, World.enter, World.logEntry,
            StatusBadRequest, middleware.RequestIDKey]
        · simp [SumHandler.HandleSum, hb, hv, World.Now, World.enter, World.logEntry]
      | none =>
        have hlen : 2 ≤ req.Numbers.length ∧ req.Numbers.length ≤ 100 := by
          unfold SumRequest.Validate at hv
          by_cases h1 : req.Numbers.length < 2
          · simp [h1] at hv
          · by_cases h2 : req.Numbers.length > 100
            · simp [h1, h2] at hv
            · omega
        refine ⟨200, Payload.sum
            (NewSumResponse (w.clock w.ticks) req.Numbers
              (Any.assertString (c.Get "request_id"))),
          [Call.Validate, Call.NewSumResponse], ?_, ?_,
          Or.inr (Or.inr ⟨rfl, rfl, req, _, rfl, hv, rfl, rfl, hlen.1, hlen.2, rfl, rfl,
            NewSumResponse_marshals_iff _ _ _⟩)⟩
        · simp [SumHandler.HandleSum, hb, hv, World.Now, World.enter, World.logEntry,
            StatusOK, middleware.RequestIDKey]
        · simp [SumHandler.HandleSum, hb, hv, World.Now, World.enter, World.logEntry]
  obtain ⟨code, body, trace, hcall, htrace, hkind⟩ := key
  have hcode : (Call.NewSumResponse ∈ trace ↔ code = 200) := by
    rcases hkind with ⟨hc, _, ht, _⟩ | ⟨hc, _, ht, _⟩ | ⟨hc, ht, _⟩ <;> subst hc <;> subst ht <;>
      decide
  have hsum : code ≠ 200 → ∀ resp, body ≠ Payload.sum resp := by
    intro hne resp hb
    rcases hkind with ⟨_, ⟨e, he⟩, _⟩ | ⟨_, ⟨e, he⟩, _⟩ | ⟨hc, _⟩
    · rw [he] at hb; cases hb
    · rw [he] at hb; cases hb
    · exact hne hc
  have herr : body.marshalError ≠ none → code = 200 := by
    intro hm
    rcases hkind with ⟨_, ⟨e, he⟩, _⟩ | ⟨_, ⟨e, he⟩, _⟩ | ⟨hc, _⟩
    · rw [he] at hm; exact absurd rfl hm
    · rw [he] at hm; exact absurd rfl hm
    · exact hc
  refine ⟨code, body, trace, hcall, htrace, hkind, hcode, hsum, ?_, ?_, ?_⟩
  · intro hm
    rw [hcall, JSON_of_marshals _ _ _ hm]
  · intro hm
    have h200 := herr hm
    cases hme : body.marshalError with
    | none => exact absurd hme hm
    | some err =>
      rw [hcall, JSON_of_marshalError _ _ _ _ hme]
      refine ⟨h200, rfl, ?_⟩
      intro hw
      simp [Context.Status, hw, h200]
  · intro resp hmem
    rw [hcall] at hmem
    cases hme : body.marshalError with
    | none =>
      rw [JSON_of_marshals _ _ _ hme] at hmem
      rcases List.mem_append.1 hmem with h1 | h1
      · exact Or.inl h1
      · right
        simp only [List.mem_singleton, Prod.mk.injEq] at h1
        rcases hkind with ⟨_, ⟨e, he⟩, _⟩ | ⟨_, ⟨e, he⟩, _⟩ |
          ⟨_, _, req, resp2, _, _, hb, _, h2, h3, h4, _⟩
        · rw [he] at h1; cases h1.2
        · rw [he] at h1; cases h1.2
        · rw [hb] at h1
          have : resp = resp2 := by
            have := h1.2
            injection this
          rw [this]
          exact ⟨h2, h3, h4⟩
    | some err =>
      rw [JSON_of_marshalError _ _ _ _ hme] at hmem
      exact Or.inl hmem

/-- C25. `performReadinessChecks` returns the map with the two entries service
and configuration, both `ok`, for every handler; `HandleReadiness` makes
exactly one `c.JSON` call, with status 200 and a body with status `ready` and
that map as checks, for every handler, world and request; it never makes a
call with status 503 or with the status `not_ready`. -/
theorem HandleReadiness_always_ready (h : HealthHandler) (w : World) (c : Context) :
    h.performReadinessChecks = some [("service", "ok"), ("configuration", "ok")]
    ∧ h.checkConfiguration = "ok"
    ∧ readyLoop h.performReadinessChecks.entries true = true
    ∧ (h.HandleReadiness w c).2.Written = c.Written ++
        [(200, Payload.health
          { Status := "ready", Timestamp := w.clock w.ticks, Version := "", Uptime := "",
            Checks := some [("service", "ok"), ("configuration", "ok")],
            RequestID := Any.assertString (c.Get "request_id") })]
    ∧ (∀ resp, (503, Payload.health resp) ∈ (h.HandleReadiness w c).2.Written →
        (503, Payload.health resp) ∈ c.Written)
    ∧ (∀ code resp, (code, Payload.health resp) ∈ (h.HandleReadiness w c).2.Written →
        resp.Status = "not_ready" → (code, Payload.health resp) ∈ c.Written) := by
  have hmap : h.performReadinessChecks = some [("service", "ok"), ("configuration", "ok")] :=
    performReadinessChecks_eq h
  have hloop : readyLoop h.performReadinessChecks.entries true = true := by
    rw [hmap]
    decide
  have hw : (h.HandleReadiness w c).2.Written = c.Written ++
      [(200, Payload.health
        { Status := "ready", Timestamp := w.clock w.ticks, Version := "", Uptime := "",
          Checks := some [("service", "ok"), ("configuration", "ok")],
          RequestID := Any.assertString (c.Get "request_id") })] := by
    simp only [HealthHandler.HandleReadiness, hloop]
    rw [hmap]
    simp [Context.JSON, Payload.marshalError, World.Now, World.logEntry, StatusOK, middleware.RequestIDKey]
  refine ⟨hmap, rfl, hloop, hw, ?_, ?_⟩
  · intro resp hmem
    rw [hw] at hmem
    rcases List.mem_append.1 hmem with h1 | h1
    · exact h1
    · simp at h1
  · intro code resp hmem hst
    rw [hw] at hmem
    rcases List.mem_append.1 hmem with h1 | h1
    · exact h1
    · simp only [List.mem_singleton, Prod.mk.injEq, Payload.health.injEq] at h1
      rw [h1.2] at hst
      simp at hst

end handlers

/-! ## The configuration loader and the request identifiers -/

namespace config

/-- C23 on the code. With `TRUSTED_PROXIES` set to two networks separated by
a comma, `getSliceEnv` returns a slice with one element, the whole value, and
not the slice of the two networks; `Load` stores that slice as the trusted
proxies and `SetupRoutes` hands it to the router. With the variable not set,
`getSliceEnv` returns the default slice and `Load` returns the default
configuration. -/
theorem getSliceEnv_unsplit :
    getSliceEnv Example.proxyEnviron "TRUSTED_PROXIES"
        ["10.0.0.0/8", "172.16.0.0/12", "192.168.0.0/16"]
      = ["10.0.0.0/8,192.168.0.0/16"]
    ∧ getSliceEnv Example.proxyEnviron "TRUSTED_PROXIES"
        ["10.0.0.0/8", "172.16.0.0/12", "192.168.0.0/16"]
      ≠ ["10.0.0.0/8", "192.168.0.0/16"]
    ∧ (getSliceEnv Example.proxyEnviron "TRUSTED_PROXIES"
        ["10.0.0.0/8", "172.16.0.0/12", "192.168.0.0/16"]).length = 1
    ∧ (Load Example.proxyEnviron).Security.TrustedProxies = ["10.0.0.0/8,192.168.0.0/16"]
    ∧ (∀ rule : server.WildcardRule,
        (server.SetupRoutes rule (Load Example.proxyEnviron) ⟨"info", "json"⟩).map
          (fun e => e.TrustedProxies) = Except.ok ["10.0.0.0/8,192.168.0.0/16"])
    ∧ getSliceEnv Example.emptyEnviron "TRUSTED_PROXIES"
        ["10.0.0.0/8", "172.16.0.0/12", "192.168.0.0/16"]
      = ["10.0.0.0/8", "172.16.0.0/12", "192.168.0.0/16"]
    ∧ Load Example.emptyEnviron = Example.defaultConfig := by
  refine ⟨by decide, by decide, by decide, by decide, fun _ => rfl, by decide, by decide⟩

end config

namespace middleware

/-- C24. With a clock that never reads a time before the epoch, every index
`UnixNano() % 62` that `randomString` computes lies in the charset of 62
characters, `randomString` returns a string of exactly `length` characters,
each one of the charset, after `length` readings of the clock, and
`generateRequestID` returns the stamp of the time, a hyphen and eight
characters of the charset: an identifier that is not empty and is nine
characters longer than the stamp (23 characters for a stamp of 14). -/
theorem randomString_within_charset (length : Nat) (w : World)
    (hclock : ∀ k, 0 ≤ (w.clock k).wall) :
    charset.length = 62
    ∧ (∀ k, 0 ≤ Int.tmod (w.clock k).wall (charset.length : Int)
        ∧ Int.tmod (w.clock k).wall (charset.length : Int) < 62
        ∧ ∃ ch, charset.data.get? (Int.tmod (w.clock k).wall (charset.length : Int)).toNat
            = some ch)
    ∧ (∃ s, randomString length w = (Except.ok s, { w with ticks := w.ticks + length })
        ∧ s.length = length
        ∧ ∀ ch ∈ s.data, ch ∈ charset.data)
    ∧ (∃ r w1, generateRequestID w
          = (Except.ok (w.formatStamp (w.clock w.ticks) ++ "-" ++ r), w1)
        ∧ r.length = 8
        ∧ (∀ ch ∈ r.data, ch ∈ charset.data)
        ∧ w.formatStamp (w.clock w.ticks) ++ "-" ++ r ≠ ""
        ∧ (w.formatStamp (w.clock w.ticks) ++ "-" ++ r).length
            = (w.formatStamp (w.clock w.ticks)).length + 9
        ∧ ((w.formatStamp (w.clock w.ticks)).length = 14 →
            (w.formatStamp (w.clock w.ticks) ++ "-" ++ r).length = 23)) := by
  have hlen : (charset.length : Int) = 62 := by decide
  have hdl : charset.data.length = 62 := by decide
  refine ⟨by decide, ?_, ?_, ?_⟩
  · intro k
    have h0 : 0 ≤ Int.tmod (w.clock k).wall (charset.length : Int) :=
      Int.tmod_nonneg _ (hclock k)
    have h1 : Int.tmod (w.clock k).wall (charset.length : Int) < 62 := by
      rw [hlen]
      exact Int.tmod_lt_of_pos _ (by decide)
    have hlt : (Int.tmod (w.clock k).wall (charset.length : Int)).toNat
        < charset.data.length := by
      rw [hdl]
      omega
    exact ⟨h0, h1, _, List.get?_eq_get hlt⟩
  · obtain ⟨r, w2, hr, hrl, hrc, hw2⟩ := randomLoop_spec length [] w hclock
    refine ⟨String.mk r, ?_, ?_, hrc⟩
    · simp only [randomString]
      rw [hr, hw2]
      simp
    · simpa [String.length] using hrl
  · obtain ⟨r, w2, hr, hrl, hrc, _⟩ :=
      randomLoop_spec 8 [] { w with ticks := w.ticks + 1 } hclock
    have h1 : "-".length = 1 := by decide
    have hl : (w.formatStamp (w.clock w.ticks) ++ "-" ++ String.mk r).length
        = (w.formatStamp (w.clock w.ticks)).length + 9 := by
      simp only [String.length_append, h1]
      simp only [String.length]
      omega
    refine ⟨String.mk r, w2, ?_, by simpa [String.length] using hrl, hrc, ?_, hl, ?_⟩
    · simp only [generateRequestID, randomString, World.Now]
      rw [hr]
      simp
    · intro h
      have h2 := congrArg String.length h
      rw [hl] at h2
      have h3 : "".length = 0 := by decide
      omega
    · intro h14
      rw [hl, h14]

end middleware

/-! ## Worked instances for the sum handler and the request identifiers -/

namespace handlers

open models Float64

set_option maxRecDepth 100000 in
/-- Worked instance of C22: the body with three numbers reaches
`NewSumResponse` after `Validate`, and the body with one number does not reach
it. -/
theorem HandleSum_length_invariant_witness :
    (Example.sumHandler.HandleSum Example.world
        (Example.context "POST" "/api/v1/sum" Example.validBody)).1.calls
      = [Call.Validate, Call.NewSumResponse]
    ∧ (Example.sumHandler.HandleSum Example.world
        (Example.context "POST" "/api/v1/sum" Example.shortBody)).1.calls
      = [Call.Validate, Call.NewErrorResponse]
    ∧ ∃ code body trace,
        (Example.sumHandler.HandleSum Example.world
            (Example.context "POST" "/api/v1/sum" Example.validBody)).2
          = (Example.context "POST" "/api/v1/sum" Example.validBody).JSON code body
        ∧ (Example.sumHandler.HandleSum Example.world
            (Example.context "POST" "/api/v1/sum" Example.validBody)).1.calls = [] ++ trace
        ∧ (Call.NewSumResponse ∈ trace ↔ code = 200) := by
  refine ⟨by decide, by decide, ?_⟩
  obtain ⟨code, body, trace, hw, hc, _, hiff, _⟩ :=
    HandleSum_length_invariant Example.sumHandler Example.world
      (Example.context "POST" "/api/v1/sum" Example.validBody)
  exact ⟨code, body, trace, hw, hc, hiff⟩

set_option maxRecDepth 100000 in
/-- The claim C22 fails as it is worded. For the body with two numbers that are
each the largest `float64`, `Validate` accepts the list and `NewSumResponse` is
entered, and the response has status 200 and no body: it has neither a count
nor an array of numbers. -/
theorem HandleSum_length_invariant_counterexample :
    (Example.sumHandler.HandleSum Example.overflowWorld
        (Example.context "POST" "/api/v1/sum" Example.overflowBody)).1.calls
      = [Call.Validate, Call.NewSumResponse]
    ∧ (Example.sumHandler.HandleSum Example.overflowWorld
        (Example.context "POST" "/api/v1/sum" Example.overflowBody)).2.Status = 200
    ∧ (Example.sumHandler.HandleSum Example.overflowWorld
        (Example.context "POST" "/api/v1/sum" Example.overflowBody)).2.Written = []
    ∧ ¬ ∃ resp, (200, Payload.sum resp) ∈
        (Example.sumHandler.HandleSum Example.overflowWorld
          (Example.context "POST" "/api/v1/sum" Example.overflowBody)).2.Written := by
  have hw : (Example.sumHandler.HandleSum Example.overflowWorld
      (Example.context "POST" "/api/v1/sum" Example.overflowBody)).2.Written = [] := by
    decide!
  refine ⟨by decide!, by decide!, hw, ?_⟩
  rintro ⟨resp, hmem⟩
  rw [hw] at hmem
  cases hmem

/-- Worked instance of C25: with two GiB allocated, where the health handler
answers 503, the readiness handler answers 200 and `ready`. -/
theorem HandleReadiness_always_ready_witness :
    (Example.healthHandler.HandleReadiness Example.highMemoryWorld
        (Example.context "GET" "/healthz/ready" "")).2.Written
      = [] ++ [(200, Payload.health
          { Status := "ready", Timestamp := ⟨1700000000000000000, 5000000⟩, Version := "",
            Uptime := "", Checks := some [("service", "ok"), ("configuration", "ok")],
            RequestID := "test-request-id" })]
    ∧ (Example.healthHandler.HandleHealth Example.highMemoryWorld
        (Example.context "GET" "/healthz" "")).2.Written.map Prod.fst = [503] :=
  ⟨(HandleReadiness_always_ready Example.healthHandler Example.highMemoryWorld
      (Example.context "GET" "/healthz/ready" "")).2.2.2.1,
   by decide⟩

end handlers

namespace middleware

/-- Worked instance of C24: eight characters from the clock of the example
world, and the identifier made of its stamp and the next eight; with a clock
one nanosecond before the epoch the index is -1 and `randomString` panics. -/
theorem randomString_within_charset_witness :
    (∃ s, randomString 8 Example.serverWorld
          = (Except.ok s, { Example.serverWorld with ticks := Example.serverWorld.ticks + 8 })
        ∧ s.length = 8
        ∧ ∀ ch ∈ s.data, ch ∈ charset.data)
    ∧ (randomString 8 Example.serverWorld).1 = Except.ok "ACEGIKMO"
    ∧ (generateRequestID Example.serverWorld).1 = Except.ok "20231114221320-CEGIKMOQ"
    ∧ "20231114221320-CEGIKMOQ".length = 23
    ∧ (randomString 1 Example.earlyWorld).1
        = Except.error ⟨"runtime error: index out of range [-1]"⟩ :=
  ⟨(randomString_within_charset 8 Example.serverWorld (fun k => serverWorld_clock k)).2.2.1,
   rfl, rfl, by decide, rfl⟩

end middleware
